import Mathlib

/-!
# Build-configuration pipeline of `onnx2tensorrt.cpp`

A shallow embedding of `networkToEngine` (src/temp/onnx2tensorrt.cpp, lines 53-195).

The function drives the TensorRT objects it is handed (`IBuilder`, `INetworkDefinition`,
the `IBuilderConfig` and `IOptimizationProfile` it creates, the diagnostic stream `err`).
Those objects are modelled as records holding what the setters called by the source store
in them; the pipeline becomes a function from the objects before the call to an `Outcome`
holding the returned pointer and the objects after the call.

Library calls whose *result* the source branches on or returns, and which the source does
not define (`IOptimizationProfile::isValid`, `IBuilder::buildEngineWithConfig`), are taken
as parameters (`TensorRT`).
-/

namespace Onnx2TensorRT

/-! ## Data model -/

/-- The enumeration `nvinfer1::DataType`. -/
inductive DataType where
  | kFLOAT
  | kHALF
  | kINT8
  | kINT32
  | kBOOL
  deriving DecidableEq, Repr

/-- The enumeration `nvinfer1::TensorFormat`; the enumerator value is a bit position of `TensorFormats`. -/
inductive TensorFormat where
  | kLINEAR
  | kCHW2
  | kHWC8
  | kCHW4
  | kCHW16
  | kCHW32
  deriving DecidableEq, Repr

/-- Value of `static_cast<int>(f)` for a tensor format. -/
def TensorFormat.toNat : TensorFormat → Nat
  | .kLINEAR => 0
  | .kCHW2 => 1
  | .kHWC8 => 2
  | .kCHW4 => 3
  | .kCHW16 => 4
  | .kCHW32 => 5

/-- The type `nvinfer1::TensorFormats`, a `uint32_t` bit mask of allowed formats. -/
abbrev TensorFormats := Nat

/-- The pair `IOFormat = std::pair<DataType, TensorFormats>` of sampleOptions.h. -/
abbrev IOFormat := DataType × TensorFormats

/-- The expression `1U << static_cast<int>(TensorFormat::kLINEAR)` (lines 82 and 134), an unsigned 32-bit shift. -/
def linearFormats : TensorFormats :=
  (1 <<< TensorFormat.kLINEAR.toNat) % 2 ^ 32

/-- The struct `nvinfer1::Dims`, `int nbDims; int d[MAX_DIMS];`.
The array `d` is kept as the list of its slots; only slots below `nbDims` are extents. -/
structure Dims where
  nbDims : Int
  d : List Int
  deriving DecidableEq, Repr

/-- Read of `dims.d[0]`. -/
def Dims.d0 (dims : Dims) : Int :=
  dims.d.headD 0

/-- Write `dims.d[0] = v`: slot 0 of the array always exists, whatever `nbDims` is. -/
def Dims.setD0 (dims : Dims) (v : Int) : Dims :=
  { dims with d := v :: dims.d.tail }

/-- The test `std::any_of(dims.d + 1, dims.d + dims.nbDims, [](int dim){ return dim == -1; })` of line 88:
some slot with index in `[1, nbDims)` holds `-1`. -/
def Dims.anyNonBatchDynamic (dims : Dims) : Bool :=
  ((dims.d.take dims.nbDims.toNat).drop 1).any (fun dim => dim == -1)

/-- The enumeration `nvinfer1::OptProfileSelector`. -/
inductive OptProfileSelector where
  | kMIN
  | kOPT
  | kMAX
  deriving DecidableEq, Repr

/-- The array `ShapeRange = std::array<nvinfer1::Dims, EnumMax<OptProfileSelector>()>` of sampleOptions.h,
one `Dims` per selector. -/
structure ShapeRange where
  kMIN : Dims
  kOPT : Dims
  kMAX : Dims
  deriving DecidableEq, Repr

/-- Indexing `shape->second[static_cast<size_t>(sel)]`. -/
def ShapeRange.get (r : ShapeRange) : OptProfileSelector → Dims
  | .kMIN => r.kMIN
  | .kOPT => r.kOPT
  | .kMAX => r.kMAX

/-- Lookup by key in a name-keyed table (`std::unordered_map::find`); `none` is `end()`. -/
def find {β : Type} (name : String) : List (String × β) → Option β
  | [] => none
  | (k, v) :: rest => if k = name then some v else find name rest

/-- The fields of `BuildOptions` (sampleOptions.h) that `networkToEngine` reads. -/
structure BuildOptions where
  maxBatch : Int
  workspace : Int
  fp16 : Bool
  int8 : Bool
  safe : Bool
  calibration : String
  shapes : List (String × ShapeRange)
  inputFormats : List IOFormat
  outputFormats : List IOFormat

/-- The fields of `SystemOptions` (sampleOptions.h) that `networkToEngine` reads. -/
structure SystemOptions where
  DLACore : Int
  fallback : Bool

/-- The declaration of a network tensor as seen through `ITensor`:
`getName`, `setType`, `setAllowedFormats`, `getDimensions` / `setDimensions`. -/
structure ITensor where
  name : String
  type : DataType
  allowedFormats : TensorFormats
  dimensions : Dims
  deriving DecidableEq, Repr

/-- The network as seen through `getNbInputs` / `getInput` and `getNbOutputs` / `getOutput`. -/
structure INetworkDefinition where
  inputs : List ITensor
  outputs : List ITensor
  deriving DecidableEq, Repr

/-- The bounds registered for one tensor name in an optimization profile; `none` is a selector never set. -/
structure ProfileDims where
  kMIN : Option Dims
  kOPT : Option Dims
  kMAX : Option Dims
  deriving DecidableEq, Repr

/-- No bound registered. -/
def ProfileDims.unset : ProfileDims :=
  { kMIN := none, kOPT := none, kMAX := none }

/-- Read of the bound of one selector. -/
def ProfileDims.get (e : ProfileDims) : OptProfileSelector → Option Dims
  | .kMIN => e.kMIN
  | .kOPT => e.kOPT
  | .kMAX => e.kMAX

/-- Store of the bound of one selector. -/
def ProfileDims.set (e : ProfileDims) (sel : OptProfileSelector) (dims : Dims) : ProfileDims :=
  match sel with
  | .kMIN => { e with kMIN := some dims }
  | .kOPT => { e with kOPT := some dims }
  | .kMAX => { e with kMAX := some dims }

/-- Store into the entry of `name`, creating the entry when the name is new. -/
def upsert (name : String) (f : ProfileDims → ProfileDims) :
    List (String × ProfileDims) → List (String × ProfileDims)
  | [] => [(name, f ProfileDims.unset)]
  | (k, e) :: rest => if k = name then (k, f e) :: rest else (k, e) :: upsert name f rest

/-- The object `IOptimizationProfile`: for each tensor name, the bounds registered by `setDimensions`. -/
structure IOptimizationProfile where
  entries : List (String × ProfileDims)
  deriving DecidableEq, Repr

/-- Result of `builder.createOptimizationProfile()` (line 66): a profile with nothing registered. -/
def IOptimizationProfile.empty : IOptimizationProfile :=
  { entries := [] }

/-- The call `profile->setDimensions(name, sel, dims)`; the source ignores its return value,
the call is modelled as the store of `dims` under `(name, sel)`. -/
def IOptimizationProfile.setDimensions (p : IOptimizationProfile) (name : String)
    (sel : OptProfileSelector) (dims : Dims) : IOptimizationProfile :=
  { entries := upsert name (fun e => e.set sel dims) p.entries }

/-- The call `profile->getDimensions(name, sel)`; `none` when nothing was registered. -/
def IOptimizationProfile.getDimensions (p : IOptimizationProfile) (name : String)
    (sel : OptProfileSelector) : Option Dims :=
  (find name p.entries).bind (fun e => e.get sel)

/-- The enumeration `nvinfer1::BuilderFlag`; the enumerator value is a bit position of `BuilderFlags`. -/
inductive BuilderFlag where
  | kFP16
  | kINT8
  | kDEBUG
  | kGPU_FALLBACK
  | kSTRICT_TYPES
  | kREFIT
  deriving DecidableEq, Repr

/-- Value of `static_cast<int>(f)` for a builder flag. -/
def BuilderFlag.toNat : BuilderFlag → Nat
  | .kFP16 => 0
  | .kINT8 => 1
  | .kDEBUG => 2
  | .kGPU_FALLBACK => 3
  | .kSTRICT_TYPES => 4
  | .kREFIT => 5

/-- The enumeration `nvinfer1::EngineCapability`. -/
inductive EngineCapability where
  | kDEFAULT
  | kSAFE_GPU
  | kSAFE_DLA
  deriving DecidableEq, Repr

/-- The enumeration `nvinfer1::DeviceType`. -/
inductive DeviceType where
  | kGPU
  | kDLA
  deriving DecidableEq, Repr

/-- The object built by `new RndInt8Calibrator(batches, cacheFile, network, err)` (line 162),
kept as the arguments that bind it; what its constructor does with them is outside the model. -/
structure RndInt8Calibrator where
  batches : Int
  cacheFile : String
  deriving DecidableEq, Repr

/-- The object `IBuilderConfig`. Each field holds what the matching setter stored since the
configuration was created; `none` is a field that no setter has touched (the library default).
`flags` is the `BuilderFlags` bit mask, `profiles` the profiles added by `addOptimizationProfile`. -/
structure IBuilderConfig where
  profiles : List IOptimizationProfile
  maxWorkspaceSize : Option Nat
  flags : Nat
  int8Calibrator : Option RndInt8Calibrator
  engineCapability : Option EngineCapability
  defaultDeviceType : Option DeviceType
  DLACore : Option Int
  deriving DecidableEq, Repr

/-- Result of `builder.createBuilderConfig()` (line 55): a configuration on which nothing has been set. -/
def IBuilderConfig.fresh : IBuilderConfig :=
  { profiles := [], maxWorkspaceSize := none, flags := 0, int8Calibrator := none,
    engineCapability := none, defaultDeviceType := none, DLACore := none }

/-- The call `config->setFlag(f)`: adds the bit of `f` to the enabled flags. -/
def IBuilderConfig.setFlag (c : IBuilderConfig) (f : BuilderFlag) : IBuilderConfig :=
  { c with flags := c.flags ||| (1 <<< f.toNat) }

/-- The call `config->getFlag(f)`. -/
def IBuilderConfig.getFlag (c : IBuilderConfig) (f : BuilderFlag) : Bool :=
  c.flags.testBit f.toNat

/-- The builder as seen through `setMaxBatchSize` and `getNbDLACores`. -/
structure IBuilder where
  maxBatchSize : Int
  nbDLACores : Int
  deriving DecidableEq, Repr

/-- The compiled plan `ICudaEngine`, kept as a bare handle. -/
structure ICudaEngine where
  handle : Nat
  deriving DecidableEq, Repr

/-- The library calls whose result `networkToEngine` branches on or returns and which the source
does not define: `IOptimizationProfile::isValid` and `IBuilder::buildEngineWithConfig`
(`none` is the null pointer). -/
structure TensorRT where
  isValid : IOptimizationProfile → Bool
  buildEngineWithConfig : IBuilder → INetworkDefinition → IBuilderConfig → Option ICudaEngine

/-- A call made by the pipeline to a collaborator whose effect is not part of the records above,
with the arguments of the call. -/
inductive Call where
  | setTensorScales (network : INetworkDefinition)
  | buildEngineWithConfig (builder : IBuilder) (network : INetworkDefinition) (config : IBuilderConfig)
  deriving DecidableEq, Repr

/-- What a call of `networkToEngine` leaves behind: the returned pointer (`none` is `nullptr`),
the objects it was handed, the configuration and the profile it created (`none` is the null
`profile` pointer), the lines written to `err`, and the collaborator calls in order. -/
structure Outcome where
  engine : Option ICudaEngine
  builder : IBuilder
  network : INetworkDefinition
  config : IBuilderConfig
  profile : Option IOptimizationProfile
  err : List String
  calls : List Call

/-! ## The pipeline -/

/-- Lines 57-68: the max batch size and the creation of the profile. -/
def batchStage (build : BuildOptions) (builder : IBuilder) : IBuilder × Option IOptimizationProfile :=
  if build.maxBatch != 0 then
    ({ builder with maxBatchSize := build.maxBatch }, none)
  else if !build.shapes.isEmpty then
    (builder, some IOptimizationProfile.empty)
  else
    (builder, none)

/-- Lines 74-83 (inputs) and 126-135 (outputs): with a non-empty override list the tensor gets
the type and formats of `formats[i]`, otherwise `DataType::kFLOAT` and the linear format.
`formats[i]` past the end of the vector is undefined in the source; here it writes nothing. -/
def resolveFormat (formats : List IOFormat) (i : Nat) (t : ITensor) : ITensor :=
  if !formats.isEmpty then
    match formats.get? i with
    | some f => { t with type := f.1, allowedFormats := f.2 }
    | none => t
  else
    { t with type := DataType.kFLOAT, allowedFormats := linearFormats }

/-- Body of the input loop (lines 72-109) for the input at index `i`, with the current value of
the `profile` pointer. Returns the tensor as the body leaves it and either the diagnostic of the
`return nullptr` taken, or the profile after the body. -/
def inputStep (build : BuildOptions) (i : Nat) (input : ITensor) (profile : Option IOptimizationProfile) :
    ITensor × Except String (Option IOptimizationProfile) :=
  let input := resolveFormat build.inputFormats i input
  match profile with
  | none => (input, .ok none)
  | some p =>
    let dims := input.dimensions
    if dims.anyNonBatchDynamic then
      (input, .error "Only dynamic batch dimension is currently supported, other dimensions must be static")
    else
      let dims := dims.setD0 (-1)
      let profileDims := dims
      match find input.name build.shapes with
      | none => (input, .error ("Dynamic dimensions required for input " ++ input.name))
      | some shape =>
        let profileDims := profileDims.setD0 (shape.get OptProfileSelector.kMIN).d0
        let p := p.setDimensions input.name OptProfileSelector.kMIN profileDims
        let profileDims := profileDims.setD0 (shape.get OptProfileSelector.kOPT).d0
        let p := p.setDimensions input.name OptProfileSelector.kOPT profileDims
        let profileDims := profileDims.setD0 (shape.get OptProfileSelector.kMAX).d0
        let p := p.setDimensions input.name OptProfileSelector.kMAX profileDims
        ({ input with dimensions := dims }, .ok (some p))

/-- The input loop (lines 70-110) from index `i` on, over the inputs not yet visited.
Returns the tensors as the loop leaves them, the profile, and the diagnostic of the
`return nullptr` that left the loop early (`none` when the loop ran to its end). -/
def inputLoop (build : BuildOptions) :
    Nat → List ITensor → Option IOptimizationProfile →
      List ITensor × Option IOptimizationProfile × Option String
  | _, [], profile => ([], profile, none)
  | i, input :: rest, profile =>
    match inputStep build i input profile with
    | (input1, .error msg) => (input1 :: rest, profile, some msg)
    | (input1, .ok profile1) =>
      match inputLoop build (i + 1) rest profile1 with
      | (rest1, profile2, r) => (input1 :: rest1, profile2, r)

/-- The output loop (lines 122-136) from index `i` on. -/
def outputLoop (build : BuildOptions) : Nat → List ITensor → List ITensor
  | _, [] => []
  | i, output :: rest => resolveFormat build.outputFormats i output :: outputLoop build (i + 1) rest

/-- The lambda `isInt8` of line 150. -/
def isInt8 (format : IOFormat) : Bool :=
  format.1 == DataType.kINT8

/-- The count of lines 151-152: INT8 entries of the input and output override lists. -/
def int8IOCount (build : BuildOptions) : Nat :=
  build.inputFormats.countP isInt8 + build.outputFormats.countP isInt8

/-- The argument `static_cast<size_t>(build.workspace) << 20` of line 138 on a 64-bit `size_t`. -/
def workspaceBytes (build : BuildOptions) : Nat :=
  ((build.workspace % 2 ^ 64).toNat <<< 20) % 2 ^ 64

/-- Lines 138-148: workspace limit and the two precision flags. -/
def precisionStage (build : BuildOptions) (config : IBuilderConfig) : IBuilderConfig :=
  let config := { config with maxWorkspaceSize := some (workspaceBytes build) }
  let config := if build.fp16 then config.setFlag BuilderFlag.kFP16 else config
  let config := if build.int8 then config.setFlag BuilderFlag.kINT8 else config
  config

/-- Lines 150-163: explicit tensor scales or a calibrator. Returns the configuration and the
collaborator calls made. -/
def calibrationStage (build : BuildOptions) (network : INetworkDefinition) (config : IBuilderConfig) :
    IBuilderConfig × List Call :=
  if (build.int8 && build.calibration.isEmpty) || int8IOCount build != 0 then
    (config, [Call.setTensorScales network])
  else if build.int8 then
    ({ config with int8Calibrator := some { batches := 1, cacheFile := build.calibration } }, [])
  else
    (config, [])

/-- Lines 165-168: engine capability of a safety build. -/
def capabilityStage (build : BuildOptions) (sys : SystemOptions) (config : IBuilderConfig) : IBuilderConfig :=
  if build.safe then
    let capability := if sys.DLACore != -1 then EngineCapability.kSAFE_DLA else EngineCapability.kSAFE_GPU
    { config with engineCapability := some capability }
  else config

/-- Lines 170-192: accelerator selection; `.error` carries the diagnostic of the `return nullptr`. -/
def acceleratorStage (build : BuildOptions) (sys : SystemOptions) (builder : IBuilder)
    (config : IBuilderConfig) : Except String IBuilderConfig :=
  if sys.DLACore != -1 then
    if sys.DLACore < builder.nbDLACores then
      let config := { config with defaultDeviceType := some DeviceType.kDLA }
      let config := { config with DLACore := some sys.DLACore }
      let config := config.setFlag BuilderFlag.kSTRICT_TYPES
      let config := if sys.fallback then config.setFlag BuilderFlag.kGPU_FALLBACK else config
      let config := if !build.int8 then config.setFlag BuilderFlag.kFP16 else config
      .ok config
    else
      .error ("Cannot create DLA engine, " ++ toString sys.DLACore ++ " not available")
  else
    .ok config

/-- The call `config->addOptimizationProfile(profile)`. -/
def IBuilderConfig.addOptimizationProfile (c : IBuilderConfig) (p : IOptimizationProfile) : IBuilderConfig :=
  { c with profiles := c.profiles ++ [p] }

/-- Line 119 under the test `if (profile)` of line 112: the profile, when there is one, is added
to the configuration. -/
def attachProfile (config : IBuilderConfig) : Option IOptimizationProfile → IBuilderConfig
  | some p => config.addOptimizationProfile p
  | none => config

/-- Lines 119-194 of `networkToEngine`, run once the profile (if any) has been found valid:
attach the profile, resolve the output formats, configure precision, calibration, capability
and accelerator, then call the compiler. -/
def configureAndBuild (trt : TensorRT) (build : BuildOptions) (sys : SystemOptions) (builder : IBuilder)
    (network : INetworkDefinition) (config : IBuilderConfig) (profile : Option IOptimizationProfile)
    (err : List String) : Outcome :=
  let config := attachProfile config profile
  let network := { network with outputs := outputLoop build 0 network.outputs }
  let config := precisionStage build config
  match calibrationStage build network config with
  | (config, calls) =>
  let config := capabilityStage build sys config
  match acceleratorStage build sys builder config with
  | .error msg =>
    { engine := none, builder := builder, network := network, config := config, profile := profile,
      err := err ++ [msg], calls := calls }
  | .ok config =>
    { engine := trt.buildEngineWithConfig builder network config,
      builder := builder, network := network, config := config, profile := profile,
      err := err, calls := calls ++ [Call.buildEngineWithConfig builder network config] }

/-- The test `profile && !profile->isValid()` of lines 112-114. -/
def profileRejected (trt : TensorRT) : Option IOptimizationProfile → Bool
  | some p => !trt.isValid p
  | none => false

/-- The function `networkToEngine` (lines 53-195). `err` holds the lines already on the stream. -/
def networkToEngine (trt : TensorRT) (build : BuildOptions) (sys : SystemOptions) (builder : IBuilder)
    (network : INetworkDefinition) (err : List String) : Outcome :=
  let config := IBuilderConfig.fresh
  match batchStage build builder with
  | (builder, profile) =>
  match inputLoop build 0 network.inputs profile with
  | (inputs, profile, some msg) =>
    { engine := none, builder := builder, network := { network with inputs := inputs },
      config := config, profile := profile, err := err ++ [msg], calls := [] }
  | (inputs, profile, none) =>
    let network := { network with inputs := inputs }
    if profileRejected trt profile then
      { engine := none, builder := builder, network := network, config := config, profile := profile,
        err := err ++ ["Required optimization profile is invalid"], calls := [] }
    else
      configureAndBuild trt build sys builder network config profile err

/-! ## The call of the scale-setting routine

`setTensorScales` is declared outside the source. Line 158 calls it as a statement and
lines 53-195 hold no handler, so the call can end in two ways for `networkToEngine`: it returns,
and whatever it returns is dropped; or it raises, and the exception leaves `networkToEngine`. -/

/-- How the call `setTensorScales(network)` of line 158 ends: it returns (`complete` tells
whether the routine found scale data for every tensor that requires it, which the statement
call drops), or it raises. -/
inductive ScalesCall where
  | returned (complete : Bool)
  | raised
  deriving DecidableEq, Repr

/-- How a call of `networkToEngine` ends: it returns, with the outcome `out`; or an exception
raised at line 158 leaves it, after the collaborator calls `calls`, and nothing is returned. -/
inductive Ending where
  | returned (out : Outcome)
  | raised (calls : List Call)

/-- The pointer returned, when the call returned. -/
def Ending.engine : Ending → Option (Option ICudaEngine)
  | .returned out => some out.engine
  | .raised _ => none

/-- The collaborator calls made, in order. -/
def Ending.calls : Ending → List Call
  | .returned out => out.calls
  | .raised calls => calls

/-- Lines 150-163 with the end of the call of line 158 explicit: `.error` carries the calls
made when the routine raised. -/
def calibrationStageWith (setTensorScales : INetworkDefinition → ScalesCall) (build : BuildOptions)
    (network : INetworkDefinition) (config : IBuilderConfig) :
    Except (List Call) (IBuilderConfig × List Call) :=
  if (build.int8 && build.calibration.isEmpty) || int8IOCount build != 0 then
    match setTensorScales network with
    | .returned _ => .ok (config, [Call.setTensorScales network])
    | .raised => .error [Call.setTensorScales network]
  else if build.int8 then
    .ok ({ config with int8Calibrator := some { batches := 1, cacheFile := build.calibration } }, [])
  else
    .ok (config, [])

/-- Lines 119-194 with the end of the call of line 158 explicit. -/
def configureAndBuildWith (setTensorScales : INetworkDefinition → ScalesCall) (trt : TensorRT)
    (build : BuildOptions) (sys : SystemOptions) (builder : IBuilder) (network : INetworkDefinition)
    (config : IBuilderConfig) (profile : Option IOptimizationProfile) (err : List String) : Ending :=
  let config := attachProfile config profile
  let network := { network with outputs := outputLoop build 0 network.outputs }
  let config := precisionStage build config
  match calibrationStageWith setTensorScales build network config with
  | .error calls => .raised calls
  | .ok (config, calls) =>
  let config := capabilityStage build sys config
  match acceleratorStage build sys builder config with
  | .error msg =>
    .returned { engine := none, builder := builder, network := network, config := config,
                profile := profile, err := err ++ [msg], calls := calls }
  | .ok config =>
    .returned { engine := trt.buildEngineWithConfig builder network config,
                builder := builder, network := network, config := config, profile := profile,
                err := err, calls := calls ++ [Call.buildEngineWithConfig builder network config] }

/-- The function `networkToEngine` (lines 53-195) with the end of the call of line 158
explicit. -/
def networkToEngineWith (setTensorScales : INetworkDefinition → ScalesCall) (trt : TensorRT)
    (build : BuildOptions) (sys : SystemOptions) (builder : IBuilder) (network : INetworkDefinition)
    (err : List String) : Ending :=
  let config := IBuilderConfig.fresh
  match batchStage build builder with
  | (builder, profile) =>
  match inputLoop build 0 network.inputs profile with
  | (inputs, profile, some msg) =>
    .returned { engine := none, builder := builder, network := { network with inputs := inputs },
                config := config, profile := profile, err := err ++ [msg], calls := [] }
  | (inputs, profile, none) =>
    let network := { network with inputs := inputs }
    if profileRejected trt profile then
      .returned { engine := none, builder := builder, network := network, config := config,
                  profile := profile, err := err ++ ["Required optimization profile is invalid"],
                  calls := [] }
    else
      configureAndBuildWith setTensorScales trt build sys builder network config profile err

/-! ## Vocabulary of the specification -/

/-- Dynamic-batch mode: no fixed batch size and a non-empty shape-bound table. -/
def dynamicBatch (build : BuildOptions) : Prop :=
  build.maxBatch = 0 ∧ build.shapes ≠ []

/-- The tensor has a dimension other than dimension 0 equal to `-1`. -/
def hasNonBatchDynamicDim (t : ITensor) : Prop :=
  ∃ k : Nat, 1 ≤ k ∧ (k : Int) < t.dimensions.nbDims ∧ t.dimensions.d[k]? = some (-1)

/-- The tensor passes both per-tensor checks of the input loop: no dynamic dimension other than
dimension 0, and its name has an entry in the shape-bound table. -/
def passesChecks (build : BuildOptions) (t : ITensor) : Prop :=
  ¬ hasNonBatchDynamicDim t ∧ ∃ r, find t.name build.shapes = some r

/-- Boolean form of the failure of a per-tensor check, as the loop evaluates it. -/
def failsCheck (build : BuildOptions) (t : ITensor) : Bool :=
  t.dimensions.anyNonBatchDynamic || (find t.name build.shapes).isNone

/-- The diagnostic of a failure of the shape-profile stage (lines 57-120), `none` when the stage
lets the build go on to the output loop. -/
def shapeProfileFailure (trt : TensorRT) (build : BuildOptions) (builder : IBuilder)
    (network : INetworkDefinition) : Option String :=
  match inputLoop build 0 network.inputs (batchStage build builder).2 with
  | (_, _, some msg) => some msg
  | (_, profile, none) =>
    if profileRejected trt profile then some "Required optimization profile is invalid" else none

/-- The shape `s` with dimension 0 replaced by dimension 0 of the caller's bound for `sel`. -/
def boundOf (s : Dims) (r : ShapeRange) (sel : OptProfileSelector) : Dims :=
  s.setD0 (r.get sel).d0

/-- The registration of the three bounds of one input (lines 101-106); nothing when the table
has no entry for the name. -/
def register (build : BuildOptions) (p : IOptimizationProfile) (t : ITensor) : IOptimizationProfile :=
  match find t.name build.shapes with
  | none => p
  | some r =>
    ((p.setDimensions t.name OptProfileSelector.kMIN (boundOf t.dimensions r OptProfileSelector.kMIN)).setDimensions
      t.name OptProfileSelector.kOPT (boundOf t.dimensions r OptProfileSelector.kOPT)).setDimensions
      t.name OptProfileSelector.kMAX (boundOf t.dimensions r OptProfileSelector.kMAX)

/-- The input at index `i` as the loop body leaves it when both checks pass. -/
def visited (build : BuildOptions) (i : Nat) (t : ITensor) : ITensor :=
  { resolveFormat build.inputFormats i t with dimensions := t.dimensions.setD0 (-1) }

/-- The diagnostic written when the tensor fails a per-tensor check: the non-batch dynamic
dimension is tested first (line 88), the table lookup second (line 96). -/
def checkDiagnostic (t : ITensor) : String :=
  if t.dimensions.anyNonBatchDynamic then
    "Only dynamic batch dimension is currently supported, other dimensions must be static"
  else
    "Dynamic dimensions required for input " ++ t.name

/-- The network as lines 122-136 leave it: every output format resolved. -/
def withOutputs (build : BuildOptions) (network : INetworkDefinition) : INetworkDefinition :=
  { network with outputs := outputLoop build 0 network.outputs }

/-- The configuration as it enters the accelerator stage (after lines 119-168). -/
def configBeforeAccelerator (build : BuildOptions) (sys : SystemOptions) (network : INetworkDefinition)
    (config : IBuilderConfig) (profile : Option IOptimizationProfile) : IBuilderConfig :=
  capabilityStage build sys
    (calibrationStage build (withOutputs build network) (precisionStage build (attachProfile config profile))).1

/-- The part of the contract of the library call `IOptimizationProfile::isValid` that the
specification relies on ("internally consistent, e.g. not min > max"), on dimension 0: in a
profile reported valid, a name with its three bounds registered has
minimum ≤ optimum ≤ maximum on dimension 0. -/
def validatorChecksBatchOrder (trt : TensorRT) : Prop :=
  ∀ (p : IOptimizationProfile) (name : String) (mn op mx : Dims), trt.isValid p = true →
    p.getDimensions name OptProfileSelector.kMIN = some mn →
    p.getDimensions name OptProfileSelector.kOPT = some op →
    p.getDimensions name OptProfileSelector.kMAX = some mx →
    mn.d0 ≤ op.d0 ∧ op.d0 ≤ mx.d0

/-- The entry holds three bounds whose dimension 0 is that of the caller's bounds `r`. -/
def carriesBatchOf (r : ShapeRange) (e : ProfileDims) : Prop :=
  ∃ mn op mx, e = { kMIN := some mn, kOPT := some op, kMAX := some mx } ∧
    mn.d0 = r.kMIN.d0 ∧ op.d0 = r.kOPT.d0 ∧ mx.d0 = r.kMAX.d0

/-- Some entry of `inputFormats` or `outputFormats` has data type INT8. -/
def hasInt8Override (build : BuildOptions) : Prop :=
  ∃ f : IOFormat, (f ∈ build.inputFormats ∨ f ∈ build.outputFormats) ∧ f.1 = DataType.kINT8

/-- The condition under which the specification selects explicit tensor scales. -/
def explicitScales (build : BuildOptions) : Prop :=
  (build.int8 = true ∧ build.calibration = "") ∨ hasInt8Override build

/-- First listed error condition: dynamic-batch mode and some input has a non-batch dynamic
dimension. -/
def nonBatchDynamicFailure (build : BuildOptions) (network : INetworkDefinition) : Prop :=
  dynamicBatch build ∧ ∃ t ∈ network.inputs, hasNonBatchDynamicDim t

/-- Second listed error condition: dynamic-batch mode and the name of some input is absent from
the shape-bound table. -/
def missingBoundsFailure (build : BuildOptions) (network : INetworkDefinition) : Prop :=
  dynamicBatch build ∧ ∃ t ∈ network.inputs, find t.name build.shapes = none

/-- Third listed error condition: the profile `assembled` from all the inputs (dynamic-batch
mode, every input passing the per-tensor checks) is reported invalid by the library. -/
def invalidProfileFailure (trt : TensorRT) (build : BuildOptions) (network : INetworkDefinition)
    (assembled : Option IOptimizationProfile) : Prop :=
  dynamicBatch build ∧ (∀ t ∈ network.inputs, passesChecks build t) ∧
    ∃ p, assembled = some p ∧ trt.isValid p = false

/-- Fourth listed error condition: a DLA core is requested and its index is at least the
number of DLA cores. -/
def deviceUnavailable (sys : SystemOptions) (builder : IBuilder) : Prop :=
  sys.DLACore ≠ -1 ∧ builder.nbDLACores ≤ sys.DLACore

/-- One of the four error conditions that `networkToEngine` detects itself. -/
def listedFailure (trt : TensorRT) (build : BuildOptions) (sys : SystemOptions) (builder : IBuilder)
    (network : INetworkDefinition) (assembled : Option IOptimizationProfile) : Prop :=
  nonBatchDynamicFailure build network ∨ missingBoundsFailure build network ∨
    invalidProfileFailure trt build network assembled ∨ deviceUnavailable sys builder

/-- The configuration as it enters line 165, where the accelerator-target stage begins with the
engine capability of a safety build (after lines 119-163). -/
def configBeforeCapability (build : BuildOptions) (network : INetworkDefinition)
    (config : IBuilderConfig) (profile : Option IOptimizationProfile) : IBuilderConfig :=
  (calibrationStage build (withOutputs build network) (precisionStage build (attachProfile config profile))).1

/-- The configuration that a call of `networkToEngine` holds when its accelerator-target stage
begins (line 165), in a build whose shape-profile stage did not fail. -/
def acceleratorEntryConfig (build : BuildOptions) (builder : IBuilder) (network : INetworkDefinition) :
    IBuilderConfig :=
  configBeforeCapability build
    { network with inputs := (inputLoop build 0 network.inputs (batchStage build builder).2).1 }
    IBuilderConfig.fresh (inputLoop build 0 network.inputs (batchStage build builder).2).2.1

/-! ## Concrete builds -/

/-- A library whose validator accepts every profile and whose compiler returns a plan. -/
def exTrt : TensorRT :=
  { isValid := fun _ => true, buildEngineWithConfig := fun _ _ _ => some { handle := 7 } }

/-- Entry check of `exStrictTrt`: registered bounds are in order on dimension 0. -/
def exOrdered (e : String × ProfileDims) : Bool :=
  match e.2.kMIN, e.2.kOPT, e.2.kMAX with
  | some mn, some op, some mx => decide (mn.d0 ≤ op.d0) && decide (op.d0 ≤ mx.d0)
  | _, _, _ => true

/-- A library whose validator accepts the non-empty profiles with ordered bounds. -/
def exStrictTrt : TensorRT :=
  { isValid := fun p => !p.entries.isEmpty && p.entries.all exOrdered,
    buildEngineWithConfig := fun _ _ _ => some { handle := 7 } }

/-- An input of static shape 1x3x224x224 named "a", declared `kHALF`. -/
def exStatic : ITensor :=
  { name := "a", type := DataType.kHALF, allowedFormats := 2,
    dimensions := { nbDims := 4, d := [1, 3, 224, 224, 0, 0, 0, 0] } }

/-- An input named "b" whose dimension 2 is dynamic. -/
def exDynamic : ITensor :=
  { name := "b", type := DataType.kHALF, allowedFormats := 2,
    dimensions := { nbDims := 4, d := [1, 3, -1, 224, 0, 0, 0, 0] } }

/-- Caller bounds with `a`, `b`, `c` on dimension 0; the optimum differs from the graph elsewhere. -/
def exRange (a b c : Int) : ShapeRange :=
  { kMIN := { nbDims := 4, d := [a, 3, 224, 224, 0, 0, 0, 0] },
    kOPT := { nbDims := 4, d := [b, 9, 9, 9, 0, 0, 0, 0] },
    kMAX := { nbDims := 4, d := [c, 3, 224, 224, 0, 0, 0, 0] } }

/-- A dynamic-batch build: no fixed batch size, bounds 1/8/32 for input "a". -/
def exBuild : BuildOptions :=
  { maxBatch := 0, workspace := 16, fp16 := false, int8 := false, safe := false, calibration := "",
    shapes := [("a", exRange 1 8 32)], inputFormats := [], outputFormats := [] }

/-- As `exBuild`, with bounds 8/4/2 for input "a". -/
def exBadBuild : BuildOptions :=
  { exBuild with shapes := [("a", exRange 8 4 2)] }

/-- As `exBadBuild`, in fixed-batch mode. -/
def exFixedBadBuild : BuildOptions :=
  { exBadBuild with maxBatch := 4 }

/-- As `exBuild`, with INT8 requested and a calibration reference. -/
def exCalibratedBuild : BuildOptions :=
  { exBuild with int8 := true, calibration := "calib.cache" }

/-- As `exBuild`, with an INT8 override for the one input. -/
def exFormatBuild : BuildOptions :=
  { exBuild with inputFormats := [(DataType.kINT8, 8)], outputFormats := [] }

/-- A library whose compiler returns null. -/
def exFailingTrt : TensorRT :=
  { isValid := fun _ => true, buildEngineWithConfig := fun _ _ _ => none }

/-- An input named "c", for which the example tables have no bounds. -/
def exUnlisted : ITensor :=
  { name := "c", type := DataType.kHALF, allowedFormats := 2,
    dimensions := { nbDims := 2, d := [1, 10, 0, 0, 0, 0, 0, 0] } }

/-- As `exBuild`, in fixed-batch mode. -/
def exFixedBuild : BuildOptions :=
  { exBuild with maxBatch := 4 }

/-- DLA core 1 requested, no fallback. -/
def exDlaSys : SystemOptions := { DLACore := 1, fallback := false }

/-- No DLA core requested. -/
def exSys : SystemOptions := { DLACore := -1, fallback := false }

/-- A builder on a device with 2 DLA cores. -/
def exBuilder : IBuilder := { maxBatchSize := 1, nbDLACores := 2 }

/-- A network with input "a" and one output. -/
def exNetwork : INetworkDefinition := { inputs := [exStatic], outputs := [exStatic] }

/-- As `exBuild`, with a safety build requested. -/
def exSafeBuild : BuildOptions :=
  { exBuild with safe := true }

/-- As `exBuild`, with INT8 requested and no calibration reference. -/
def exInt8Build : BuildOptions :=
  { exBuild with int8 := true }

/-- DLA core 2 requested, which a builder with 2 DLA cores does not have; fallback allowed. -/
def exMissingCoreSys : SystemOptions := { DLACore := 2, fallback := true }

/-- DLA core `-2` requested. -/
def exNegativeSys : SystemOptions := { DLACore := -2, fallback := false }

/-- DLA core 1 requested, fallback allowed. -/
def exFallbackSys : SystemOptions := { DLACore := 1, fallback := true }

/-- No DLA core requested, fallback allowed. -/
def exGpuFallbackSys : SystemOptions := { DLACore := -1, fallback := true }

/-- As `exBuild`, with FP16 and INT8 requested and a calibration reference. -/
def exMixedBuild : BuildOptions :=
  { exBuild with fp16 := true, int8 := true, calibration := "calib.cache" }

/-- A second input named "a", of shape 7x5. -/
def exTwin : ITensor :=
  { name := "a", type := DataType.kHALF, allowedFormats := 2,
    dimensions := { nbDims := 2, d := [7, 5, 0, 0, 0, 0, 0, 0] } }

/-- A scale-setting routine whose call returns, having found scale data for no network. -/
def exIncompleteScales : INetworkDefinition → ScalesCall :=
  fun _ => ScalesCall.returned false

/-- A scale-setting routine whose call raises. -/
def exRaisingScales : INetworkDefinition → ScalesCall :=
  fun _ => ScalesCall.raised

/-! ## Lemmas on the input loop -/

theorem anyNonBatchDynamic_iff (dims : Dims) :
    dims.anyNonBatchDynamic = true ↔
      ∃ k : Nat, 1 ≤ k ∧ (k : Int) < dims.nbDims ∧ dims.d[k]? = some (-1) := by
  unfold Dims.anyNonBatchDynamic
  rw [List.any_eq_true]
  constructor
  · rintro ⟨x, hx, hx1⟩
    have hx2 : x = -1 := by simpa using hx1
    subst hx2
    obtain ⟨n, hn⟩ := List.mem_iff_getElem?.mp hx
    rw [List.getElem?_drop, List.getElem?_take] at hn
    split at hn
    · exact ⟨1 + n, by omega, by omega, hn⟩
    · cases hn
  · rintro ⟨k, hk1, hk2, hk3⟩
    refine ⟨-1, ?_, by simp⟩
    apply List.mem_iff_getElem?.mpr
    refine ⟨k - 1, ?_⟩
    rw [List.getElem?_drop, List.getElem?_take]
    have : 1 + (k - 1) = k := by omega
    rw [this, if_pos (by omega)]
    exact hk3

theorem failsCheck_eq_false_iff (build : BuildOptions) (t : ITensor) :
    failsCheck build t = false ↔ passesChecks build t := by
  unfold failsCheck passesChecks hasNonBatchDynamicDim
  rw [Bool.or_eq_false_iff, ← anyNonBatchDynamic_iff]
  cases h : find t.name build.shapes <;> simp

theorem resolveFormat_name (formats : List IOFormat) (i : Nat) (t : ITensor) :
    (resolveFormat formats i t).name = t.name := by
  unfold resolveFormat
  split
  · split <;> rfl
  · rfl

theorem resolveFormat_dimensions (formats : List IOFormat) (i : Nat) (t : ITensor) :
    (resolveFormat formats i t).dimensions = t.dimensions := by
  unfold resolveFormat
  split
  · split <;> rfl
  · rfl

theorem inputStep_none (build : BuildOptions) (i : Nat) (t : ITensor) :
    inputStep build i t none = (resolveFormat build.inputFormats i t, .ok none) := rfl

theorem inputStep_pass (build : BuildOptions) (i : Nat) (t : ITensor) (p : IOptimizationProfile)
    (h : failsCheck build t = false) :
    inputStep build i t (some p) = (visited build i t, .ok (some (register build p t))) := by
  unfold failsCheck at h
  rw [Bool.or_eq_false_iff] at h
  obtain ⟨h1, h2⟩ := h
  cases hf : find t.name build.shapes with
  | none => simp [hf] at h2
  | some r =>
    simp [inputStep, resolveFormat_name, resolveFormat_dimensions, h1, hf, visited, register, boundOf,
      Dims.setD0]

theorem inputStep_fail (build : BuildOptions) (i : Nat) (t : ITensor) (p : IOptimizationProfile)
    (h : failsCheck build t = true) :
    inputStep build i t (some p) = (resolveFormat build.inputFormats i t, .error (checkDiagnostic t)) := by
  unfold failsCheck at h
  by_cases h1 : t.dimensions.anyNonBatchDynamic = true
  · simp [inputStep, resolveFormat_dimensions, h1, checkDiagnostic]
  · have h2 : find t.name build.shapes = none := by
      cases hf : find t.name build.shapes with
      | none => rfl
      | some r => simp [hf, h1] at h
    simp [inputStep, resolveFormat_name, resolveFormat_dimensions, h1, h2, checkDiagnostic]

theorem inputLoop_cons (build : BuildOptions) (i : Nat) (t : ITensor) (rest : List ITensor)
    (profile : Option IOptimizationProfile) :
    inputLoop build i (t :: rest) profile =
      match inputStep build i t profile with
      | (t1, .error msg) => (t1 :: rest, profile, some msg)
      | (t1, .ok profile1) =>
        match inputLoop build (i + 1) rest profile1 with
        | (rest1, profile2, r) => (t1 :: rest1, profile2, r) := rfl

theorem inputLoop_append (build : BuildOptions) (l1 l2 : List ITensor) :
    ∀ (i : Nat) (profile : Option IOptimizationProfile),
      inputLoop build i (l1 ++ l2) profile =
        match inputLoop build i l1 profile with
        | (l1a, p1, some msg) => (l1a ++ l2, p1, some msg)
        | (l1a, p1, none) =>
          match inputLoop build (i + l1.length) l2 p1 with
          | (l2a, p2, r) => (l1a ++ l2a, p2, r) := by
  induction l1 with
  | nil => intro i profile; simp [inputLoop]
  | cons t rest ih =>
    intro i profile
    rw [List.cons_append, inputLoop_cons, inputLoop_cons]
    rcases hs : inputStep build i t profile with ⟨t1, (msg | p1)⟩
    · simp
    · simp only []
      rw [ih (i + 1) p1]
      rcases hr : inputLoop build (i + 1) rest p1 with ⟨ra, p2, (_ | msg)⟩
      · simp [Nat.add_assoc, Nat.add_comm 1]
      · simp

theorem inputLoop_none (build : BuildOptions) (l : List ITensor) :
    ∀ i : Nat, ∃ la, inputLoop build i l none = (la, none, none) ∧ la.length = l.length ∧
      ∀ j (hj : j < l.length), la[j]? = some (resolveFormat build.inputFormats (i + j) l[j]) := by
  induction l with
  | nil => intro i; exact ⟨[], rfl, rfl, by simp⟩
  | cons t rest ih =>
    intro i
    obtain ⟨la, hla, hlen, hget⟩ := ih (i + 1)
    refine ⟨resolveFormat build.inputFormats i t :: la, ?_, by simp [hlen], ?_⟩
    · simp [inputLoop_cons, inputStep_none, hla]
    · intro j hj
      cases j with
      | zero => simp
      | succ j =>
        have := hget j (by simpa using hj)
        simp [this, Nat.add_assoc, Nat.add_comm 1]

theorem inputLoop_pass (build : BuildOptions) (l : List ITensor) :
    ∀ (i : Nat) (p : IOptimizationProfile), (∀ t ∈ l, failsCheck build t = false) →
      ∃ la, inputLoop build i l (some p) = (la, some (l.foldl (register build) p), none) ∧
        la.length = l.length ∧ ∀ j (hj : j < l.length), la[j]? = some (visited build (i + j) l[j]) := by
  induction l with
  | nil => intro i p _; exact ⟨[], rfl, rfl, by simp⟩
  | cons t rest ih =>
    intro i p h
    have ht := h t (List.mem_cons_self _ _)
    obtain ⟨la, hla, hlen, hget⟩ := ih (i + 1) (register build p t) (fun u hu => h u (List.mem_cons_of_mem _ hu))
    refine ⟨visited build i t :: la, ?_, by simp [hlen], ?_⟩
    · simp [inputLoop, inputStep_pass build i t p ht, hla]
    · intro j hj
      cases j with
      | zero => simp
      | succ j =>
        have := hget j (by simpa using hj)
        simp [this, Nat.add_assoc, Nat.add_comm 1]


theorem inputLoop_fail (build : BuildOptions) (pre post : List ITensor) (t : ITensor) (i : Nat)
    (p : IOptimizationProfile) (hpre : ∀ u ∈ pre, failsCheck build u = false)
    (ht : failsCheck build t = true) :
    ∃ la, inputLoop build i (pre ++ t :: post) (some p) =
        (la ++ resolveFormat build.inputFormats (i + pre.length) t :: post,
          some (pre.foldl (register build) p), some (checkDiagnostic t)) ∧
      la.length = pre.length ∧
      ∀ j (hj : j < pre.length), la[j]? = some (visited build (i + j) pre[j]) := by
  obtain ⟨la, hla, hlen, hget⟩ := inputLoop_pass build pre i p hpre
  refine ⟨la, ?_, hlen, hget⟩
  rw [inputLoop_append, hla]
  simp [inputLoop_cons, inputStep_fail build _ t _ ht]

theorem exists_first_failing (build : BuildOptions) (l : List ITensor)
    (h : ∃ t ∈ l, failsCheck build t = true) :
    ∃ pre t post, l = pre ++ t :: post ∧ (∀ u ∈ pre, failsCheck build u = false) ∧
      failsCheck build t = true := by
  induction l with
  | nil => obtain ⟨t, ht, _⟩ := h; cases ht
  | cons u rest ih =>
    by_cases hu : failsCheck build u = true
    · exact ⟨[], u, rest, rfl, by simp, hu⟩
    · have hrest : ∃ t ∈ rest, failsCheck build t = true := by
        obtain ⟨t, ht, hf⟩ := h
        rcases List.mem_cons.mp ht with rfl | ht
        · exact absurd hf hu
        · exact ⟨t, ht, hf⟩
      obtain ⟨pre, t, post, hl, hpre, ht⟩ := ih hrest
      refine ⟨u :: pre, t, post, by simp [hl], ?_, ht⟩
      intro v hv
      rcases List.mem_cons.mp hv with rfl | hv
      · simpa using hu
      · exact hpre v hv

theorem batchStage_dynamic (build : BuildOptions) (builder : IBuilder) (h : dynamicBatch build) :
    batchStage build builder = (builder, some IOptimizationProfile.empty) := by
  obtain ⟨h0, h1⟩ := h
  cases hs : build.shapes with
  | nil => exact absurd hs h1
  | cons x xs => simp [batchStage, h0, hs]

theorem networkToEngine_loop_fail (trt : TensorRT) (build : BuildOptions) (sys : SystemOptions)
    (builder : IBuilder) (network : INetworkDefinition) (err : List String)
    (la : List ITensor) (pr : Option IOptimizationProfile) (msg : String)
    (h : inputLoop build 0 network.inputs (batchStage build builder).2 = (la, pr, some msg)) :
    networkToEngine trt build sys builder network err =
      { engine := none, builder := (batchStage build builder).1, network := { network with inputs := la },
        config := IBuilderConfig.fresh, profile := pr, err := err ++ [msg], calls := [] } := by
  unfold networkToEngine
  rcases hb : batchStage build builder with ⟨b1, p1⟩
  rw [hb] at h
  simp only [] at h ⊢
  rw [h]

theorem inputLoop_frame (build : BuildOptions) (pre post : List ITensor) (t : ITensor)
    (ht : failsCheck build t = true) :
    ∀ (i : Nat) (p : IOptimizationProfile), ∃ la pr msg,
      inputLoop build i (pre ++ t :: post) (some p) = (la ++ post, pr, some msg) ∧
        la.length = pre.length + 1 := by
  induction pre with
  | nil =>
    intro i p
    exact ⟨[resolveFormat build.inputFormats i t], some p, checkDiagnostic t,
      by simp [inputLoop_cons, inputStep_fail build i t p ht], rfl⟩
  | cons u pre ih =>
    intro i p
    by_cases hu : failsCheck build u = true
    · exact ⟨resolveFormat build.inputFormats i u :: (pre ++ [t]), some p, checkDiagnostic u,
        by simp [inputLoop_cons, inputStep_fail build i u p hu], by simp⟩
    · obtain ⟨la, pr, msg, hla, hlen⟩ := ih (i + 1) (register build p u)
      refine ⟨visited build i u :: la, pr, msg, ?_, by simp [hlen]⟩
      rw [List.cons_append, inputLoop_cons, inputStep_pass build i u p (by simpa using hu)]
      simp only []
      rw [hla]
      rfl
theorem batchStage_nbDLACores (build : BuildOptions) (builder : IBuilder) :
    (batchStage build builder).1.nbDLACores = builder.nbDLACores := by
  unfold batchStage
  split
  · rfl
  · split <;> rfl

theorem networkToEngine_shape_fail (trt : TensorRT) (build : BuildOptions) (sys : SystemOptions)
    (builder : IBuilder) (network : INetworkDefinition) (err : List String) (msg : String)
    (h : shapeProfileFailure trt build builder network = some msg) :
    networkToEngine trt build sys builder network err =
      { engine := none, builder := (batchStage build builder).1,
        network := { network with
          inputs := (inputLoop build 0 network.inputs (batchStage build builder).2).1 },
        config := IBuilderConfig.fresh,
        profile := (inputLoop build 0 network.inputs (batchStage build builder).2).2.1,
        err := err ++ [msg], calls := [] } := by
  unfold shapeProfileFailure at h
  unfold networkToEngine
  rcases hb : batchStage build builder with ⟨b1, p1⟩
  rw [hb] at h
  simp only [] at h ⊢
  rcases hl : inputLoop build 0 network.inputs p1 with ⟨la, pr, (_ | m)⟩
  · rw [hl] at h
    simp only [] at h ⊢
    split at h
    · rename_i hr
      simp [hr]
      simpa using h
    · cases h
  · rw [hl] at h
    simp only [] at h ⊢
    simpa using h

theorem networkToEngine_shape_ok (trt : TensorRT) (build : BuildOptions) (sys : SystemOptions)
    (builder : IBuilder) (network : INetworkDefinition) (err : List String)
    (h : shapeProfileFailure trt build builder network = none) :
    networkToEngine trt build sys builder network err =
      configureAndBuild trt build sys (batchStage build builder).1
        { network with inputs := (inputLoop build 0 network.inputs (batchStage build builder).2).1 }
        IBuilderConfig.fresh
        (inputLoop build 0 network.inputs (batchStage build builder).2).2.1 err := by
  unfold shapeProfileFailure at h
  unfold networkToEngine
  rcases hb : batchStage build builder with ⟨b1, p1⟩
  rw [hb] at h
  simp only [] at h ⊢
  rcases hl : inputLoop build 0 network.inputs p1 with ⟨la, pr, (_ | m)⟩
  · rw [hl] at h
    simp only [] at h ⊢
    split at h
    · cases h
    · rename_i hr
      simp [hr]
  · rw [hl] at h
    cases h
/-! ## Lemmas on the configuration stages -/

theorem configureAndBuild_eq (trt : TensorRT) (build : BuildOptions) (sys : SystemOptions)
    (builder : IBuilder) (network : INetworkDefinition) (config : IBuilderConfig)
    (profile : Option IOptimizationProfile) (err : List String) :
    configureAndBuild trt build sys builder network config profile err =
      match acceleratorStage build sys builder (configBeforeAccelerator build sys network config profile) with
      | .error msg =>
        { engine := none, builder := builder, network := withOutputs build network,
          config := configBeforeAccelerator build sys network config profile, profile := profile,
          err := err ++ [msg],
          calls := (calibrationStage build (withOutputs build network)
            (precisionStage build (attachProfile config profile))).2 }
      | .ok c =>
        { engine := trt.buildEngineWithConfig builder (withOutputs build network) c,
          builder := builder, network := withOutputs build network, config := c, profile := profile,
          err := err,
          calls := (calibrationStage build (withOutputs build network)
            (precisionStage build (attachProfile config profile))).2 ++
              [Call.buildEngineWithConfig builder (withOutputs build network) c] } := rfl

theorem acceleratorStage_unavailable (build : BuildOptions) (sys : SystemOptions) (builder : IBuilder)
    (c : IBuilderConfig) (h1 : sys.DLACore ≠ -1) (h2 : builder.nbDLACores ≤ sys.DLACore) :
    acceleratorStage build sys builder c =
      .error ("Cannot create DLA engine, " ++ toString sys.DLACore ++ " not available") := by
  have h3 : ¬ sys.DLACore < builder.nbDLACores := by omega
  simp [acceleratorStage, h1, h3]

theorem acceleratorStage_none (build : BuildOptions) (sys : SystemOptions) (builder : IBuilder)
    (c : IBuilderConfig) (h1 : sys.DLACore = -1) :
    acceleratorStage build sys builder c = .ok c := by
  simp [acceleratorStage, h1]

theorem calibrationStage_calls (build : BuildOptions) (network : INetworkDefinition)
    (c : IBuilderConfig) :
    (calibrationStage build network c).2 = [] ∨
      (calibrationStage build network c).2 = [Call.setTensorScales network] := by
  unfold calibrationStage
  split
  · exact Or.inr rfl
  · split <;> exact Or.inl rfl

theorem calibrationStage_no_build (build : BuildOptions) (network : INetworkDefinition)
    (c : IBuilderConfig) (b : IBuilder) (n : INetworkDefinition) (c1 : IBuilderConfig) :
    Call.buildEngineWithConfig b n c1 ∉ (calibrationStage build network c).2 := by
  rcases calibrationStage_calls build network c with h | h <;> simp [h]

theorem attachProfile_device (c : IBuilderConfig) (profile : Option IOptimizationProfile) :
    (attachProfile c profile).defaultDeviceType = c.defaultDeviceType ∧
      (attachProfile c profile).DLACore = c.DLACore := by
  cases profile <;> exact ⟨rfl, rfl⟩

theorem precisionStage_device (build : BuildOptions) (c : IBuilderConfig) :
    (precisionStage build c).defaultDeviceType = c.defaultDeviceType ∧
      (precisionStage build c).DLACore = c.DLACore := by
  unfold precisionStage
  cases build.fp16 <;> cases build.int8 <;> exact ⟨rfl, rfl⟩

theorem calibrationStage_device (build : BuildOptions) (network : INetworkDefinition)
    (c : IBuilderConfig) :
    (calibrationStage build network c).1.defaultDeviceType = c.defaultDeviceType ∧
      (calibrationStage build network c).1.DLACore = c.DLACore := by
  unfold calibrationStage
  split
  · exact ⟨rfl, rfl⟩
  · split <;> exact ⟨rfl, rfl⟩

theorem capabilityStage_device (build : BuildOptions) (sys : SystemOptions) (c : IBuilderConfig) :
    (capabilityStage build sys c).defaultDeviceType = c.defaultDeviceType ∧
      (capabilityStage build sys c).DLACore = c.DLACore := by
  unfold capabilityStage
  split <;> exact ⟨rfl, rfl⟩

theorem configBeforeAccelerator_device (build : BuildOptions) (sys : SystemOptions)
    (network : INetworkDefinition) (c : IBuilderConfig) (profile : Option IOptimizationProfile) :
    (configBeforeAccelerator build sys network c profile).defaultDeviceType = c.defaultDeviceType ∧
      (configBeforeAccelerator build sys network c profile).DLACore = c.DLACore := by
  unfold configBeforeAccelerator
  constructor
  · rw [(capabilityStage_device _ _ _).1, (calibrationStage_device _ _ _).1,
      (precisionStage_device _ _).1, (attachProfile_device _ _).1]
  · rw [(capabilityStage_device _ _ _).2, (calibrationStage_device _ _ _).2,
      (precisionStage_device _ _).2, (attachProfile_device _ _).2]

theorem configureAndBuild_unavailable (trt : TensorRT) (build : BuildOptions) (sys : SystemOptions)
    (builder : IBuilder) (network : INetworkDefinition) (config : IBuilderConfig)
    (profile : Option IOptimizationProfile) (err : List String)
    (h1 : sys.DLACore ≠ -1) (h2 : builder.nbDLACores ≤ sys.DLACore) :
    configureAndBuild trt build sys builder network config profile err =
      { engine := none, builder := builder, network := withOutputs build network,
        config := configBeforeAccelerator build sys network config profile, profile := profile,
        err := err ++ ["Cannot create DLA engine, " ++ toString sys.DLACore ++ " not available"],
        calls := (calibrationStage build (withOutputs build network)
          (precisionStage build (attachProfile config profile))).2 } := by
  rw [configureAndBuild_eq, acceleratorStage_unavailable build sys builder _ h1 h2]
/-! ## Lemmas on the optimization profile -/

theorem find_upsert_self (name : String) (f : ProfileDims → ProfileDims)
    (l : List (String × ProfileDims)) :
    find name (upsert name f l) = some (f ((find name l).getD ProfileDims.unset)) := by
  induction l with
  | nil => simp [upsert, find]
  | cons x rest ih =>
    obtain ⟨k, e⟩ := x
    by_cases hk : k = name
    · simp [upsert, find, hk]
    · simp [upsert, find, hk, ih]

theorem find_upsert_ne (name k : String) (f : ProfileDims → ProfileDims)
    (l : List (String × ProfileDims)) (h : k ≠ name) :
    find k (upsert name f l) = find k l := by
  induction l with
  | nil => simp [upsert, find, Ne.symm h]
  | cons x rest ih =>
    obtain ⟨k1, e⟩ := x
    by_cases hk : k1 = name
    · subst hk
      simp [upsert, find, Ne.symm h]
    · by_cases hk1 : k1 = k
      · subst hk1
        simp [upsert, find, hk]
      · simp [upsert, find, hk, hk1, ih]

theorem register_find_self (build : BuildOptions) (p : IOptimizationProfile) (t : ITensor)
    (r : ShapeRange) (h : find t.name build.shapes = some r) :
    find t.name (register build p t).entries =
      some { kMIN := some (boundOf t.dimensions r OptProfileSelector.kMIN),
             kOPT := some (boundOf t.dimensions r OptProfileSelector.kOPT),
             kMAX := some (boundOf t.dimensions r OptProfileSelector.kMAX) } := by
  simp [register, h, IOptimizationProfile.setDimensions, find_upsert_self, ProfileDims.set]

theorem register_find_ne (build : BuildOptions) (p : IOptimizationProfile) (t : ITensor)
    (name : String) (h : name ≠ t.name) :
    find name (register build p t).entries = find name p.entries := by
  unfold register
  split
  · rfl
  · simp [IOptimizationProfile.setDimensions, find_upsert_ne _ _ _ _ h]

theorem foldl_register_find_other (build : BuildOptions) (l : List ITensor) (name : String)
    (h : ∀ t ∈ l, t.name ≠ name) :
    ∀ p : IOptimizationProfile,
      find name (l.foldl (register build) p).entries = find name p.entries := by
  induction l with
  | nil => intro p; rfl
  | cons u rest ih =>
    intro p
    rw [List.foldl_cons, ih (fun t ht => h t (List.mem_cons_of_mem _ ht)),
      register_find_ne build p u name (Ne.symm (h u (List.mem_cons_self _ _)))]

theorem foldl_register_find (build : BuildOptions) (l : List ITensor)
    (hnodup : (l.map (fun t => t.name)).Nodup) (t : ITensor) (ht : t ∈ l) (r : ShapeRange)
    (hr : find t.name build.shapes = some r) :
    ∀ p : IOptimizationProfile,
      find t.name (l.foldl (register build) p).entries =
        some { kMIN := some (boundOf t.dimensions r OptProfileSelector.kMIN),
               kOPT := some (boundOf t.dimensions r OptProfileSelector.kOPT),
               kMAX := some (boundOf t.dimensions r OptProfileSelector.kMAX) } := by
  induction l with
  | nil => cases ht
  | cons u rest ih =>
    intro p
    rw [List.map_cons, List.nodup_cons] at hnodup
    rw [List.foldl_cons]
    rcases List.mem_cons.mp ht with rfl | ht1
    · rw [foldl_register_find_other build rest t.name, register_find_self build p t r hr]
      intro v hv hname
      exact hnodup.1 (List.mem_map.mpr ⟨v, hv, hname⟩)
    · exact ih hnodup.2 ht1 _

theorem foldl_register_names (build : BuildOptions) (l : List ITensor) (name : String) :
    ∀ p : IOptimizationProfile, find name (l.foldl (register build) p).entries ≠ none →
      find name p.entries ≠ none ∨ ∃ t ∈ l, t.name = name := by
  induction l with
  | nil => intro p h; exact Or.inl h
  | cons u rest ih =>
    intro p h
    rw [List.foldl_cons] at h
    rcases ih _ h with h1 | ⟨t, ht, hn⟩
    · by_cases hu : name = u.name
      · exact Or.inr ⟨u, List.mem_cons_self _ _, hu.symm⟩
      · rw [register_find_ne build p u name hu] at h1
        exact Or.inl h1
    · exact Or.inr ⟨t, List.mem_cons_of_mem _ ht, hn⟩
/-! ## Lemmas on the outcome -/

theorem precisionStage_profiles (build : BuildOptions) (c : IBuilderConfig) :
    (precisionStage build c).profiles = c.profiles := by
  unfold precisionStage
  cases build.fp16 <;> cases build.int8 <;> rfl

theorem calibrationStage_profiles (build : BuildOptions) (network : INetworkDefinition)
    (c : IBuilderConfig) : (calibrationStage build network c).1.profiles = c.profiles := by
  unfold calibrationStage
  split
  · rfl
  · split <;> rfl

theorem capabilityStage_profiles (build : BuildOptions) (sys : SystemOptions) (c : IBuilderConfig) :
    (capabilityStage build sys c).profiles = c.profiles := by
  unfold capabilityStage
  split <;> rfl

theorem acceleratorStage_profiles (build : BuildOptions) (sys : SystemOptions) (builder : IBuilder)
    (c c1 : IBuilderConfig) (h : acceleratorStage build sys builder c = .ok c1) :
    c1.profiles = c.profiles := by
  unfold acceleratorStage at h
  split at h
  · split at h
    · injection h with h
      subst h
      cases sys.fallback <;> cases build.int8 <;> rfl
    · cases h
  · injection h with h
    subst h
    rfl

theorem configBeforeAccelerator_profiles (build : BuildOptions) (sys : SystemOptions)
    (network : INetworkDefinition) (c : IBuilderConfig) (profile : Option IOptimizationProfile) :
    (configBeforeAccelerator build sys network c profile).profiles = (attachProfile c profile).profiles := by
  unfold configBeforeAccelerator
  rw [capabilityStage_profiles, calibrationStage_profiles, precisionStage_profiles]

theorem configureAndBuild_profiles (trt : TensorRT) (build : BuildOptions) (sys : SystemOptions)
    (builder : IBuilder) (network : INetworkDefinition) (config : IBuilderConfig)
    (profile : Option IOptimizationProfile) (err : List String) :
    (configureAndBuild trt build sys builder network config profile err).config.profiles =
      (attachProfile config profile).profiles := by
  rw [configureAndBuild_eq]
  rcases h : acceleratorStage build sys builder (configBeforeAccelerator build sys network config profile)
    with msg | c1
  · exact configBeforeAccelerator_profiles build sys network config profile
  · simp only []
    rw [acceleratorStage_profiles build sys builder _ c1 h]
    exact configBeforeAccelerator_profiles build sys network config profile

theorem configureAndBuild_profile (trt : TensorRT) (build : BuildOptions) (sys : SystemOptions)
    (builder : IBuilder) (network : INetworkDefinition) (config : IBuilderConfig)
    (profile : Option IOptimizationProfile) (err : List String) :
    (configureAndBuild trt build sys builder network config profile err).profile = profile := by
  rw [configureAndBuild_eq]
  split <;> rfl

theorem networkToEngine_profile (trt : TensorRT) (build : BuildOptions) (sys : SystemOptions)
    (builder : IBuilder) (network : INetworkDefinition) (err : List String) :
    (networkToEngine trt build sys builder network err).profile =
      (inputLoop build 0 network.inputs (batchStage build builder).2).2.1 := by
  cases h : shapeProfileFailure trt build builder network with
  | none => rw [networkToEngine_shape_ok trt build sys builder network err h, configureAndBuild_profile]
  | some msg => rw [networkToEngine_shape_fail trt build sys builder network err msg h]

theorem networkToEngine_profiles (trt : TensorRT) (build : BuildOptions) (sys : SystemOptions)
    (builder : IBuilder) (network : INetworkDefinition) (err : List String) :
    (networkToEngine trt build sys builder network err).config.profiles =
      match shapeProfileFailure trt build builder network,
        (inputLoop build 0 network.inputs (batchStage build builder).2).2.1 with
      | none, some p => [p]
      | _, _ => [] := by
  cases h : shapeProfileFailure trt build builder network with
  | none =>
    rw [networkToEngine_shape_ok trt build sys builder network err h, configureAndBuild_profiles]
    cases (inputLoop build 0 network.inputs (batchStage build builder).2).2.1 <;> rfl
  | some msg => rw [networkToEngine_shape_fail trt build sys builder network err msg h]; rfl

theorem shapeProfileFailure_dynamic_pass (trt : TensorRT) (build : BuildOptions) (builder : IBuilder)
    (network : INetworkDefinition) (hdyn : dynamicBatch build)
    (hpass : ∀ t ∈ network.inputs, passesChecks build t) :
    (inputLoop build 0 network.inputs (batchStage build builder).2).2 =
        (some (network.inputs.foldl (register build) IOptimizationProfile.empty), none) ∧
      shapeProfileFailure trt build builder network =
        if trt.isValid (network.inputs.foldl (register build) IOptimizationProfile.empty) then none
        else some "Required optimization profile is invalid" := by
  obtain ⟨la, hla, _, _⟩ := inputLoop_pass build network.inputs 0 IOptimizationProfile.empty
    (fun t ht => (failsCheck_eq_false_iff build t).mpr (hpass t ht))
  unfold shapeProfileFailure
  rw [batchStage_dynamic build builder hdyn, hla]
  refine ⟨rfl, ?_⟩
  simp only [profileRejected]
  by_cases hv : trt.isValid (network.inputs.foldl (register build) IOptimizationProfile.empty) = true
  · simp [hv]
  · simp [hv]
theorem batchStage_profile_cases (build : BuildOptions) (builder : IBuilder) :
    (dynamicBatch build ∧ (batchStage build builder).2 = some IOptimizationProfile.empty) ∨
      (¬ dynamicBatch build ∧ (batchStage build builder).2 = none) := by
  by_cases h : dynamicBatch build
  · exact Or.inl ⟨h, by rw [batchStage_dynamic build builder h]⟩
  · refine Or.inr ⟨h, ?_⟩
    unfold dynamicBatch at h
    unfold batchStage
    by_cases h0 : build.maxBatch = 0
    · have hs : build.shapes = [] := by
        by_contra hne
        exact h ⟨h0, hne⟩
      simp [h0, hs]
    · simp [h0]

theorem inputLoop_ok_pass (build : BuildOptions) (l la : List ITensor) (i : Nat)
    (q : IOptimizationProfile) (pr : Option IOptimizationProfile)
    (h : inputLoop build i l (some q) = (la, pr, none)) :
    ∀ t ∈ l, failsCheck build t = false := by
  by_contra hne
  have hex : ∃ t ∈ l, failsCheck build t = true := by
    by_contra hno
    apply hne
    intro t ht
    cases hf : failsCheck build t with
    | false => rfl
    | true => exact absurd ⟨t, ht, hf⟩ hno
  obtain ⟨pre, t, post, hl, hpre, ht⟩ := exists_first_failing build l hex
  obtain ⟨lb, hlb, _, _⟩ := inputLoop_fail build pre post t i q hpre ht
  rw [hl, hlb] at h
  cases h

theorem shapeProfileFailure_none_cases (trt : TensorRT) (build : BuildOptions) (builder : IBuilder)
    (network : INetworkDefinition) (h : shapeProfileFailure trt build builder network = none) :
    (¬ dynamicBatch build ∧
        (inputLoop build 0 network.inputs (batchStage build builder).2).2.1 = none) ∨
      (dynamicBatch build ∧ (∀ t ∈ network.inputs, passesChecks build t) ∧
        (inputLoop build 0 network.inputs (batchStage build builder).2).2.1 =
          some (network.inputs.foldl (register build) IOptimizationProfile.empty) ∧
        trt.isValid (network.inputs.foldl (register build) IOptimizationProfile.empty) = true) := by
  rcases batchStage_profile_cases build builder with ⟨hdyn, hb⟩ | ⟨hdyn, hb⟩
  · right
    have hpass : ∀ t ∈ network.inputs, passesChecks build t := by
      unfold shapeProfileFailure at h
      rw [hb] at h
      rcases hl : inputLoop build 0 network.inputs (some IOptimizationProfile.empty)
        with ⟨la, pr, (_ | m)⟩
      · intro t ht
        exact (failsCheck_eq_false_iff build t).mp (inputLoop_ok_pass build _ la 0 _ pr hl t ht)
      · rw [hl] at h
        cases h
    obtain ⟨hloop, hfail⟩ := shapeProfileFailure_dynamic_pass trt build builder network hdyn hpass
    refine ⟨hdyn, hpass, by rw [hloop], ?_⟩
    rw [hfail] at h
    by_contra hv
    rw [if_neg hv] at h
    cases h
  · left
    refine ⟨hdyn, ?_⟩
    obtain ⟨la, hla, _, _⟩ := inputLoop_none build network.inputs 0
    rw [hb, hla]

theorem register_carries (build : BuildOptions) (name : String) (r : ShapeRange)
    (hr : find name build.shapes = some r) (p : IOptimizationProfile) (u : ITensor)
    (h : u.name = name ∨ ∃ e, find name p.entries = some e ∧ carriesBatchOf r e) :
    ∃ e, find name (register build p u).entries = some e ∧ carriesBatchOf r e := by
  by_cases hu : u.name = name
  · subst hu
    rw [register_find_self build p u r hr]
    exact ⟨_, rfl, _, _, _, rfl, rfl, rfl, rfl⟩
  · rcases h with h | h
    · exact absurd h hu
    · rw [register_find_ne build p u name (Ne.symm hu)]
      exact h

theorem foldl_register_carries (build : BuildOptions) (name : String) (r : ShapeRange)
    (hr : find name build.shapes = some r) (l : List ITensor) :
    ∀ p : IOptimizationProfile,
      ((∃ t ∈ l, t.name = name) ∨ ∃ e, find name p.entries = some e ∧ carriesBatchOf r e) →
      ∃ e, find name (l.foldl (register build) p).entries = some e ∧ carriesBatchOf r e := by
  induction l with
  | nil =>
    intro p h
    rcases h with ⟨t, ht, _⟩ | h
    · cases ht
    · exact h
  | cons u rest ih =>
    intro p h
    rw [List.foldl_cons]
    apply ih
    rcases h with ⟨t, ht, hn⟩ | h
    · rcases List.mem_cons.mp ht with rfl | ht1
      · exact Or.inr (register_carries build name r hr p t (Or.inl hn))
      · exact Or.inl ⟨t, ht1, hn⟩
    · exact Or.inr (register_carries build name r hr p u (Or.inr h))
theorem find_mem {β : Type} (name : String) (v : β) (l : List (String × β))
    (h : find name l = some v) : (name, v) ∈ l := by
  induction l with
  | nil => cases h
  | cons x rest ih =>
    obtain ⟨k, w⟩ := x
    unfold find at h
    split at h
    · rename_i hk
      injection h with h
      subst hk h
      exact List.mem_cons_self _ _
    · exact List.mem_cons_of_mem _ (ih h)

theorem exStrictTrt_checks : validatorChecksBatchOrder exStrictTrt := by
  intro p name mn op mx hv hmn hop hmx
  unfold IOptimizationProfile.getDimensions at hmn hop hmx
  cases he : find name p.entries with
  | none => rw [he] at hmn; cases hmn
  | some e =>
    rw [he] at hmn hop hmx
    have hmem := find_mem name e p.entries he
    have hall : p.entries.all exOrdered = true := by
      have : (!p.entries.isEmpty && p.entries.all exOrdered) = true := hv
      rw [Bool.and_eq_true] at this
      exact this.2
    have hord := List.all_eq_true.mp hall _ hmem
    have h1 : e.kMIN = some mn := hmn
    have h2 : e.kOPT = some op := hop
    have h3 : e.kMAX = some mx := hmx
    simp only [exOrdered, h1, h2, h3, Bool.and_eq_true, decide_eq_true_eq] at hord
    exact hord
theorem int8IOCount_ne_zero_iff (build : BuildOptions) :
    int8IOCount build ≠ 0 ↔ hasInt8Override build := by
  unfold int8IOCount hasInt8Override
  constructor
  · intro h
    have h1 : 0 < build.inputFormats.countP isInt8 ∨ 0 < build.outputFormats.countP isInt8 := by omega
    rcases h1 with h1 | h1
    · obtain ⟨f, hf, hi⟩ := List.countP_pos_iff.mp h1
      exact ⟨f, Or.inl hf, by simpa [isInt8] using hi⟩
    · obtain ⟨f, hf, hi⟩ := List.countP_pos_iff.mp h1
      exact ⟨f, Or.inr hf, by simpa [isInt8] using hi⟩
  · rintro ⟨f, hf | hf, hi⟩
    · have : 0 < build.inputFormats.countP isInt8 :=
        List.countP_pos_iff.mpr ⟨f, hf, by simp [isInt8, hi]⟩
      omega
    · have : 0 < build.outputFormats.countP isInt8 :=
        List.countP_pos_iff.mpr ⟨f, hf, by simp [isInt8, hi]⟩
      omega

theorem explicitScales_iff (build : BuildOptions) :
    ((build.int8 && build.calibration.isEmpty) || int8IOCount build != 0) = true ↔
      explicitScales build := by
  unfold explicitScales
  rw [Bool.or_eq_true, Bool.and_eq_true, String.isEmpty_iff, bne_iff_ne, int8IOCount_ne_zero_iff]

theorem calibrationStage_explicit (build : BuildOptions) (network : INetworkDefinition)
    (c : IBuilderConfig) (h : explicitScales build) :
    calibrationStage build network c = (c, [Call.setTensorScales network]) := by
  unfold calibrationStage
  rw [if_pos ((explicitScales_iff build).mpr h)]

theorem calibrationStage_calibrator (build : BuildOptions) (network : INetworkDefinition)
    (c : IBuilderConfig) (h : ¬ explicitScales build) (h8 : build.int8 = true) :
    calibrationStage build network c =
      ({ c with int8Calibrator := some { batches := 1, cacheFile := build.calibration } }, []) := by
  unfold calibrationStage
  rw [if_neg (fun hc => h ((explicitScales_iff build).mp hc)), if_pos h8]

theorem calibrationStage_nothing (build : BuildOptions) (network : INetworkDefinition)
    (c : IBuilderConfig) (h : ¬ explicitScales build) (h8 : build.int8 = false) :
    calibrationStage build network c = (c, []) := by
  unfold calibrationStage
  rw [if_neg (fun hc => h ((explicitScales_iff build).mp hc)), if_neg (by simp [h8])]

theorem attachProfile_int8Calibrator (c : IBuilderConfig) (profile : Option IOptimizationProfile) :
    (attachProfile c profile).int8Calibrator = c.int8Calibrator := by
  cases profile <;> rfl

theorem precisionStage_int8Calibrator (build : BuildOptions) (c : IBuilderConfig) :
    (precisionStage build c).int8Calibrator = c.int8Calibrator := by
  unfold precisionStage
  cases build.fp16 <;> cases build.int8 <;> rfl

theorem capabilityStage_int8Calibrator (build : BuildOptions) (sys : SystemOptions)
    (c : IBuilderConfig) : (capabilityStage build sys c).int8Calibrator = c.int8Calibrator := by
  unfold capabilityStage
  split <;> rfl

theorem acceleratorStage_int8Calibrator (build : BuildOptions) (sys : SystemOptions)
    (builder : IBuilder) (c c1 : IBuilderConfig) (h : acceleratorStage build sys builder c = .ok c1) :
    c1.int8Calibrator = c.int8Calibrator := by
  unfold acceleratorStage at h
  split at h
  · split at h
    · injection h with h
      subst h
      cases sys.fallback <;> cases build.int8 <;> rfl
    · cases h
  · injection h with h
    subst h
    rfl

theorem configureAndBuild_int8Calibrator (trt : TensorRT) (build : BuildOptions) (sys : SystemOptions)
    (builder : IBuilder) (network : INetworkDefinition) (config : IBuilderConfig)
    (profile : Option IOptimizationProfile) (err : List String) :
    (configureAndBuild trt build sys builder network config profile err).config.int8Calibrator =
      (calibrationStage build (withOutputs build network)
        (precisionStage build (attachProfile config profile))).1.int8Calibrator := by
  rw [configureAndBuild_eq]
  rcases h : acceleratorStage build sys builder (configBeforeAccelerator build sys network config profile)
    with msg | c1
  · exact capabilityStage_int8Calibrator _ _ _
  · simp only []
    rw [acceleratorStage_int8Calibrator build sys builder _ c1 h]
    exact capabilityStage_int8Calibrator _ _ _

theorem configureAndBuild_network (trt : TensorRT) (build : BuildOptions) (sys : SystemOptions)
    (builder : IBuilder) (network : INetworkDefinition) (config : IBuilderConfig)
    (profile : Option IOptimizationProfile) (err : List String) :
    (configureAndBuild trt build sys builder network config profile err).network =
      withOutputs build network := by
  rw [configureAndBuild_eq]
  split <;> rfl

theorem configureAndBuild_scales (trt : TensorRT) (build : BuildOptions) (sys : SystemOptions)
    (builder : IBuilder) (network : INetworkDefinition) (config : IBuilderConfig)
    (profile : Option IOptimizationProfile) (err : List String) (n : INetworkDefinition) :
    Call.setTensorScales n ∈ (configureAndBuild trt build sys builder network config profile err).calls ↔
      Call.setTensorScales n ∈ (calibrationStage build (withOutputs build network)
        (precisionStage build (attachProfile config profile))).2 := by
  rw [configureAndBuild_eq]
  split <;> simp
theorem inputStep_format (build : BuildOptions) (k : Nat) (u : ITensor)
    (profile : Option IOptimizationProfile) :
    (inputStep build k u profile).1.name = u.name ∧
      (inputStep build k u profile).1.type = (resolveFormat build.inputFormats k u).type ∧
      (inputStep build k u profile).1.allowedFormats =
        (resolveFormat build.inputFormats k u).allowedFormats := by
  cases profile with
  | none => exact ⟨resolveFormat_name _ _ _, rfl, rfl⟩
  | some p =>
    cases hf : failsCheck build u with
    | true => rw [inputStep_fail build k u p hf]; exact ⟨resolveFormat_name _ _ _, rfl, rfl⟩
    | false => rw [inputStep_pass build k u p hf]; exact ⟨resolveFormat_name _ _ _, rfl, rfl⟩

theorem inputStep_ok (build : BuildOptions) (k : Nat) (u : ITensor)
    (profile : Option IOptimizationProfile)
    (h : profile ≠ none → failsCheck build u = false) :
    ∃ profile1, (inputStep build k u profile).2 = .ok profile1 ∧
      (profile1 ≠ none → profile ≠ none) := by
  cases profile with
  | none => exact ⟨none, rfl, fun h => absurd rfl h⟩
  | some p =>
    rw [inputStep_pass build k u p (h (by simp))]
    exact ⟨_, rfl, fun _ => by simp⟩

theorem inputLoop_visited_format (build : BuildOptions) (l : List ITensor) :
    ∀ (k i : Nat) (profile : Option IOptimizationProfile) (t : ITensor), l[i]? = some t →
      (profile ≠ none → ∀ j u, j < i → l[j]? = some u → failsCheck build u = false) →
      ∃ t1, (inputLoop build k l profile).1[i]? = some t1 ∧ t1.name = t.name ∧
        t1.type = (resolveFormat build.inputFormats (k + i) t).type ∧
        t1.allowedFormats = (resolveFormat build.inputFormats (k + i) t).allowedFormats := by
  induction l with
  | nil => intro k i profile t ht; simp at ht
  | cons u rest ih =>
    intro k i profile t ht hpre
    rw [inputLoop_cons]
    cases i with
    | zero =>
      have htu : u = t := by simpa using ht
      subst htu
      obtain ⟨h1, h2, h3⟩ := inputStep_format build k u profile
      rcases hs : inputStep build k u profile with ⟨u1, (msg | p1)⟩
      · rw [hs] at h1 h2 h3
        exact ⟨u1, by simp, h1, h2, h3⟩
      · rw [hs] at h1 h2 h3
        exact ⟨u1, by simp, h1, h2, h3⟩
    | succ i =>
      have ht1 : rest[i]? = some t := by simpa using ht
      obtain ⟨p1, hp1, hsome⟩ := inputStep_ok build k u profile
        (fun hne => hpre hne 0 u (by omega) (by simp))
      rcases hs : inputStep build k u profile with ⟨u1, r⟩
      rw [hs] at hp1
      simp only [] at hp1
      subst hp1
      simp only []
      obtain ⟨t1, hget, hn, hty, hfm⟩ := ih (k + 1) i p1 t ht1
        (fun hne j v hj hv => hpre (hsome hne) (j + 1) v (by omega) (by simpa using hv))
      refine ⟨t1, by simpa using hget, hn, ?_, ?_⟩
      · rw [hty, Nat.add_assoc, Nat.add_comm 1]
      · rw [hfm, Nat.add_assoc, Nat.add_comm 1]

theorem outputLoop_get (build : BuildOptions) (l : List ITensor) :
    ∀ (k j : Nat), (outputLoop build k l)[j]? =
      (l[j]?).map (resolveFormat build.outputFormats (k + j)) := by
  induction l with
  | nil => intro k j; simp [outputLoop]
  | cons u rest ih =>
    intro k j
    cases j with
    | zero => simp [outputLoop]
    | succ j => simp [outputLoop, ih, Nat.add_assoc, Nat.add_comm 1]

theorem resolveFormat_default (i : Nat) (t : ITensor) :
    (resolveFormat [] i t).type = DataType.kFLOAT ∧ (resolveFormat [] i t).allowedFormats = 1 <<< 0 := by
  exact ⟨rfl, rfl⟩

theorem resolveFormat_override (formats : List IOFormat) (i : Nat) (t : ITensor) (f : IOFormat)
    (hne : formats ≠ []) (hf : formats[i]? = some f) :
    ((resolveFormat formats i t).type, (resolveFormat formats i t).allowedFormats) = f := by
  unfold resolveFormat
  have h1 : (!formats.isEmpty) = true := by
    cases formats with
    | nil => exact absurd rfl hne
    | cons x xs => rfl
  rw [if_pos h1, List.get?_eq_getElem?, hf]
theorem networkToEngine_inputs (trt : TensorRT) (build : BuildOptions) (sys : SystemOptions)
    (builder : IBuilder) (network : INetworkDefinition) (err : List String) :
    (networkToEngine trt build sys builder network err).network.inputs =
      (inputLoop build 0 network.inputs (batchStage build builder).2).1 := by
  cases h : shapeProfileFailure trt build builder network with
  | none =>
    rw [networkToEngine_shape_ok trt build sys builder network err h, configureAndBuild_network]
    rfl
  | some msg => rw [networkToEngine_shape_fail trt build sys builder network err msg h]

theorem networkToEngine_outputs (trt : TensorRT) (build : BuildOptions) (sys : SystemOptions)
    (builder : IBuilder) (network : INetworkDefinition) (err : List String) :
    (networkToEngine trt build sys builder network err).network.outputs =
      match shapeProfileFailure trt build builder network with
      | none => outputLoop build 0 network.outputs
      | some _ => network.outputs := by
  cases h : shapeProfileFailure trt build builder network with
  | none =>
    rw [networkToEngine_shape_ok trt build sys builder network err h, configureAndBuild_network]
    rfl
  | some msg => rw [networkToEngine_shape_fail trt build sys builder network err msg h]
theorem shapeProfileFailure_static (trt : TensorRT) (build : BuildOptions) (builder : IBuilder)
    (network : INetworkDefinition) (h : ¬ dynamicBatch build) :
    shapeProfileFailure trt build builder network = none := by
  rcases batchStage_profile_cases build builder with ⟨hdyn, _⟩ | ⟨_, hb⟩
  · exact absurd hdyn h
  · obtain ⟨la, hla, _, _⟩ := inputLoop_none build network.inputs 0
    unfold shapeProfileFailure
    rw [hb, hla]
    rfl

theorem shapeProfileFailure_first_failing (trt : TensorRT) (build : BuildOptions) (builder : IBuilder)
    (network : INetworkDefinition) (pre post : List ITensor) (t : ITensor)
    (hdyn : dynamicBatch build) (hin : network.inputs = pre ++ t :: post)
    (hpre : ∀ u ∈ pre, failsCheck build u = false) (ht : failsCheck build t = true) :
    shapeProfileFailure trt build builder network = some (checkDiagnostic t) ∧
      (inputLoop build 0 network.inputs (batchStage build builder).2).2.1 =
        some (pre.foldl (register build) IOptimizationProfile.empty) ∧
      ∃ la, (inputLoop build 0 network.inputs (batchStage build builder).2).1 =
          la ++ resolveFormat build.inputFormats pre.length t :: post ∧
        la.length = pre.length ∧
        ∀ j (hj : j < pre.length), la[j]? = some (visited build j pre[j]) := by
  obtain ⟨la, hla, hlen, hget⟩ := inputLoop_fail build pre post t 0 IOptimizationProfile.empty hpre ht
  unfold shapeProfileFailure
  rw [batchStage_dynamic build builder hdyn, hin, hla]
  refine ⟨rfl, rfl, la, by simp, hlen, ?_⟩
  intro j hj
  simpa using hget j hj

theorem shapeProfileFailure_of_failing (trt : TensorRT) (build : BuildOptions) (builder : IBuilder)
    (network : INetworkDefinition) (hdyn : dynamicBatch build)
    (h : ∃ t ∈ network.inputs, failsCheck build t = true) :
    shapeProfileFailure trt build builder network ≠ none := by
  obtain ⟨pre, t, post, hin, hpre, ht⟩ := exists_first_failing build network.inputs h
  rw [(shapeProfileFailure_first_failing trt build builder network pre post t hdyn hin hpre ht).1]
  simp

theorem acceleratorStage_available (build : BuildOptions) (sys : SystemOptions) (builder : IBuilder)
    (c : IBuilderConfig) (h : ¬ (sys.DLACore ≠ -1 ∧ builder.nbDLACores ≤ sys.DLACore)) :
    ∃ c1, acceleratorStage build sys builder c = .ok c1 := by
  unfold acceleratorStage
  by_cases h1 : sys.DLACore = -1
  · exact ⟨c, by simp [h1]⟩
  · have h2 : sys.DLACore < builder.nbDLACores := by
      by_contra hlt
      exact h ⟨h1, by omega⟩
    simp [h1, h2]

theorem networkToEngine_builder (trt : TensorRT) (build : BuildOptions) (sys : SystemOptions)
    (builder : IBuilder) (network : INetworkDefinition) (err : List String) :
    (networkToEngine trt build sys builder network err).builder = (batchStage build builder).1 := by
  cases h : shapeProfileFailure trt build builder network with
  | none =>
    rw [networkToEngine_shape_ok trt build sys builder network err h, configureAndBuild_eq]
    split <;> rfl
  | some msg => rw [networkToEngine_shape_fail trt build sys builder network err msg h]
theorem inputLoop_none_dimensions (build : BuildOptions) (l : List ITensor) :
    ∀ i : Nat, (inputLoop build i l none).1.map (fun t => t.dimensions) =
      l.map (fun t => t.dimensions) := by
  induction l with
  | nil => intro i; rfl
  | cons u rest ih =>
    intro i
    rw [inputLoop_cons, inputStep_none]
    simp only [List.map_cons]
    rw [ih (i + 1), resolveFormat_dimensions]

theorem inputLoop_profile_some (build : BuildOptions) (l : List ITensor) (i : Nat)
    (p : IOptimizationProfile) : ∃ q, (inputLoop build i l (some p)).2.1 = some q := by
  by_cases h : ∃ t ∈ l, failsCheck build t = true
  · obtain ⟨pre, t, post, hl, hpre, ht⟩ := exists_first_failing build l h
    obtain ⟨la, hla, _, _⟩ := inputLoop_fail build pre post t i p hpre ht
    rw [hl, hla]
    exact ⟨_, rfl⟩
  · have hall : ∀ t ∈ l, failsCheck build t = false := by
      intro t ht
      cases hf : failsCheck build t with
      | false => rfl
      | true => exact absurd ⟨t, ht, hf⟩ h
    obtain ⟨la, hla, _, _⟩ := inputLoop_pass build l i p hall
    rw [hla]
    exact ⟨_, rfl⟩

theorem batchStage_fixed (build : BuildOptions) (builder : IBuilder) (h : build.maxBatch ≠ 0) :
    batchStage build builder = ({ builder with maxBatchSize := build.maxBatch }, none) := by
  simp [batchStage, h]

theorem networkToEngine_err (trt : TensorRT) (build : BuildOptions) (sys : SystemOptions)
    (builder : IBuilder) (network : INetworkDefinition) (err : List String)
    (h : shapeProfileFailure trt build builder network = none) :
    (networkToEngine trt build sys builder network err).err = err ∨
      (networkToEngine trt build sys builder network err).err =
        err ++ ["Cannot create DLA engine, " ++ toString sys.DLACore ++ " not available"] := by
  rw [networkToEngine_shape_ok trt build sys builder network err h]
  by_cases h4 : deviceUnavailable sys (batchStage build builder).1
  · rw [configureAndBuild_unavailable trt build sys _ _ _ _ err h4.1 h4.2]
    exact Or.inr rfl
  · obtain ⟨c1, hc1⟩ := acceleratorStage_available build sys (batchStage build builder).1
      (configBeforeAccelerator build sys
        { network with inputs := (inputLoop build 0 network.inputs (batchStage build builder).2).1 }
        IBuilderConfig.fresh (inputLoop build 0 network.inputs (batchStage build builder).2).2.1) h4
    rw [configureAndBuild_eq, hc1]
    exact Or.inl rfl
theorem attachProfile_flags (c : IBuilderConfig) (profile : Option IOptimizationProfile) :
    (attachProfile c profile).flags = c.flags := by
  cases profile <;> rfl

theorem precisionStage_flags (build : BuildOptions) (c : IBuilderConfig) :
    (precisionStage build c).flags =
      (c.flags ||| (if build.fp16 then 1 <<< BuilderFlag.kFP16.toNat else 0)) |||
        (if build.int8 then 1 <<< BuilderFlag.kINT8.toNat else 0) := by
  unfold precisionStage
  cases build.fp16 <;> cases build.int8 <;> simp [IBuilderConfig.setFlag]

theorem calibrationStage_flags (build : BuildOptions) (network : INetworkDefinition)
    (c : IBuilderConfig) : (calibrationStage build network c).1.flags = c.flags := by
  unfold calibrationStage
  split
  · rfl
  · split <;> rfl

theorem capabilityStage_flags (build : BuildOptions) (sys : SystemOptions) (c : IBuilderConfig) :
    (capabilityStage build sys c).flags = c.flags := by
  unfold capabilityStage
  split <;> rfl

theorem configBeforeAccelerator_flags (build : BuildOptions) (sys : SystemOptions)
    (network : INetworkDefinition) (profile : Option IOptimizationProfile) :
    (configBeforeAccelerator build sys network IBuilderConfig.fresh profile).flags =
      (if build.fp16 then 1 <<< BuilderFlag.kFP16.toNat else 0) |||
        (if build.int8 then 1 <<< BuilderFlag.kINT8.toNat else 0) := by
  unfold configBeforeAccelerator
  rw [capabilityStage_flags, calibrationStage_flags, precisionStage_flags, attachProfile_flags]
  simp [IBuilderConfig.fresh]

theorem acceleratorStage_selected (build : BuildOptions) (sys : SystemOptions) (builder : IBuilder)
    (c : IBuilderConfig) (h1 : sys.DLACore ≠ -1) (h2 : sys.DLACore < builder.nbDLACores) :
    acceleratorStage build sys builder c =
      .ok { c with
        defaultDeviceType := some DeviceType.kDLA
        DLACore := some sys.DLACore
        flags := ((c.flags ||| 1 <<< BuilderFlag.kSTRICT_TYPES.toNat) |||
          (if sys.fallback then 1 <<< BuilderFlag.kGPU_FALLBACK.toNat else 0)) |||
          (if build.int8 then 0 else 1 <<< BuilderFlag.kFP16.toNat) } := by
  unfold acceleratorStage
  simp only [bne_iff_ne, ne_eq, h1, not_false_eq_true, if_true, h2]
  cases sys.fallback <;> cases build.int8 <;> simp [IBuilderConfig.setFlag]

theorem networkToEngine_selected (trt : TensorRT) (build : BuildOptions) (sys : SystemOptions)
    (builder : IBuilder) (network : INetworkDefinition) (err : List String)
    (hshape : shapeProfileFailure trt build builder network = none)
    (h1 : sys.DLACore ≠ -1) (h2 : sys.DLACore < builder.nbDLACores) :
    (networkToEngine trt build sys builder network err).config =
      { configBeforeAccelerator build sys
          { network with inputs := (inputLoop build 0 network.inputs (batchStage build builder).2).1 }
          IBuilderConfig.fresh (inputLoop build 0 network.inputs (batchStage build builder).2).2.1 with
        defaultDeviceType := some DeviceType.kDLA
        DLACore := some sys.DLACore
        flags := ((((if build.fp16 then 1 <<< BuilderFlag.kFP16.toNat else 0) |||
            (if build.int8 then 1 <<< BuilderFlag.kINT8.toNat else 0)) |||
            1 <<< BuilderFlag.kSTRICT_TYPES.toNat) |||
          (if sys.fallback then 1 <<< BuilderFlag.kGPU_FALLBACK.toNat else 0)) |||
          (if build.int8 then 0 else 1 <<< BuilderFlag.kFP16.toNat) } := by
  rw [networkToEngine_shape_ok trt build sys builder network err hshape, configureAndBuild_eq,
    acceleratorStage_selected build sys _ _ h1 (by rw [batchStage_nbDLACores]; exact h2),
    configBeforeAccelerator_flags]
/-! ## Lemmas on the accelerator-target stage -/

theorem configBeforeAccelerator_eq (build : BuildOptions) (sys : SystemOptions)
    (network : INetworkDefinition) (c : IBuilderConfig) (profile : Option IOptimizationProfile) :
    configBeforeAccelerator build sys network c profile =
      capabilityStage build sys (configBeforeCapability build network c profile) := rfl

theorem capabilityStage_unsafe (build : BuildOptions) (sys : SystemOptions) (c : IBuilderConfig)
    (h : build.safe = false) : capabilityStage build sys c = c := by
  simp [capabilityStage, h]

theorem capabilityStage_engineCapability (build : BuildOptions) (sys : SystemOptions)
    (c : IBuilderConfig) :
    (capabilityStage build sys c).engineCapability =
      if build.safe then
        some (if sys.DLACore = -1 then EngineCapability.kSAFE_GPU else EngineCapability.kSAFE_DLA)
      else c.engineCapability := by
  unfold capabilityStage
  by_cases hs : build.safe = true
  · by_cases hd : sys.DLACore = -1
    · simp [hs, hd]
    · simp [hs, hd]
  · simp [hs]

theorem configBeforeCapability_engineCapability (build : BuildOptions) (network : INetworkDefinition)
    (profile : Option IOptimizationProfile) :
    (configBeforeCapability build network IBuilderConfig.fresh profile).engineCapability = none := by
  unfold configBeforeCapability calibrationStage precisionStage
  cases profile <;> cases build.fp16 <;> cases build.int8 <;> (split <;> rfl)

theorem networkToEngine_unavailable (trt : TensorRT) (build : BuildOptions) (sys : SystemOptions)
    (builder : IBuilder) (network : INetworkDefinition) (err : List String)
    (hshape : shapeProfileFailure trt build builder network = none)
    (h1 : sys.DLACore ≠ -1) (h2 : builder.nbDLACores ≤ sys.DLACore) :
    (networkToEngine trt build sys builder network err).engine = none ∧
      (networkToEngine trt build sys builder network err).config =
        capabilityStage build sys (acceleratorEntryConfig build builder network) ∧
      (networkToEngine trt build sys builder network err).err =
        err ++ ["Cannot create DLA engine, " ++ toString sys.DLACore ++ " not available"] := by
  rw [networkToEngine_shape_ok trt build sys builder network err hshape,
    configureAndBuild_unavailable trt build sys _ _ _ _ err h1
      (by rw [batchStage_nbDLACores]; exact h2)]
  exact ⟨rfl, rfl, rfl⟩

theorem failsCheck_of_nonBatchDynamic (build : BuildOptions) (t : ITensor)
    (h : hasNonBatchDynamicDim t) : failsCheck build t = true := by
  unfold failsCheck
  rw [(anyNonBatchDynamic_iff _).mpr h]
  rfl

theorem failsCheck_of_missing (build : BuildOptions) (t : ITensor)
    (h : find t.name build.shapes = none) : failsCheck build t = true := by
  unfold failsCheck
  rw [h]
  simp

theorem failsCheck_eq_true_iff (build : BuildOptions) (t : ITensor) :
    failsCheck build t = true ↔ ¬ passesChecks build t := by
  rw [← failsCheck_eq_false_iff]
  cases failsCheck build t <;> simp

theorem shapeProfileFailure_of_listed (trt : TensorRT) (build : BuildOptions) (sys : SystemOptions)
    (builder : IBuilder) (network : INetworkDefinition) (err : List String)
    (h : nonBatchDynamicFailure build network ∨ missingBoundsFailure build network ∨
      invalidProfileFailure trt build network
        (networkToEngine trt build sys builder network err).profile) :
    ∃ msg, shapeProfileFailure trt build builder network = some msg := by
  have hne : shapeProfileFailure trt build builder network ≠ none := by
    rcases h with ⟨hdyn, t, ht, hnb⟩ | ⟨hdyn, t, ht, hmiss⟩ | ⟨hdyn, hpass, p, hp, hinv⟩
    · exact shapeProfileFailure_of_failing trt build builder network hdyn
        ⟨t, ht, failsCheck_of_nonBatchDynamic build t hnb⟩
    · exact shapeProfileFailure_of_failing trt build builder network hdyn
        ⟨t, ht, failsCheck_of_missing build t hmiss⟩
    · obtain ⟨hloop, hfail⟩ := shapeProfileFailure_dynamic_pass trt build builder network hdyn hpass
      rw [networkToEngine_profile, hloop] at hp
      injection hp with hp
      rw [hfail, hp, hinv]
      simp
  cases hs : shapeProfileFailure trt build builder network with
  | none => exact absurd hs hne
  | some msg => exact ⟨msg, rfl⟩

theorem deviceUnavailable_batchStage (build : BuildOptions) (sys : SystemOptions) (builder : IBuilder) :
    deviceUnavailable sys (batchStage build builder).1 ↔ deviceUnavailable sys builder := by
  unfold deviceUnavailable
  rw [batchStage_nbDLACores]

theorem networkToEngine_explicit (trt : TensorRT) (build : BuildOptions) (sys : SystemOptions)
    (builder : IBuilder) (network : INetworkDefinition) (err : List String)
    (hshape : shapeProfileFailure trt build builder network = none) (hex : explicitScales build) :
    (networkToEngine trt build sys builder network err).config.int8Calibrator = none ∧
      (deviceUnavailable sys builder →
        (networkToEngine trt build sys builder network err).engine = none ∧
        (networkToEngine trt build sys builder network err).calls =
          [Call.setTensorScales (networkToEngine trt build sys builder network err).network] ∧
        (networkToEngine trt build sys builder network err).err =
          err ++ ["Cannot create DLA engine, " ++ toString sys.DLACore ++ " not available"]) ∧
      (¬ deviceUnavailable sys builder →
        (networkToEngine trt build sys builder network err).calls =
          [Call.setTensorScales (networkToEngine trt build sys builder network err).network,
            Call.buildEngineWithConfig (networkToEngine trt build sys builder network err).builder
              (networkToEngine trt build sys builder network err).network
              (networkToEngine trt build sys builder network err).config] ∧
        (networkToEngine trt build sys builder network err).engine =
          trt.buildEngineWithConfig (networkToEngine trt build sys builder network err).builder
            (networkToEngine trt build sys builder network err).network
            (networkToEngine trt build sys builder network err).config ∧
        (networkToEngine trt build sys builder network err).err = err) := by
  rw [networkToEngine_shape_ok trt build sys builder network err hshape]
  refine ⟨?_, ?_, ?_⟩
  · rw [configureAndBuild_int8Calibrator, calibrationStage_explicit build _ _ hex,
      precisionStage_int8Calibrator, attachProfile_int8Calibrator]
    rfl
  · intro h4
    have h4b := (deviceUnavailable_batchStage build sys builder).mpr h4
    rw [configureAndBuild_unavailable trt build sys _ _ _ _ err h4b.1 h4b.2,
      calibrationStage_explicit build _ _ hex]
    exact ⟨rfl, rfl, rfl⟩
  · intro h4
    obtain ⟨c1, hc1⟩ := acceleratorStage_available build sys (batchStage build builder).1
      (configBeforeAccelerator build sys
        { network with inputs := (inputLoop build 0 network.inputs (batchStage build builder).2).1 }
        IBuilderConfig.fresh (inputLoop build 0 network.inputs (batchStage build builder).2).2.1)
      (fun h => h4 ((deviceUnavailable_batchStage build sys builder).mp h))
    rw [configureAndBuild_eq, hc1, calibrationStage_explicit build _ _ hex]
    exact ⟨rfl, rfl, rfl⟩

theorem acceleratorStage_engineCapability (build : BuildOptions) (sys : SystemOptions)
    (builder : IBuilder) (c c1 : IBuilderConfig) (h : acceleratorStage build sys builder c = .ok c1) :
    c1.engineCapability = c.engineCapability := by
  unfold acceleratorStage at h
  split at h
  · split at h
    · injection h with h
      subst h
      cases sys.fallback <;> cases build.int8 <;> rfl
    · cases h
  · injection h with h
    subst h
    rfl

theorem networkToEngine_engineCapability (trt : TensorRT) (build : BuildOptions) (sys : SystemOptions)
    (builder : IBuilder) (network : INetworkDefinition) (err : List String)
    (hshape : shapeProfileFailure trt build builder network = none) :
    (networkToEngine trt build sys builder network err).config.engineCapability =
      if build.safe then
        some (if sys.DLACore = -1 then EngineCapability.kSAFE_GPU else EngineCapability.kSAFE_DLA)
      else none := by
  have hbefore : ∀ network1 profile,
      (configBeforeAccelerator build sys network1 IBuilderConfig.fresh profile).engineCapability =
        if build.safe then
          some (if sys.DLACore = -1 then EngineCapability.kSAFE_GPU else EngineCapability.kSAFE_DLA)
        else none := by
    intro network1 profile
    rw [configBeforeAccelerator_eq, capabilityStage_engineCapability,
      configBeforeCapability_engineCapability]
  rw [networkToEngine_shape_ok trt build sys builder network err hshape, configureAndBuild_eq]
  rcases h : acceleratorStage build sys (batchStage build builder).1
    (configBeforeAccelerator build sys
      { network with inputs := (inputLoop build 0 network.inputs (batchStage build builder).2).1 }
      IBuilderConfig.fresh (inputLoop build 0 network.inputs (batchStage build builder).2).2.1)
    with msg | c1
  · exact hbefore _ _
  · simp only []
    rw [acceleratorStage_engineCapability build sys _ _ c1 h]
    exact hbefore _ _

theorem networkToEngine_no_accelerator (trt : TensorRT) (build : BuildOptions) (sys : SystemOptions)
    (builder : IBuilder) (network : INetworkDefinition) (err : List String)
    (hshape : shapeProfileFailure trt build builder network = none) (h1 : sys.DLACore = -1) :
    (networkToEngine trt build sys builder network err).config =
        capabilityStage build sys (acceleratorEntryConfig build builder network) ∧
      (networkToEngine trt build sys builder network err).engine =
        trt.buildEngineWithConfig (networkToEngine trt build sys builder network err).builder
          (networkToEngine trt build sys builder network err).network
          (networkToEngine trt build sys builder network err).config ∧
      (∃ before, (networkToEngine trt build sys builder network err).calls =
        before ++ [Call.buildEngineWithConfig (networkToEngine trt build sys builder network err).builder
          (networkToEngine trt build sys builder network err).network
          (networkToEngine trt build sys builder network err).config]) ∧
      (networkToEngine trt build sys builder network err).err = err := by
  rw [networkToEngine_shape_ok trt build sys builder network err hshape, configureAndBuild_eq,
    acceleratorStage_none build sys _ _ h1]
  exact ⟨rfl, rfl, ⟨_, rfl⟩, rfl⟩

theorem foldl_register_find_last (build : BuildOptions) (pre post : List ITensor) (t : ITensor)
    (hpost : ∀ u ∈ post, u.name ≠ t.name) (r : ShapeRange)
    (hr : find t.name build.shapes = some r) (p : IOptimizationProfile) :
    find t.name ((pre ++ t :: post).foldl (register build) p).entries =
      some { kMIN := some (boundOf t.dimensions r OptProfileSelector.kMIN),
             kOPT := some (boundOf t.dimensions r OptProfileSelector.kOPT),
             kMAX := some (boundOf t.dimensions r OptProfileSelector.kMAX) } := by
  rw [List.foldl_append, List.foldl_cons, foldl_register_find_other build post t.name hpost,
    register_find_self build _ t r hr]

/-! ## Lemmas on the call of the scale-setting routine -/

theorem calibrationStageWith_returned (scales : INetworkDefinition → ScalesCall)
    (build : BuildOptions) (network : INetworkDefinition) (c : IBuilderConfig) (complete : Bool)
    (h : scales network = ScalesCall.returned complete) :
    calibrationStageWith scales build network c = .ok (calibrationStage build network c) := by
  unfold calibrationStageWith calibrationStage
  rw [h]
  split
  · rfl
  · split <;> rfl

theorem calibrationStageWith_raised (scales : INetworkDefinition → ScalesCall)
    (build : BuildOptions) (network : INetworkDefinition) (c : IBuilderConfig)
    (hex : explicitScales build) (h : scales network = ScalesCall.raised) :
    calibrationStageWith scales build network c = .error [Call.setTensorScales network] := by
  unfold calibrationStageWith
  rw [if_pos ((explicitScales_iff build).mpr hex), h]

theorem configureAndBuildWith_returned (scales : INetworkDefinition → ScalesCall) (trt : TensorRT)
    (build : BuildOptions) (sys : SystemOptions) (builder : IBuilder) (network : INetworkDefinition)
    (config : IBuilderConfig) (profile : Option IOptimizationProfile) (err : List String)
    (complete : Bool) (h : scales (withOutputs build network) = ScalesCall.returned complete) :
    configureAndBuildWith scales trt build sys builder network config profile err =
      Ending.returned (configureAndBuild trt build sys builder network config profile err) := by
  unfold configureAndBuildWith configureAndBuild
  have hstage := calibrationStageWith_returned scales build (withOutputs build network)
    (precisionStage build (attachProfile config profile)) complete h
  unfold withOutputs at hstage
  simp only [hstage]
  split <;> rfl

theorem configureAndBuildWith_raised (scales : INetworkDefinition → ScalesCall) (trt : TensorRT)
    (build : BuildOptions) (sys : SystemOptions) (builder : IBuilder) (network : INetworkDefinition)
    (config : IBuilderConfig) (profile : Option IOptimizationProfile) (err : List String)
    (hex : explicitScales build) (h : scales (withOutputs build network) = ScalesCall.raised) :
    configureAndBuildWith scales trt build sys builder network config profile err =
      Ending.raised [Call.setTensorScales (withOutputs build network)] := by
  unfold configureAndBuildWith
  have hstage := calibrationStageWith_raised scales build (withOutputs build network)
    (precisionStage build (attachProfile config profile)) hex h
  unfold withOutputs at hstage
  simp only [hstage]
  rfl

theorem networkToEngineWith_shape_ok (scales : INetworkDefinition → ScalesCall) (trt : TensorRT)
    (build : BuildOptions) (sys : SystemOptions) (builder : IBuilder) (network : INetworkDefinition)
    (err : List String) (h : shapeProfileFailure trt build builder network = none) :
    networkToEngineWith scales trt build sys builder network err =
      configureAndBuildWith scales trt build sys (batchStage build builder).1
        { network with inputs := (inputLoop build 0 network.inputs (batchStage build builder).2).1 }
        IBuilderConfig.fresh
        (inputLoop build 0 network.inputs (batchStage build builder).2).2.1 err := by
  unfold shapeProfileFailure at h
  unfold networkToEngineWith
  rcases hb : batchStage build builder with ⟨b1, p1⟩
  rw [hb] at h
  simp only [] at h ⊢
  rcases hl : inputLoop build 0 network.inputs p1 with ⟨la, pr, (_ | m)⟩
  · rw [hl] at h
    simp only [] at h ⊢
    split at h
    · cases h
    · rename_i hr
      simp [hr]
  · rw [hl] at h
    cases h

theorem networkToEngine_network (trt : TensorRT) (build : BuildOptions) (sys : SystemOptions)
    (builder : IBuilder) (network : INetworkDefinition) (err : List String)
    (h : shapeProfileFailure trt build builder network = none) :
    (networkToEngine trt build sys builder network err).network =
      withOutputs build
        { network with inputs := (inputLoop build 0 network.inputs (batchStage build builder).2).1 } := by
  rw [networkToEngine_shape_ok trt build sys builder network err h, configureAndBuild_network]

/-! ## The claims -/

/-- C1 (amended): in dynamic-batch mode, when an input tensor has a dimension other than
dimension 0 equal to `-1`, `networkToEngine` returns the null pointer, and every input tensor
positioned after that one and every output tensor is the same after the call as before it. -/
theorem C1_nonbatch_dynamic_fails_and_frames_later_tensors (trt : TensorRT) (build : BuildOptions)
    (sys : SystemOptions) (builder : IBuilder) (network : INetworkDefinition) (err : List String)
    (pre post : List ITensor) (t : ITensor)
    (hdyn : dynamicBatch build) (hin : network.inputs = pre ++ t :: post)
    (ht : hasNonBatchDynamicDim t) :
    (networkToEngine trt build sys builder network err).engine = none ∧
      (networkToEngine trt build sys builder network err).network.outputs = network.outputs ∧
      (networkToEngine trt build sys builder network err).network.inputs.length = network.inputs.length ∧
      ∀ j, pre.length < j →
        (networkToEngine trt build sys builder network err).network.inputs[j]? = network.inputs[j]? := by
  have hf : failsCheck build t = true := by
    unfold failsCheck
    rw [(anyNonBatchDynamic_iff _).mpr ht]; rfl
  obtain ⟨la, pr, msg, hla, hlen⟩ := inputLoop_frame build pre post t hf 0 IOptimizationProfile.empty
  have hloop : inputLoop build 0 network.inputs (batchStage build builder).2 = (la ++ post, pr, some msg) := by
    rw [batchStage_dynamic build builder hdyn, hin]; exact hla
  rw [networkToEngine_loop_fail trt build sys builder network err _ _ _ hloop]
  refine ⟨rfl, rfl, ?_, ?_⟩
  · simp [hin, hlen]; omega
  · intro j hj
    simp only [hin]
    rw [List.getElem?_append_right (by omega), List.getElem?_append_right (by omega), hlen]
    have : j - pre.length = (j - (pre.length + 1)) + 1 := by omega
    rw [this, List.getElem?_cons_succ]

/-- C1 (amended) at a concrete build: inputs "a", "b", "a" where "b" has dimension 2 equal to `-1`. -/
theorem C1_witness :
    (networkToEngine exTrt exBuild exSys exBuilder
        { inputs := [exStatic, exDynamic, exStatic], outputs := [exStatic] } []).engine = none ∧
      (networkToEngine exTrt exBuild exSys exBuilder
        { inputs := [exStatic, exDynamic, exStatic], outputs := [exStatic] } []).network.outputs = [exStatic] ∧
      (networkToEngine exTrt exBuild exSys exBuilder
        { inputs := [exStatic, exDynamic, exStatic], outputs := [exStatic] } []).network.inputs.length = 3 ∧
      ∀ j, 1 < j →
        (networkToEngine exTrt exBuild exSys exBuilder
          { inputs := [exStatic, exDynamic, exStatic], outputs := [exStatic] } []).network.inputs[j]? =
          [exStatic, exDynamic, exStatic][j]? :=
  C1_nonbatch_dynamic_fails_and_frames_later_tensors exTrt exBuild exSys exBuilder
    { inputs := [exStatic, exDynamic, exStatic], outputs := [exStatic] } [] [exStatic] [exStatic] exDynamic
    ⟨rfl, by decide⟩ rfl ⟨2, by decide, by decide, rfl⟩

/-- C1 as stated fails: with inputs "a" (static, type `kHALF`) and "b" (dimension 2 equal to
`-1`) in dynamic-batch mode, input "a", which is not the offending tensor, has been given type
`kFLOAT` by the time the call fails on "b". -/
theorem C1_counterexample :
    dynamicBatch exBuild ∧ hasNonBatchDynamicDim exDynamic ∧ exStatic ≠ exDynamic ∧
      (networkToEngine exTrt exBuild exSys exBuilder
        { inputs := [exStatic, exDynamic], outputs := [] } []).network.inputs[0]? ≠ some exStatic ∧
      ((networkToEngine exTrt exBuild exSys exBuilder
        { inputs := [exStatic, exDynamic], outputs := [] } []).network.inputs[0]?).map (fun t => t.type)
        = some DataType.kFLOAT ∧ exStatic.type = DataType.kHALF := by
  refine ⟨⟨rfl, by decide⟩, ⟨2, by decide, by decide, rfl⟩, by decide, by decide, by decide, rfl⟩

/-- C2: when no shape-profile check fails and the requested DLA core is not `-1` and is at least
`builder.getNbDLACores()`, `networkToEngine` returns the null pointer with the device diagnostic,
the compiler is not called, and the default device type and the DLA core of the configuration
are as in the freshly created configuration. -/
theorem C2_unavailable_core_fails_with_device_unset (trt : TensorRT) (build : BuildOptions)
    (sys : SystemOptions) (builder : IBuilder) (network : INetworkDefinition) (err : List String)
    (hshape : shapeProfileFailure trt build builder network = none)
    (h1 : sys.DLACore ≠ -1) (h2 : builder.nbDLACores ≤ sys.DLACore) :
    (networkToEngine trt build sys builder network err).engine = none ∧
      (networkToEngine trt build sys builder network err).err =
        err ++ ["Cannot create DLA engine, " ++ toString sys.DLACore ++ " not available"] ∧
      (∀ b n c, Call.buildEngineWithConfig b n c ∉
        (networkToEngine trt build sys builder network err).calls) ∧
      (networkToEngine trt build sys builder network err).config.defaultDeviceType =
        IBuilderConfig.fresh.defaultDeviceType ∧
      (networkToEngine trt build sys builder network err).config.DLACore =
        IBuilderConfig.fresh.DLACore := by
  rw [networkToEngine_shape_ok trt build sys builder network err hshape,
    configureAndBuild_unavailable trt build sys _ _ _ _ err h1
      (by rw [batchStage_nbDLACores]; exact h2)]
  exact ⟨rfl, rfl, fun b n c => calibrationStage_no_build _ _ _ b n c,
    (configBeforeAccelerator_device _ _ _ _ _).1, (configBeforeAccelerator_device _ _ _ _ _).2⟩

/-- C2 at a concrete build: DLA core 2 requested from a builder with 2 DLA cores. -/
theorem C2_witness :
    (networkToEngine exTrt exBuild { DLACore := 2, fallback := true } exBuilder
        { inputs := [exStatic], outputs := [exStatic] } []).engine = none ∧
      (networkToEngine exTrt exBuild { DLACore := 2, fallback := true } exBuilder
        { inputs := [exStatic], outputs := [exStatic] } []).err =
        [] ++ ["Cannot create DLA engine, " ++ toString (2 : Int) ++ " not available"] ∧
      (∀ b n c, Call.buildEngineWithConfig b n c ∉
        (networkToEngine exTrt exBuild { DLACore := 2, fallback := true } exBuilder
          { inputs := [exStatic], outputs := [exStatic] } []).calls) ∧
      (networkToEngine exTrt exBuild { DLACore := 2, fallback := true } exBuilder
        { inputs := [exStatic], outputs := [exStatic] } []).config.defaultDeviceType =
        IBuilderConfig.fresh.defaultDeviceType ∧
      (networkToEngine exTrt exBuild { DLACore := 2, fallback := true } exBuilder
        { inputs := [exStatic], outputs := [exStatic] } []).config.DLACore =
        IBuilderConfig.fresh.DLACore :=
  C2_unavailable_core_fails_with_device_unset exTrt exBuild { DLACore := 2, fallback := true } exBuilder
    { inputs := [exStatic], outputs := [exStatic] } [] (by decide) (by decide) (by decide)

/-- C3 as stated fails when two input tensors share a name: with inputs "a" of shape
1x3x224x224 and "a" of shape 7x5, both passing the per-tensor checks, the second registration
under "a" (lines 101-106) replaces the first, so the minimum held under the name of the first
tensor is 1x5, not its declared shape with dimension 0 replaced, 1x3x224x224. -/
theorem C3_counterexample :
    dynamicBatch exBuild ∧ passesChecks exBuild exStatic ∧ passesChecks exBuild exTwin ∧
      find exStatic.name exBuild.shapes = some (exRange 1 8 32) ∧
      ((networkToEngine exTrt exBuild exSys exBuilder
          { inputs := [exStatic, exTwin], outputs := [] } []).profile.bind
        (fun p => p.getDimensions exStatic.name OptProfileSelector.kMIN)) =
        some { nbDims := 2, d := [1, 5, 0, 0, 0, 0, 0, 0] } ∧
      exStatic.dimensions.setD0 ((exRange 1 8 32).get OptProfileSelector.kMIN).d0 =
        { nbDims := 4, d := [1, 3, 224, 224, 0, 0, 0, 0] } ∧
      ((networkToEngine exTrt exBuild exSys exBuilder
          { inputs := [exStatic, exTwin], outputs := [] } []).profile.bind
        (fun p => p.getDimensions exStatic.name OptProfileSelector.kMIN)) ≠
        some (exStatic.dimensions.setD0 ((exRange 1 8 32).get OptProfileSelector.kMIN).d0) :=
  ⟨⟨rfl, by decide⟩, (failsCheck_eq_false_iff exBuild exStatic).mp (by decide),
    (failsCheck_eq_false_iff exBuild exTwin).mp (by decide), by decide, by decide, by decide,
    by decide⟩

/-- C3 (amended): in a dynamic-batch build in which every input tensor passes the per-tensor
checks, the assembled profile, which is the one attached when the library accepts it, holds for
each input tensor `t` whose name no input positioned after it bears (hence for every input
tensor when the names are pairwise distinct), with declared shape `s` and table entry `r`, the
three bounds `s` with dimension 0 replaced by dimension 0 of `r.kMIN`, `r.kOPT`, `r.kMAX`:
dimension 0 of a bound is the caller's, the rank and every other dimension are those of `s`;
and the profile has an entry under no name other than the names of the input tensors. -/
theorem C3_profile_bounds_replace_batch_dimension (trt : TensorRT) (build : BuildOptions)
    (sys : SystemOptions) (builder : IBuilder) (network : INetworkDefinition) (err : List String)
    (hdyn : dynamicBatch build) (hpass : ∀ t ∈ network.inputs, passesChecks build t) :
    ∃ p, (networkToEngine trt build sys builder network err).profile = some p ∧
      (trt.isValid p = true → (networkToEngine trt build sys builder network err).config.profiles = [p]) ∧
      (∀ (pre post : List ITensor) (t : ITensor), network.inputs = pre ++ t :: post →
        (∀ u ∈ post, u.name ≠ t.name) →
        ∀ r, find t.name build.shapes = some r → ∀ sel,
          p.getDimensions t.name sel = some (t.dimensions.setD0 (r.get sel).d0) ∧
            (t.dimensions.setD0 (r.get sel).d0).d0 = (r.get sel).d0 ∧
            (t.dimensions.setD0 (r.get sel).d0).nbDims = t.dimensions.nbDims ∧
            ∀ k, 1 ≤ k → (t.dimensions.setD0 (r.get sel).d0).d[k]? = t.dimensions.d[k]?) ∧
      ((network.inputs.map (fun t => t.name)).Nodup →
        ∀ t ∈ network.inputs, ∀ r, find t.name build.shapes = some r → ∀ sel,
          p.getDimensions t.name sel = some (t.dimensions.setD0 (r.get sel).d0) ∧
            (t.dimensions.setD0 (r.get sel).d0).d0 = (r.get sel).d0 ∧
            (t.dimensions.setD0 (r.get sel).d0).nbDims = t.dimensions.nbDims ∧
            ∀ k, 1 ≤ k → (t.dimensions.setD0 (r.get sel).d0).d[k]? = t.dimensions.d[k]?) ∧
      (∀ name, find name p.entries ≠ none → ∃ t ∈ network.inputs, t.name = name) := by
  obtain ⟨hloop, hfail⟩ := shapeProfileFailure_dynamic_pass trt build builder network hdyn hpass
  have htail : ∀ (t : ITensor) (v : Int) (k : Nat), 1 ≤ k →
      (t.dimensions.setD0 v).d[k]? = t.dimensions.d[k]? := by
    intro t v k hk
    obtain ⟨k, rfl⟩ : ∃ m, k = m + 1 := ⟨k - 1, by omega⟩
    cases hd : t.dimensions.d <;> simp [Dims.setD0, hd]
  refine ⟨network.inputs.foldl (register build) IOptimizationProfile.empty, ?_, ?_, ?_, ?_, ?_⟩
  · rw [networkToEngine_profile, hloop]
  · intro hv
    rw [networkToEngine_profiles, hfail, hloop, if_pos hv]
  · intro pre post t hsplit hpost r hr sel
    refine ⟨?_, rfl, rfl, htail t _⟩
    unfold IOptimizationProfile.getDimensions
    rw [hsplit, foldl_register_find_last build pre post t hpost r hr]
    cases sel <;> rfl
  · intro hnames t ht r hr sel
    refine ⟨?_, rfl, rfl, htail t _⟩
    unfold IOptimizationProfile.getDimensions
    rw [foldl_register_find build network.inputs hnames t ht r hr]
    cases sel <;> rfl
  · intro name hname
    rcases foldl_register_names build network.inputs name _ hname with h | h
    · exact absurd rfl h
    · exact h

/-- C3 (amended) at a concrete build: one input "a" and caller bounds 1/8/32 on dimension 0 give
a profile with exactly one entry, whose bounds are 1, 8, 32 on dimension 0 and the declared
extents elsewhere (the other dimensions of the caller's optimum, all 9, are ignored). -/
theorem C3_witness :
    (∃ p, (networkToEngine exTrt exBuild exSys exBuilder exNetwork []).profile = some p ∧
      (exTrt.isValid p = true →
        (networkToEngine exTrt exBuild exSys exBuilder exNetwork []).config.profiles = [p]) ∧
      (∀ (pre post : List ITensor) (t : ITensor), exNetwork.inputs = pre ++ t :: post →
        (∀ u ∈ post, u.name ≠ t.name) →
        ∀ r, find t.name exBuild.shapes = some r → ∀ sel,
          p.getDimensions t.name sel = some (t.dimensions.setD0 (r.get sel).d0) ∧
            (t.dimensions.setD0 (r.get sel).d0).d0 = (r.get sel).d0 ∧
            (t.dimensions.setD0 (r.get sel).d0).nbDims = t.dimensions.nbDims ∧
            ∀ k, 1 ≤ k → (t.dimensions.setD0 (r.get sel).d0).d[k]? = t.dimensions.d[k]?) ∧
      ((exNetwork.inputs.map (fun t => t.name)).Nodup →
        ∀ t ∈ exNetwork.inputs, ∀ r, find t.name exBuild.shapes = some r → ∀ sel,
          p.getDimensions t.name sel = some (t.dimensions.setD0 (r.get sel).d0) ∧
            (t.dimensions.setD0 (r.get sel).d0).d0 = (r.get sel).d0 ∧
            (t.dimensions.setD0 (r.get sel).d0).nbDims = t.dimensions.nbDims ∧
            ∀ k, 1 ≤ k → (t.dimensions.setD0 (r.get sel).d0).d[k]? = t.dimensions.d[k]?) ∧
      (∀ name, find name p.entries ≠ none → ∃ t ∈ exNetwork.inputs, t.name = name)) ∧
    (networkToEngine exTrt exBuild exSys exBuilder exNetwork []).profile =
      some { entries := [("a",
        { kMIN := some { nbDims := 4, d := [1, 3, 224, 224, 0, 0, 0, 0] },
          kOPT := some { nbDims := 4, d := [8, 3, 224, 224, 0, 0, 0, 0] },
          kMAX := some { nbDims := 4, d := [32, 3, 224, 224, 0, 0, 0, 0] } })] } ∧
    (networkToEngine exTrt exBuild exSys exBuilder exNetwork []).config.profiles =
      [{ entries := [("a",
        { kMIN := some { nbDims := 4, d := [1, 3, 224, 224, 0, 0, 0, 0] },
          kOPT := some { nbDims := 4, d := [8, 3, 224, 224, 0, 0, 0, 0] },
          kMAX := some { nbDims := 4, d := [32, 3, 224, 224, 0, 0, 0, 0] } })] }] :=
  ⟨C3_profile_bounds_replace_batch_dimension exTrt exBuild exSys exBuilder exNetwork []
      ⟨rfl, by decide⟩
      (fun t ht => by
        have ht1 : t = exStatic := by simpa [exNetwork] using ht
        subst ht1
        exact (failsCheck_eq_false_iff exBuild exStatic).mp (by decide)),
    by decide, by decide⟩

/-- C4 (amended): with a library validator that rejects a profile whose bounds are out of order on
dimension 0, every profile attached to the configuration holds, for every input tensor, three
bounds whose dimension 0 is that of the caller's bounds and satisfies
minimum ≤ optimum ≤ maximum. Conversely, when the caller's bounds of some input tensor have
min[0] > opt[0] or opt[0] > max[0], no profile is attached; in dynamic-batch mode the call then
returns the null pointer without calling anything, and when every input passes the per-tensor
checks the diagnostic written is the one of the invalid profile. -/
theorem C4_attached_profile_is_batch_ordered (trt : TensorRT) (build : BuildOptions)
    (sys : SystemOptions) (builder : IBuilder) (network : INetworkDefinition) (err : List String)
    (hlib : validatorChecksBatchOrder trt) :
    (∀ p ∈ (networkToEngine trt build sys builder network err).config.profiles,
      ∀ t ∈ network.inputs, ∃ r mn op mx, find t.name build.shapes = some r ∧
        p.getDimensions t.name OptProfileSelector.kMIN = some mn ∧
        p.getDimensions t.name OptProfileSelector.kOPT = some op ∧
        p.getDimensions t.name OptProfileSelector.kMAX = some mx ∧
        mn.d0 = r.kMIN.d0 ∧ op.d0 = r.kOPT.d0 ∧ mx.d0 = r.kMAX.d0 ∧
        mn.d0 ≤ op.d0 ∧ op.d0 ≤ mx.d0) ∧
    ((∃ t ∈ network.inputs, ∃ r, find t.name build.shapes = some r ∧
        (r.kOPT.d0 < r.kMIN.d0 ∨ r.kMAX.d0 < r.kOPT.d0)) →
      (networkToEngine trt build sys builder network err).config.profiles = [] ∧
      (dynamicBatch build →
        (networkToEngine trt build sys builder network err).engine = none ∧
        (networkToEngine trt build sys builder network err).calls = []) ∧
      (dynamicBatch build → (∀ t ∈ network.inputs, passesChecks build t) →
        (networkToEngine trt build sys builder network err).err =
          err ++ ["Required optimization profile is invalid"])) := by
  have hattached : ∀ p ∈ (networkToEngine trt build sys builder network err).config.profiles,
      ∀ t ∈ network.inputs, ∃ r mn op mx, find t.name build.shapes = some r ∧
        p.getDimensions t.name OptProfileSelector.kMIN = some mn ∧
        p.getDimensions t.name OptProfileSelector.kOPT = some op ∧
        p.getDimensions t.name OptProfileSelector.kMAX = some mx ∧
        mn.d0 = r.kMIN.d0 ∧ op.d0 = r.kOPT.d0 ∧ mx.d0 = r.kMAX.d0 ∧
        mn.d0 ≤ op.d0 ∧ op.d0 ≤ mx.d0 := by
    intro p hp t ht
    rw [networkToEngine_profiles] at hp
    cases hs : shapeProfileFailure trt build builder network with
    | some msg => rw [hs] at hp; cases hp
    | none =>
      rcases shapeProfileFailure_none_cases trt build builder network hs with
        ⟨_, hnone⟩ | ⟨_, hpass, hsome, hvalid⟩
      · rw [hs, hnone] at hp; cases hp
      · rw [hs, hsome] at hp
        have hpe : p = network.inputs.foldl (register build) IOptimizationProfile.empty := by
          simpa using hp
        obtain ⟨r, hr⟩ := (hpass t ht).2
        obtain ⟨e, he, mn, op, mx, hex, h1, h2, h3⟩ :=
          foldl_register_carries build t.name r hr network.inputs IOptimizationProfile.empty
            (Or.inl ⟨t, ht, rfl⟩)
        rw [← hpe] at he hvalid
        have gmn : p.getDimensions t.name OptProfileSelector.kMIN = some mn := by
          unfold IOptimizationProfile.getDimensions; rw [he, hex]; rfl
        have gop : p.getDimensions t.name OptProfileSelector.kOPT = some op := by
          unfold IOptimizationProfile.getDimensions; rw [he, hex]; rfl
        have gmx : p.getDimensions t.name OptProfileSelector.kMAX = some mx := by
          unfold IOptimizationProfile.getDimensions; rw [he, hex]; rfl
        obtain ⟨o1, o2⟩ := hlib p t.name mn op mx hvalid gmn gop gmx
        exact ⟨r, mn, op, mx, hr, gmn, gop, gmx, h1, h2, h3, o1, o2⟩
  refine ⟨hattached, ?_⟩
  rintro ⟨t, ht, r, hr, hbad⟩
  have hnil : (networkToEngine trt build sys builder network err).config.profiles = [] := by
    apply List.eq_nil_iff_forall_not_mem.mpr
    intro p hp
    obtain ⟨r1, mn, op, mx, hr1, _, _, _, h1, h2, h3, o1, o2⟩ := hattached p hp t ht
    rw [hr] at hr1
    injection hr1 with hr1
    subst hr1
    omega
  have hfail : dynamicBatch build → shapeProfileFailure trt build builder network ≠ none := by
    intro hdyn hs
    rcases shapeProfileFailure_none_cases trt build builder network hs with
      ⟨hnd, _⟩ | ⟨_, _, hsome, _⟩
    · exact hnd hdyn
    · rw [networkToEngine_profiles, hs, hsome] at hnil
      cases hnil
  refine ⟨hnil, ?_, ?_⟩
  · intro hdyn
    cases hs : shapeProfileFailure trt build builder network with
    | none => exact absurd hs (hfail hdyn)
    | some msg =>
      rw [networkToEngine_shape_fail trt build sys builder network err msg hs]
      exact ⟨rfl, rfl⟩
  · intro hdyn hpass
    obtain ⟨_, hsf⟩ := shapeProfileFailure_dynamic_pass trt build builder network hdyn hpass
    by_cases hv : trt.isValid (network.inputs.foldl (register build) IOptimizationProfile.empty) = true
    · rw [if_pos hv] at hsf
      exact absurd hsf (hfail hdyn)
    · rw [if_neg hv] at hsf
      rw [networkToEngine_shape_fail trt build sys builder network err _ hsf]

/-- C4 (amended) at a concrete build: one input whose caller bounds are 8/4/2 on dimension 0, with a
validator that checks the order. -/
theorem C4_witness :
    validatorChecksBatchOrder exStrictTrt ∧
      (networkToEngine exStrictTrt exBadBuild exSys exBuilder exNetwork []).config.profiles = [] ∧
      (networkToEngine exStrictTrt exBadBuild exSys exBuilder exNetwork []).engine = none ∧
      (networkToEngine exStrictTrt exBadBuild exSys exBuilder exNetwork []).calls = [] ∧
      (networkToEngine exStrictTrt exBadBuild exSys exBuilder exNetwork []).err =
        [] ++ ["Required optimization profile is invalid"] ∧
      (∀ p ∈ (networkToEngine exStrictTrt exBuild exSys exBuilder exNetwork []).config.profiles,
        ∀ t ∈ exNetwork.inputs, ∃ r mn op mx, find t.name exBuild.shapes = some r ∧
          p.getDimensions t.name OptProfileSelector.kMIN = some mn ∧
          p.getDimensions t.name OptProfileSelector.kOPT = some op ∧
          p.getDimensions t.name OptProfileSelector.kMAX = some mx ∧
          mn.d0 = r.kMIN.d0 ∧ op.d0 = r.kOPT.d0 ∧ mx.d0 = r.kMAX.d0 ∧
          mn.d0 ≤ op.d0 ∧ op.d0 ≤ mx.d0) ∧
      (networkToEngine exStrictTrt exBuild exSys exBuilder exNetwork []).config.profiles ≠ [] :=
  have hbad := (C4_attached_profile_is_batch_ordered exStrictTrt exBadBuild exSys exBuilder exNetwork []
    exStrictTrt_checks).2 ⟨exStatic, by decide, exRange 8 4 2, by decide, Or.inl (by decide)⟩
  have hpass : ∀ t ∈ exNetwork.inputs, passesChecks exBadBuild t := fun t ht => by
    have ht1 : t = exStatic := by simpa [exNetwork] using ht
    subst ht1
    exact (failsCheck_eq_false_iff exBadBuild exStatic).mp (by decide)
  ⟨exStrictTrt_checks, hbad.1, (hbad.2.1 ⟨rfl, by decide⟩).1, (hbad.2.1 ⟨rfl, by decide⟩).2,
    hbad.2.2 ⟨rfl, by decide⟩ hpass,
    (C4_attached_profile_is_batch_ordered exStrictTrt exBuild exSys exBuilder exNetwork []
      exStrictTrt_checks).1, by decide⟩

/-- C4 as stated fails where the second half says the call fails with the profile-validation
failure whenever the caller's bounds of an input are out of order. In fixed-batch mode
(`maxBatch = 4`, bounds 8/4/2 for input "a") the table is never read and `networkToEngine`
returns the compiled engine. In dynamic-batch mode with the same bounds and a second input "b"
that has a non-batch dynamic dimension, the call fails on "b" with the shape diagnostic, not
the profile one. -/
theorem C4_counterexample :
    validatorChecksBatchOrder exStrictTrt ∧
      (∃ t ∈ exNetwork.inputs, ∃ r, find t.name exFixedBadBuild.shapes = some r ∧
        r.kOPT.d0 < r.kMIN.d0) ∧
      (networkToEngine exStrictTrt exFixedBadBuild exSys exBuilder exNetwork []).engine =
        some { handle := 7 } ∧
      (networkToEngine exStrictTrt exFixedBadBuild exSys exBuilder exNetwork []).err = [] ∧
      dynamicBatch exBadBuild ∧
      (networkToEngine exStrictTrt exBadBuild exSys exBuilder
        { inputs := [exStatic, exDynamic], outputs := [] } []).err =
        ["Only dynamic batch dimension is currently supported, other dimensions must be static"] :=
  ⟨exStrictTrt_checks, ⟨exStatic, by decide, exRange 8 4 2, by decide, by decide⟩, by decide,
    by decide, ⟨rfl, by decide⟩, by decide⟩

/-- C5: in a build that reaches the calibration stage, `setTensorScales` is called (on the
network as the call leaves it) exactly when INT8 is requested with an empty calibration
reference or some input or output override has type INT8; a calibrator is attached exactly
when INT8 is requested, the calibration reference is non-empty and no override has type INT8,
and it is `RndInt8Calibrator(1, build.calibration, ...)`; the two never both happen. -/
theorem C5_explicit_scales_or_calibrator (trt : TensorRT) (build : BuildOptions)
    (sys : SystemOptions) (builder : IBuilder) (network : INetworkDefinition) (err : List String)
    (hshape : shapeProfileFailure trt build builder network = none) :
    ((∃ n, Call.setTensorScales n ∈ (networkToEngine trt build sys builder network err).calls) ↔
        (build.int8 = true ∧ build.calibration = "") ∨ hasInt8Override build) ∧
      (∀ n, Call.setTensorScales n ∈ (networkToEngine trt build sys builder network err).calls →
        n = (networkToEngine trt build sys builder network err).network) ∧
      ((networkToEngine trt build sys builder network err).config.int8Calibrator ≠ none ↔
        build.int8 = true ∧ build.calibration ≠ "" ∧ ¬ hasInt8Override build) ∧
      ((networkToEngine trt build sys builder network err).config.int8Calibrator ≠ none →
        (networkToEngine trt build sys builder network err).config.int8Calibrator =
          some { batches := 1, cacheFile := build.calibration }) ∧
      ¬ ((∃ n, Call.setTensorScales n ∈ (networkToEngine trt build sys builder network err).calls) ∧
        (networkToEngine trt build sys builder network err).config.int8Calibrator ≠ none) := by
  rw [networkToEngine_shape_ok trt build sys builder network err hshape]
  simp only [configureAndBuild_scales, configureAndBuild_int8Calibrator, configureAndBuild_network]
  have hfresh : ∀ profile, (precisionStage build
      (attachProfile IBuilderConfig.fresh profile)).int8Calibrator = none := by
    intro profile
    rw [precisionStage_int8Calibrator, attachProfile_int8Calibrator]; rfl
  by_cases hex : explicitScales build
  · rw [calibrationStage_explicit build _ _ hex]
    have hex1 := hex
    unfold explicitScales at hex1
    simp only [hfresh]
    refine ⟨⟨fun _ => hex1, fun _ => ⟨_, List.mem_singleton.mpr rfl⟩⟩, ?_, ?_, ?_, ?_⟩
    · intro n hn
      simpa using hn
    · constructor
      · intro h; exact absurd rfl h
      · rintro ⟨h8, hc, hio⟩
        rcases hex1 with ⟨_, h⟩ | h
        · exact absurd h hc
        · exact absurd h hio
    · intro h; exact absurd rfl h
    · rintro ⟨_, h⟩; exact absurd rfl h
  · have hex1 := hex
    unfold explicitScales at hex1
    by_cases h8 : build.int8 = true
    · rw [calibrationStage_calibrator build _ _ hex h8]
      refine ⟨⟨?_, fun h => absurd h hex1⟩, ?_, ?_, ?_, ?_⟩
      · rintro ⟨n, hn⟩; cases hn
      · intro n hn; cases hn
      · refine ⟨fun _ => ⟨h8, ?_, ?_⟩, fun _ => by simp⟩
        · intro hc; exact hex1 (Or.inl ⟨h8, hc⟩)
        · intro hio; exact hex1 (Or.inr hio)
      · intro _; rfl
      · rintro ⟨⟨n, hn⟩, _⟩; cases hn
    · rw [calibrationStage_nothing build _ _ hex (by simpa using h8)]
      simp only [hfresh]
      refine ⟨⟨?_, fun h => absurd h hex1⟩, ?_, ?_, ?_, ?_⟩
      · rintro ⟨n, hn⟩; cases hn
      · intro n hn; cases hn
      · refine ⟨fun h => absurd rfl h, ?_⟩
        rintro ⟨h, _⟩; exact absurd h h8
      · intro h; exact absurd rfl h
      · rintro ⟨⟨n, hn⟩, _⟩; cases hn

/-- C5 at a concrete build: INT8 with a calibration reference and no INT8 override attaches
the calibrator and sets no explicit scales. -/
theorem C5_witness :
    (((∃ n, Call.setTensorScales n ∈
          (networkToEngine exTrt exCalibratedBuild exSys exBuilder exNetwork []).calls) ↔
        (exCalibratedBuild.int8 = true ∧ exCalibratedBuild.calibration = "") ∨
          hasInt8Override exCalibratedBuild) ∧
      (∀ n, Call.setTensorScales n ∈
          (networkToEngine exTrt exCalibratedBuild exSys exBuilder exNetwork []).calls →
        n = (networkToEngine exTrt exCalibratedBuild exSys exBuilder exNetwork []).network) ∧
      ((networkToEngine exTrt exCalibratedBuild exSys exBuilder exNetwork []).config.int8Calibrator ≠ none ↔
        exCalibratedBuild.int8 = true ∧ exCalibratedBuild.calibration ≠ "" ∧
          ¬ hasInt8Override exCalibratedBuild) ∧
      ((networkToEngine exTrt exCalibratedBuild exSys exBuilder exNetwork []).config.int8Calibrator ≠ none →
        (networkToEngine exTrt exCalibratedBuild exSys exBuilder exNetwork []).config.int8Calibrator =
          some { batches := 1, cacheFile := exCalibratedBuild.calibration }) ∧
      ¬ ((∃ n, Call.setTensorScales n ∈
          (networkToEngine exTrt exCalibratedBuild exSys exBuilder exNetwork []).calls) ∧
        (networkToEngine exTrt exCalibratedBuild exSys exBuilder exNetwork []).config.int8Calibrator ≠ none)) ∧
    (networkToEngine exTrt exCalibratedBuild exSys exBuilder exNetwork []).config.int8Calibrator =
      some { batches := 1, cacheFile := "calib.cache" } ∧
    (networkToEngine exTrt exCalibratedBuild exSys exBuilder exNetwork []).calls =
      [Call.buildEngineWithConfig exBuilder
        (networkToEngine exTrt exCalibratedBuild exSys exBuilder exNetwork []).network
        (networkToEngine exTrt exCalibratedBuild exSys exBuilder exNetwork []).config] :=
  ⟨C5_explicit_scales_or_calibrator exTrt exCalibratedBuild exSys exBuilder exNetwork [] (by decide),
    by decide, by decide⟩

/-- C6: every input tensor that the loop visits (every input before which no input fails a
per-tensor check, hence every input when no check fails) has after the call the type `kFLOAT`
and the formats `1 << kLINEAR` when `build.inputFormats` is empty, and the type and formats of
`build.inputFormats[i]` when the list is non-empty with the length of the input list; when the
build reaches the output loop the same holds of every output tensor with
`build.outputFormats`, whatever the input-side list. -/
theorem C6_resolved_formats (trt : TensorRT) (build : BuildOptions) (sys : SystemOptions)
    (builder : IBuilder) (network : INetworkDefinition) (err : List String) :
    (∀ (i : Nat) (t : ITensor), network.inputs[i]? = some t →
      (dynamicBatch build → ∀ (j : Nat) (u : ITensor), j < i → network.inputs[j]? = some u → passesChecks build u) →
      ∃ t1 : ITensor, (networkToEngine trt build sys builder network err).network.inputs[i]? = some t1 ∧
        t1.name = t.name ∧
        (build.inputFormats = [] →
          t1.type = DataType.kFLOAT ∧ t1.allowedFormats = 1 <<< TensorFormat.kLINEAR.toNat) ∧
        (build.inputFormats ≠ [] → build.inputFormats.length = network.inputs.length →
          build.inputFormats[i]? = some (t1.type, t1.allowedFormats))) ∧
    (shapeProfileFailure trt build builder network = none →
      ∀ (j : Nat) (t : ITensor), network.outputs[j]? = some t →
        ∃ t1 : ITensor, (networkToEngine trt build sys builder network err).network.outputs[j]? = some t1 ∧
          t1.name = t.name ∧
          (build.outputFormats = [] →
            t1.type = DataType.kFLOAT ∧ t1.allowedFormats = 1 <<< TensorFormat.kLINEAR.toNat) ∧
          (build.outputFormats ≠ [] → build.outputFormats.length = network.outputs.length →
            build.outputFormats[j]? = some (t1.type, t1.allowedFormats))) := by
  constructor
  · intro i t ht hpre
    rw [networkToEngine_inputs]
    have hpre1 : (batchStage build builder).2 ≠ none → ∀ j u, j < i → network.inputs[j]? = some u →
        failsCheck build u = false := by
      intro hne j u hj hu
      rcases batchStage_profile_cases build builder with ⟨hdyn, _⟩ | ⟨_, hb⟩
      · exact (failsCheck_eq_false_iff build u).mpr (hpre hdyn j u hj hu)
      · exact absurd hb hne
    obtain ⟨t1, hget, hname, hty, hfm⟩ :=
      inputLoop_visited_format build network.inputs 0 i _ t ht hpre1
    rw [Nat.zero_add] at hty hfm
    refine ⟨t1, hget, hname, ?_, ?_⟩
    · intro he
      rw [hty, hfm, he]
      exact resolveFormat_default i t
    · intro hne hlen
      have hi : i < build.inputFormats.length := by
        rw [hlen]
        exact (List.getElem?_eq_some_iff.mp ht).1
      have hf : build.inputFormats[i]? = some build.inputFormats[i] := List.getElem?_eq_getElem hi
      rw [hty, hfm, resolveFormat_override build.inputFormats i t _ hne hf]
      exact hf
  · intro hs j t ht
    rw [networkToEngine_outputs, hs]
    simp only []
    rw [outputLoop_get, ht, Nat.zero_add]
    refine ⟨_, rfl, resolveFormat_name _ _ _, ?_, ?_⟩
    · intro he
      rw [he]
      exact resolveFormat_default j t
    · intro hne hlen
      have hj : j < build.outputFormats.length := by
        rw [hlen]
        exact (List.getElem?_eq_some_iff.mp ht).1
      have hf : build.outputFormats[j]? = some build.outputFormats[j] := List.getElem?_eq_getElem hj
      rw [resolveFormat_override build.outputFormats j t _ hne hf]
      exact hf

/-- C6 at a concrete build: the input carries the override `(kINT8, 8)`, the output, whose
override list is empty, the default `(kFLOAT, 1)`. -/
theorem C6_witness :
    (∃ t1 : ITensor, (networkToEngine exTrt exFormatBuild exSys exBuilder exNetwork []).network.inputs[0]? = some t1 ∧
        t1.name = exStatic.name ∧
        (exFormatBuild.inputFormats = [] →
          t1.type = DataType.kFLOAT ∧ t1.allowedFormats = 1 <<< TensorFormat.kLINEAR.toNat) ∧
        (exFormatBuild.inputFormats ≠ [] →
          exFormatBuild.inputFormats.length = exNetwork.inputs.length →
          exFormatBuild.inputFormats[0]? = some (t1.type, t1.allowedFormats))) ∧
    (∃ t1 : ITensor, (networkToEngine exTrt exFormatBuild exSys exBuilder exNetwork []).network.outputs[0]? = some t1 ∧
        t1.name = exStatic.name ∧
        (exFormatBuild.outputFormats = [] →
          t1.type = DataType.kFLOAT ∧ t1.allowedFormats = 1 <<< TensorFormat.kLINEAR.toNat) ∧
        (exFormatBuild.outputFormats ≠ [] →
          exFormatBuild.outputFormats.length = exNetwork.outputs.length →
          exFormatBuild.outputFormats[0]? = some (t1.type, t1.allowedFormats))) ∧
    ((networkToEngine exTrt exFormatBuild exSys exBuilder exNetwork []).network.inputs.map
        (fun t => (t.type, t.allowedFormats)) = [(DataType.kINT8, 8)]) ∧
    ((networkToEngine exTrt exFormatBuild exSys exBuilder exNetwork []).network.outputs.map
        (fun t => (t.type, t.allowedFormats)) = [(DataType.kFLOAT, 1)]) :=
  ⟨(C6_resolved_formats exTrt exFormatBuild exSys exBuilder exNetwork []).1 0 exStatic rfl
      (fun _ j u hj _ => absurd hj (Nat.not_lt_zero j)),
    (C6_resolved_formats exTrt exFormatBuild exSys exBuilder exNetwork []).2 (by decide) 0 exStatic rfl,
    by decide, by decide⟩

/-- C7: `networkToEngine` returns the null pointer exactly when one of the four listed
conditions holds (non-batch dynamic dimension, missing bounds, assembled profile reported
invalid, unavailable DLA core) or the compiler returns null on the graph and configuration the
call leaves. When none of the four holds the compiler is called exactly once, as the last
call, on that graph and configuration, and its result is returned; when one holds the compiler
is not called. -/
theorem C7_failure_iff_listed_condition_or_compiler_null (trt : TensorRT) (build : BuildOptions)
    (sys : SystemOptions) (builder : IBuilder) (network : INetworkDefinition) (err : List String) :
    ((networkToEngine trt build sys builder network err).engine = none ↔
      listedFailure trt build sys builder network
          (networkToEngine trt build sys builder network err).profile ∨
        trt.buildEngineWithConfig (networkToEngine trt build sys builder network err).builder
          (networkToEngine trt build sys builder network err).network
          (networkToEngine trt build sys builder network err).config = none) ∧
    (¬ listedFailure trt build sys builder network
          (networkToEngine trt build sys builder network err).profile →
      (∃ before, (networkToEngine trt build sys builder network err).calls =
          before ++ [Call.buildEngineWithConfig
            (networkToEngine trt build sys builder network err).builder
            (networkToEngine trt build sys builder network err).network
            (networkToEngine trt build sys builder network err).config] ∧
          ∀ b n c, Call.buildEngineWithConfig b n c ∉ before) ∧
        (networkToEngine trt build sys builder network err).engine =
          trt.buildEngineWithConfig (networkToEngine trt build sys builder network err).builder
            (networkToEngine trt build sys builder network err).network
            (networkToEngine trt build sys builder network err).config) ∧
    (listedFailure trt build sys builder network
          (networkToEngine trt build sys builder network err).profile →
      ∀ b n c, Call.buildEngineWithConfig b n c ∉
        (networkToEngine trt build sys builder network err).calls) := by
  have hprofile := networkToEngine_profile trt build sys builder network err
  cases hs : shapeProfileFailure trt build builder network with
  | some msg =>
    have hlisted : listedFailure trt build sys builder network
        (networkToEngine trt build sys builder network err).profile := by
      by_cases hdyn : dynamicBatch build
      · by_cases hall : ∀ t ∈ network.inputs, passesChecks build t
        · obtain ⟨hloop, hfail⟩ :=
            shapeProfileFailure_dynamic_pass trt build builder network hdyn hall
          right; right; left
          refine ⟨hdyn, hall, _, by rw [hprofile, hloop], ?_⟩
          by_contra hv
          rw [hs, if_pos (by simpa using hv)] at hfail
          cases hfail
        · have hex : ∃ t ∈ network.inputs, ¬ passesChecks build t := by
            by_contra hno
            apply hall
            intro t ht
            by_contra hp
            exact hno ⟨t, ht, hp⟩
          obtain ⟨t, ht, hp⟩ := hex
          by_cases hnb : hasNonBatchDynamicDim t
          · exact Or.inl ⟨hdyn, t, ht, hnb⟩
          · right; left
            refine ⟨hdyn, t, ht, ?_⟩
            cases hf : find t.name build.shapes with
            | none => rfl
            | some r => exact absurd ⟨hnb, r, hf⟩ hp
      · rw [shapeProfileFailure_static trt build builder network hdyn] at hs
        cases hs
    have hout := networkToEngine_shape_fail trt build sys builder network err msg hs
    refine ⟨⟨fun _ => Or.inl hlisted, fun _ => by rw [hout]⟩, fun h => absurd hlisted h, ?_⟩
    intro _ b n c
    rw [hout]
    simp
  | none =>
    have hnot123 : ¬ nonBatchDynamicFailure build network ∧ ¬ missingBoundsFailure build network ∧
        ¬ invalidProfileFailure trt build network
          (networkToEngine trt build sys builder network err).profile := by
      rcases shapeProfileFailure_none_cases trt build builder network hs with
        ⟨hnd, _⟩ | ⟨_, hpass, hsome, hvalid⟩
      · exact ⟨fun h => hnd h.1, fun h => hnd h.1, fun h => hnd h.1⟩
      · refine ⟨?_, ?_, ?_⟩
        · rintro ⟨_, t, ht, hnb⟩
          exact (hpass t ht).1 hnb
        · rintro ⟨_, t, ht, hnone⟩
          obtain ⟨r, hr⟩ := (hpass t ht).2
          rw [hr] at hnone
          cases hnone
        · rintro ⟨_, _, p, hp, hinv⟩
          rw [hprofile, hsome] at hp
          injection hp with hp
          rw [← hp, hvalid] at hinv
          cases hinv
    have hbuilder : deviceUnavailable sys (batchStage build builder).1 ↔
        deviceUnavailable sys builder := by
      unfold deviceUnavailable
      rw [batchStage_nbDLACores]
    have hout := networkToEngine_shape_ok trt build sys builder network err hs
    by_cases h4 : deviceUnavailable sys builder
    · have hlisted : listedFailure trt build sys builder network
          (networkToEngine trt build sys builder network err).profile :=
        Or.inr (Or.inr (Or.inr h4))
      have h4b := hbuilder.mpr h4
      rw [configureAndBuild_unavailable trt build sys _ _ _ _ err h4b.1 h4b.2] at hout
      refine ⟨⟨fun _ => Or.inl hlisted, fun _ => by rw [hout]⟩, fun h => absurd hlisted h, ?_⟩
      intro _ b n c
      rw [hout]
      exact calibrationStage_no_build _ _ _ b n c
    · have hnot : ¬ listedFailure trt build sys builder network
          (networkToEngine trt build sys builder network err).profile := by
        rintro (h | h | h | h)
        · exact hnot123.1 h
        · exact hnot123.2.1 h
        · exact hnot123.2.2 h
        · exact h4 h
      obtain ⟨c1, hc1⟩ := acceleratorStage_available build sys (batchStage build builder).1
        (configBeforeAccelerator build sys
          { network with inputs := (inputLoop build 0 network.inputs (batchStage build builder).2).1 }
          IBuilderConfig.fresh (inputLoop build 0 network.inputs (batchStage build builder).2).2.1)
        (fun h => h4 (hbuilder.mp h))
      rw [configureAndBuild_eq, hc1] at hout
      simp only [] at hout
      refine ⟨⟨?_, ?_⟩, ?_, fun h => absurd h hnot⟩
      · intro h
        right
        rw [hout] at h ⊢
        exact h
      · rintro (h | h)
        · exact absurd h hnot
        · rw [hout] at h ⊢
          exact h
      · intro _
        rw [hout]
        exact ⟨⟨_, rfl, fun b n c => calibrationStage_no_build _ _ _ b n c⟩, rfl⟩

/-- C7 at two concrete builds, neither of which meets a listed condition: where the compiler
returns a plan the plan is returned after exactly one compiler call, and where the compiler
returns null the call returns null. -/
theorem C7_witness :
    ¬ listedFailure exTrt exBuild exSys exBuilder exNetwork
        (networkToEngine exTrt exBuild exSys exBuilder exNetwork []).profile ∧
      ((∃ before, (networkToEngine exTrt exBuild exSys exBuilder exNetwork []).calls =
          before ++ [Call.buildEngineWithConfig
            (networkToEngine exTrt exBuild exSys exBuilder exNetwork []).builder
            (networkToEngine exTrt exBuild exSys exBuilder exNetwork []).network
            (networkToEngine exTrt exBuild exSys exBuilder exNetwork []).config] ∧
          ∀ b n c, Call.buildEngineWithConfig b n c ∉ before) ∧
        (networkToEngine exTrt exBuild exSys exBuilder exNetwork []).engine =
          exTrt.buildEngineWithConfig (networkToEngine exTrt exBuild exSys exBuilder exNetwork []).builder
            (networkToEngine exTrt exBuild exSys exBuilder exNetwork []).network
            (networkToEngine exTrt exBuild exSys exBuilder exNetwork []).config) ∧
      (networkToEngine exTrt exBuild exSys exBuilder exNetwork []).engine = some { handle := 7 } ∧
      (networkToEngine exFailingTrt exBuild exSys exBuilder exNetwork []).engine = none ∧
      ((networkToEngine exFailingTrt exBuild exSys exBuilder exNetwork []).engine = none ↔
        listedFailure exFailingTrt exBuild exSys exBuilder exNetwork
            (networkToEngine exFailingTrt exBuild exSys exBuilder exNetwork []).profile ∨
          exFailingTrt.buildEngineWithConfig
            (networkToEngine exFailingTrt exBuild exSys exBuilder exNetwork []).builder
            (networkToEngine exFailingTrt exBuild exSys exBuilder exNetwork []).network
            (networkToEngine exFailingTrt exBuild exSys exBuilder exNetwork []).config = none) :=
  have hnot : ¬ listedFailure exTrt exBuild exSys exBuilder exNetwork
      (networkToEngine exTrt exBuild exSys exBuilder exNetwork []).profile := by
    have hpass : passesChecks exBuild exStatic :=
      (failsCheck_eq_false_iff exBuild exStatic).mp (by decide)
    rintro (⟨_, t, ht, hnb⟩ | ⟨_, t, ht, hnone⟩ | ⟨_, _, p, _, hinv⟩ | ⟨hcore, _⟩)
    · have ht1 : t = exStatic := by simpa [exNetwork] using ht
      subst ht1
      exact hpass.1 hnb
    · have ht1 : t = exStatic := by simpa [exNetwork] using ht
      subst ht1
      exact absurd hnone (by decide)
    · cases hinv
    · exact hcore rfl
  ⟨hnot,
    (C7_failure_iff_listed_condition_or_compiler_null exTrt exBuild exSys exBuilder
      exNetwork []).2.1 hnot,
    by decide, by decide,
    (C7_failure_iff_listed_condition_or_compiler_null exFailingTrt exBuild exSys exBuilder
      exNetwork []).1⟩

/-- C8: in dynamic-batch mode, when input `t` has no non-batch dynamic dimension, its name is
absent from `build.shapes`, and every input before it passes both per-tensor checks,
`networkToEngine` returns the null pointer, the profile holds nothing under the name of `t`,
the one line written to `err` is the diagnostic naming `t`, and nothing else is called or
attached. -/
theorem C8_missing_bounds_fail_naming_tensor (trt : TensorRT) (build : BuildOptions)
    (sys : SystemOptions) (builder : IBuilder) (network : INetworkDefinition) (err : List String)
    (pre post : List ITensor) (t : ITensor)
    (hdyn : dynamicBatch build) (hin : network.inputs = pre ++ t :: post)
    (hnb : ¬ hasNonBatchDynamicDim t) (habsent : find t.name build.shapes = none)
    (hpre : ∀ u ∈ pre, passesChecks build u) :
    (networkToEngine trt build sys builder network err).engine = none ∧
      (networkToEngine trt build sys builder network err).err =
        err ++ ["Dynamic dimensions required for input " ++ t.name] ∧
      (∃ p, (networkToEngine trt build sys builder network err).profile = some p ∧
        find t.name p.entries = none ∧ ∀ sel, p.getDimensions t.name sel = none) ∧
      (networkToEngine trt build sys builder network err).config.profiles = [] ∧
      (networkToEngine trt build sys builder network err).calls = [] := by
  have hany : t.dimensions.anyNonBatchDynamic = false := by
    cases h : t.dimensions.anyNonBatchDynamic with
    | false => rfl
    | true => exact absurd ((anyNonBatchDynamic_iff _).mp h) hnb
  have ht : failsCheck build t = true := by
    unfold failsCheck
    rw [habsent]
    simp
  have hpre1 : ∀ u ∈ pre, failsCheck build u = false :=
    fun u hu => (failsCheck_eq_false_iff build u).mpr (hpre u hu)
  obtain ⟨hfail, hprof, _⟩ :=
    shapeProfileFailure_first_failing trt build builder network pre post t hdyn hin hpre1 ht
  have hmsg : checkDiagnostic t = "Dynamic dimensions required for input " ++ t.name := by
    unfold checkDiagnostic
    rw [hany]
    rfl
  have hfind : find t.name (pre.foldl (register build) IOptimizationProfile.empty).entries = none := by
    rw [foldl_register_find_other build pre t.name]
    · rfl
    · intro u hu hname
      obtain ⟨r, hr⟩ := (hpre u hu).2
      rw [hname, habsent] at hr
      cases hr
  rw [networkToEngine_shape_fail trt build sys builder network err _ hfail, hmsg, hprof]
  refine ⟨rfl, rfl, ⟨_, rfl, hfind, ?_⟩, rfl, rfl⟩
  intro sel
  unfold IOptimizationProfile.getDimensions
  rw [hfind]
  rfl

/-- C8 at a concrete build: input "a" has bounds, input "c" after it has none. -/
theorem C8_witness :
    (networkToEngine exTrt exBuild exSys exBuilder
        { inputs := [exStatic, exUnlisted], outputs := [] } []).engine = none ∧
      (networkToEngine exTrt exBuild exSys exBuilder
        { inputs := [exStatic, exUnlisted], outputs := [] } []).err =
        [] ++ ["Dynamic dimensions required for input " ++ exUnlisted.name] ∧
      (∃ p, (networkToEngine exTrt exBuild exSys exBuilder
          { inputs := [exStatic, exUnlisted], outputs := [] } []).profile = some p ∧
        find exUnlisted.name p.entries = none ∧ ∀ sel, p.getDimensions exUnlisted.name sel = none) ∧
      (networkToEngine exTrt exBuild exSys exBuilder
        { inputs := [exStatic, exUnlisted], outputs := [] } []).config.profiles = [] ∧
      (networkToEngine exTrt exBuild exSys exBuilder
        { inputs := [exStatic, exUnlisted], outputs := [] } []).calls = [] :=
  C8_missing_bounds_fail_naming_tensor exTrt exBuild exSys exBuilder
    { inputs := [exStatic, exUnlisted], outputs := [] } [] [exStatic] [] exUnlisted
    ⟨rfl, by decide⟩ rfl
    (fun h => absurd ((anyNonBatchDynamic_iff _).mpr h) (by decide))
    (by decide)
    (fun u hu => by
      have hu1 : u = exStatic := by simpa using hu
      subst hu1
      exact (failsCheck_eq_false_iff exBuild exStatic).mp (by decide))

/-- C9: a profile is constructed exactly when `build.maxBatch = 0` and `build.shapes` is
non-empty. When `build.maxBatch` is non-zero, whatever the table, no profile is constructed or
attached, the maximum batch size of the builder is `build.maxBatch`, the declared shape of every
input tensor is unchanged, and the shape-profile stage does not fail: none of its three error
conditions holds and the only diagnostic the call can write is the one of the DLA core. -/
theorem C9_profile_only_in_dynamic_batch_mode (trt : TensorRT) (build : BuildOptions)
    (sys : SystemOptions) (builder : IBuilder) (network : INetworkDefinition) (err : List String) :
    ((networkToEngine trt build sys builder network err).profile ≠ none ↔
      build.maxBatch = 0 ∧ build.shapes ≠ []) ∧
    (build.maxBatch ≠ 0 →
      (networkToEngine trt build sys builder network err).profile = none ∧
      (networkToEngine trt build sys builder network err).config.profiles = [] ∧
      (networkToEngine trt build sys builder network err).builder.maxBatchSize = build.maxBatch ∧
      (networkToEngine trt build sys builder network err).network.inputs.map (fun t => t.dimensions) =
        network.inputs.map (fun t => t.dimensions) ∧
      shapeProfileFailure trt build builder network = none ∧
      ¬ nonBatchDynamicFailure build network ∧ ¬ missingBoundsFailure build network ∧
      ¬ invalidProfileFailure trt build network
        (networkToEngine trt build sys builder network err).profile ∧
      ((networkToEngine trt build sys builder network err).err = err ∨
        (networkToEngine trt build sys builder network err).err =
          err ++ ["Cannot create DLA engine, " ++ toString sys.DLACore ++ " not available"])) := by
  constructor
  · rw [networkToEngine_profile]
    rcases batchStage_profile_cases build builder with ⟨hdyn, hb⟩ | ⟨hdyn, hb⟩
    · rw [hb]
      obtain ⟨q, hq⟩ := inputLoop_profile_some build network.inputs 0 IOptimizationProfile.empty
      rw [hq]
      exact ⟨fun _ => hdyn, fun _ => by simp⟩
    · rw [hb]
      obtain ⟨la, hla, _, _⟩ := inputLoop_none build network.inputs 0
      rw [hla]
      exact ⟨fun h => absurd rfl h, fun h => absurd h hdyn⟩
  · intro hfixed
    have hnd : ¬ dynamicBatch build := fun h => hfixed h.1
    have hs := shapeProfileFailure_static trt build builder network hnd
    have hb := batchStage_fixed build builder hfixed
    obtain ⟨la, hla, _, _⟩ := inputLoop_none build network.inputs 0
    have hprof : (networkToEngine trt build sys builder network err).profile = none := by
      rw [networkToEngine_profile, hb, hla]
    refine ⟨hprof, ?_, ?_, ?_, hs, fun h => hnd h.1, fun h => hnd h.1, fun h => hnd h.1,
      networkToEngine_err trt build sys builder network err hs⟩
    · rw [networkToEngine_profiles, hs, hb, hla]
    · rw [networkToEngine_builder, hb]
    · rw [networkToEngine_inputs, hb]
      exact inputLoop_none_dimensions build network.inputs 0

/-- C9 at a concrete build: fixed batch size 4 together with a shape-bound table. -/
theorem C9_witness :
    (networkToEngine exTrt exFixedBuild exSys exBuilder exNetwork []).profile = none ∧
      (networkToEngine exTrt exFixedBuild exSys exBuilder exNetwork []).config.profiles = [] ∧
      (networkToEngine exTrt exFixedBuild exSys exBuilder exNetwork []).builder.maxBatchSize = 4 ∧
      (networkToEngine exTrt exFixedBuild exSys exBuilder exNetwork []).network.inputs.map
          (fun t => t.dimensions) = exNetwork.inputs.map (fun t => t.dimensions) ∧
      shapeProfileFailure exTrt exFixedBuild exBuilder exNetwork = none ∧
      ¬ nonBatchDynamicFailure exFixedBuild exNetwork ∧ ¬ missingBoundsFailure exFixedBuild exNetwork ∧
      ¬ invalidProfileFailure exTrt exFixedBuild exNetwork
        (networkToEngine exTrt exFixedBuild exSys exBuilder exNetwork []).profile ∧
      ((networkToEngine exTrt exFixedBuild exSys exBuilder exNetwork []).err = [] ∨
        (networkToEngine exTrt exFixedBuild exSys exBuilder exNetwork []).err =
          [] ++ ["Cannot create DLA engine, " ++ toString exSys.DLACore ++ " not available"]) :=
  (C9_profile_only_in_dynamic_batch_mode exTrt exFixedBuild exSys exBuilder exNetwork []).2 (by decide)

/-- C10: in a build that selects an available DLA core (no shape-profile failure,
`sys.DLACore` not `-1` and below the number of DLA cores), the final configuration has the FP16
flag set exactly when `build.fp16` or not `build.int8`, and the INT8 flag set exactly when
`build.int8`; so one of the two is always set, and FP16 is set when INT8 is not requested even
if `build.fp16` is false. -/
theorem C10_accelerator_precision_flags (trt : TensorRT) (build : BuildOptions)
    (sys : SystemOptions) (builder : IBuilder) (network : INetworkDefinition) (err : List String)
    (hshape : shapeProfileFailure trt build builder network = none)
    (h1 : sys.DLACore ≠ -1) (h2 : sys.DLACore < builder.nbDLACores) :
    ((networkToEngine trt build sys builder network err).config.getFlag BuilderFlag.kFP16 = true ↔
        build.fp16 = true ∨ build.int8 = false) ∧
      ((networkToEngine trt build sys builder network err).config.getFlag BuilderFlag.kINT8 = true ↔
        build.int8 = true) ∧
      ((networkToEngine trt build sys builder network err).config.getFlag BuilderFlag.kFP16 = true ∨
        (networkToEngine trt build sys builder network err).config.getFlag BuilderFlag.kINT8 = true) ∧
      (build.fp16 = false → build.int8 = false →
        (networkToEngine trt build sys builder network err).config.getFlag BuilderFlag.kFP16 = true) := by
  rw [networkToEngine_selected trt build sys builder network err hshape h1 h2]
  simp only [IBuilderConfig.getFlag]
  cases build.fp16 <;> cases build.int8 <;> cases sys.fallback <;> decide

/-- C10 at a concrete build: DLA core 1 of 2, neither FP16 nor INT8 requested. -/
theorem C10_witness :
    ((networkToEngine exTrt exBuild exDlaSys exBuilder exNetwork []).config.getFlag BuilderFlag.kFP16 = true ↔
        exBuild.fp16 = true ∨ exBuild.int8 = false) ∧
      ((networkToEngine exTrt exBuild exDlaSys exBuilder exNetwork []).config.getFlag BuilderFlag.kINT8 = true ↔
        exBuild.int8 = true) ∧
      ((networkToEngine exTrt exBuild exDlaSys exBuilder exNetwork []).config.getFlag BuilderFlag.kFP16 = true ∨
        (networkToEngine exTrt exBuild exDlaSys exBuilder exNetwork []).config.getFlag BuilderFlag.kINT8 = true) ∧
      (exBuild.fp16 = false → exBuild.int8 = false →
        (networkToEngine exTrt exBuild exDlaSys exBuilder exNetwork []).config.getFlag BuilderFlag.kFP16 = true) :=
  C10_accelerator_precision_flags exTrt exBuild exDlaSys exBuilder exNetwork []
    (by decide) (by decide) (by decide)

/-- C11 as stated fails for a safety build: with `build.safe` set and DLA core 2 requested from
a builder with 2 DLA cores, the configuration returned with the failure has the engine
capability `kSAFE_DLA`, which line 167 set before the check of line 172, while the
configuration that entered the stage had none. -/
theorem C11_counterexample :
    exSafeBuild.safe = true ∧ exMissingCoreSys.DLACore ≠ -1 ∧
      exBuilder.nbDLACores ≤ exMissingCoreSys.DLACore ∧
      shapeProfileFailure exTrt exSafeBuild exBuilder exNetwork = none ∧
      (networkToEngine exTrt exSafeBuild exMissingCoreSys exBuilder exNetwork []).engine = none ∧
      (acceleratorEntryConfig exSafeBuild exBuilder exNetwork).engineCapability = none ∧
      (networkToEngine exTrt exSafeBuild exMissingCoreSys exBuilder exNetwork []).config.engineCapability =
        some EngineCapability.kSAFE_DLA := by
  refine ⟨rfl, by decide, by decide, by decide, by decide, by decide, by decide⟩

/-- C11 (amended): when the requested DLA core index is at least the number of DLA cores, the
accelerator-target stage fails and the configuration returned with the failure has the default
device type, the DLA core and the builder flags it had when the stage began, for every value of
`build.safe`; its engine capability is the one it had when the stage began if `build.safe` is
false (the whole configuration is then unchanged), and is `kSAFE_DLA` if `build.safe` is
true. -/
theorem C11_unavailable_core_frames_device_and_flags (trt : TensorRT) (build : BuildOptions)
    (sys : SystemOptions) (builder : IBuilder) (network : INetworkDefinition) (err : List String)
    (hshape : shapeProfileFailure trt build builder network = none)
    (h1 : sys.DLACore ≠ -1) (h2 : builder.nbDLACores ≤ sys.DLACore) :
    (networkToEngine trt build sys builder network err).engine = none ∧
      (networkToEngine trt build sys builder network err).config.defaultDeviceType =
        (acceleratorEntryConfig build builder network).defaultDeviceType ∧
      (networkToEngine trt build sys builder network err).config.DLACore =
        (acceleratorEntryConfig build builder network).DLACore ∧
      (networkToEngine trt build sys builder network err).config.flags =
        (acceleratorEntryConfig build builder network).flags ∧
      (build.safe = false →
        (networkToEngine trt build sys builder network err).config =
          acceleratorEntryConfig build builder network) ∧
      (build.safe = true →
        (networkToEngine trt build sys builder network err).config.engineCapability =
          some EngineCapability.kSAFE_DLA) := by
  obtain ⟨he, hc, _⟩ := networkToEngine_unavailable trt build sys builder network err hshape h1 h2
  rw [hc]
  refine ⟨he, (capabilityStage_device _ _ _).1, (capabilityStage_device _ _ _).2,
    capabilityStage_flags _ _ _, fun hs => capabilityStage_unsafe build sys _ hs, ?_⟩
  intro hs
  rw [capabilityStage_engineCapability, if_pos hs, if_neg h1]

/-- C11 (amended) at a concrete safety build: DLA core 2 requested from a builder with 2 DLA
cores. -/
theorem C11_witness :
    (networkToEngine exTrt exSafeBuild exMissingCoreSys exBuilder exNetwork []).engine = none ∧
      (networkToEngine exTrt exSafeBuild exMissingCoreSys exBuilder exNetwork []).config.defaultDeviceType =
        (acceleratorEntryConfig exSafeBuild exBuilder exNetwork).defaultDeviceType ∧
      (networkToEngine exTrt exSafeBuild exMissingCoreSys exBuilder exNetwork []).config.DLACore =
        (acceleratorEntryConfig exSafeBuild exBuilder exNetwork).DLACore ∧
      (networkToEngine exTrt exSafeBuild exMissingCoreSys exBuilder exNetwork []).config.flags =
        (acceleratorEntryConfig exSafeBuild exBuilder exNetwork).flags ∧
      (exSafeBuild.safe = false →
        (networkToEngine exTrt exSafeBuild exMissingCoreSys exBuilder exNetwork []).config =
          acceleratorEntryConfig exSafeBuild exBuilder exNetwork) ∧
      (exSafeBuild.safe = true →
        (networkToEngine exTrt exSafeBuild exMissingCoreSys exBuilder exNetwork []).config.engineCapability =
          some EngineCapability.kSAFE_DLA) :=
  C11_unavailable_core_frames_device_and_flags exTrt exSafeBuild exMissingCoreSys exBuilder exNetwork []
    (by decide) (by decide) (by decide)

/-- C12: in a build that fails in the shape-profile stage (an input with a non-batch dynamic
dimension, an input without bounds, or a profile reported invalid), `networkToEngine` returns
the null pointer, the configuration is as freshly created (no profile, no workspace limit, no
flag, no calibrator, no engine capability, no device type, no DLA core), nothing has been
called, every output tensor is unchanged, exactly one line has been written to `err`, and every
input tensor positioned after the first one that fails a per-tensor check is unchanged. -/
theorem C12_shape_profile_failure_is_fail_fast (trt : TensorRT) (build : BuildOptions)
    (sys : SystemOptions) (builder : IBuilder) (network : INetworkDefinition) (err : List String)
    (hfail : nonBatchDynamicFailure build network ∨ missingBoundsFailure build network ∨
      invalidProfileFailure trt build network
        (networkToEngine trt build sys builder network err).profile) :
    (networkToEngine trt build sys builder network err).engine = none ∧
      (networkToEngine trt build sys builder network err).config = IBuilderConfig.fresh ∧
      ((networkToEngine trt build sys builder network err).config.profiles = [] ∧
        (networkToEngine trt build sys builder network err).config.maxWorkspaceSize = none ∧
        (networkToEngine trt build sys builder network err).config.flags = 0 ∧
        (networkToEngine trt build sys builder network err).config.int8Calibrator = none ∧
        (networkToEngine trt build sys builder network err).config.engineCapability = none ∧
        (networkToEngine trt build sys builder network err).config.defaultDeviceType = none ∧
        (networkToEngine trt build sys builder network err).config.DLACore = none) ∧
      (networkToEngine trt build sys builder network err).calls = [] ∧
      (networkToEngine trt build sys builder network err).network.outputs = network.outputs ∧
      (∃ msg, (networkToEngine trt build sys builder network err).err = err ++ [msg]) ∧
      (∀ (pre post : List ITensor) (t : ITensor), network.inputs = pre ++ t :: post →
        (∀ u ∈ pre, passesChecks build u) → ¬ passesChecks build t →
        (networkToEngine trt build sys builder network err).network.inputs.length =
            network.inputs.length ∧
          ∀ j, pre.length < j →
            (networkToEngine trt build sys builder network err).network.inputs[j]? =
              network.inputs[j]?) := by
  have hdyn : dynamicBatch build := by
    rcases hfail with h | h | h <;> exact h.1
  obtain ⟨msg, hmsg⟩ := shapeProfileFailure_of_listed trt build sys builder network err hfail
  have hin := networkToEngine_inputs trt build sys builder network err
  have hout := networkToEngine_shape_fail trt build sys builder network err msg hmsg
  refine ⟨by rw [hout], by rw [hout], ?_, by rw [hout], by rw [hout], ⟨msg, by rw [hout]⟩, ?_⟩
  · rw [hout]
    exact ⟨rfl, rfl, rfl, rfl, rfl, rfl, rfl⟩
  · intro pre post t hsplit hpre ht
    obtain ⟨_, _, la, hla, hlen, _⟩ :=
      shapeProfileFailure_first_failing trt build builder network pre post t hdyn hsplit
        (fun u hu => (failsCheck_eq_false_iff build u).mpr (hpre u hu))
        ((failsCheck_eq_true_iff build t).mpr ht)
    rw [hin, hla, hsplit]
    constructor
    · simp [hlen]
    · intro j hj
      rw [List.getElem?_append_right (by omega), List.getElem?_append_right (by omega), hlen]
      obtain ⟨m, hm⟩ : ∃ m, j - pre.length = m + 1 := ⟨j - pre.length - 1, by omega⟩
      rw [hm, List.getElem?_cons_succ, List.getElem?_cons_succ]

/-- C12 at a concrete build: inputs "a", "b", "a" where "b" has a non-batch dynamic dimension;
the third input and the output are unchanged and the configuration is fresh. -/
theorem C12_witness :
    (networkToEngine exTrt exBuild exSys exBuilder
        { inputs := [exStatic, exDynamic, exStatic], outputs := [exStatic] } []).config =
        IBuilderConfig.fresh ∧
      (networkToEngine exTrt exBuild exSys exBuilder
        { inputs := [exStatic, exDynamic, exStatic], outputs := [exStatic] } []).network.outputs =
        [exStatic] ∧
      (networkToEngine exTrt exBuild exSys exBuilder
        { inputs := [exStatic, exDynamic, exStatic], outputs := [exStatic] } []).err =
        ["Only dynamic batch dimension is currently supported, other dimensions must be static"] ∧
      (∀ j, 1 < j →
        (networkToEngine exTrt exBuild exSys exBuilder
          { inputs := [exStatic, exDynamic, exStatic], outputs := [exStatic] } []).network.inputs[j]? =
          [exStatic, exDynamic, exStatic][j]?) :=
  have hdyn : hasNonBatchDynamicDim exDynamic := ⟨2, by decide, by decide, rfl⟩
  have h := C12_shape_profile_failure_is_fail_fast exTrt exBuild exSys exBuilder
    { inputs := [exStatic, exDynamic, exStatic], outputs := [exStatic] } []
    (Or.inl ⟨⟨rfl, by decide⟩, exDynamic, by decide, hdyn⟩)
  ⟨h.2.1, h.2.2.2.2.1, by decide,
    (h.2.2.2.2.2.2 [exStatic] [exStatic] exDynamic rfl
      (fun u hu => by
        have hu1 : u = exStatic := by simpa using hu
        subst hu1
        exact (failsCheck_eq_false_iff exBuild exStatic).mp (by decide))
      (fun hp => hp.1 hdyn)).2⟩

/-- C13 as stated fails, whichever way the routine's call ends. With INT8 requested and no
calibration reference the explicit-scale path is taken. When the call of line 158 returns,
having found scale data for no tensor, what it returns is dropped: `networkToEngine` calls the
compiler and returns its plan, not null. When the call raises, the exception leaves
`networkToEngine`, which returns nothing, so not the null pointer either. -/
theorem C13_counterexample :
    shapeProfileFailure exTrt exInt8Build exBuilder exNetwork = none ∧
      (exInt8Build.int8 = true ∧ exInt8Build.calibration = "") ∧
      exIncompleteScales (networkToEngine exTrt exInt8Build exSys exBuilder exNetwork []).network =
        ScalesCall.returned false ∧
      (networkToEngineWith exIncompleteScales exTrt exInt8Build exSys exBuilder exNetwork []).engine =
        some (some { handle := 7 }) ∧
      (networkToEngineWith exIncompleteScales exTrt exInt8Build exSys exBuilder exNetwork []).calls =
        [Call.setTensorScales (networkToEngine exTrt exInt8Build exSys exBuilder exNetwork []).network,
          Call.buildEngineWithConfig
            (networkToEngine exTrt exInt8Build exSys exBuilder exNetwork []).builder
            (networkToEngine exTrt exInt8Build exSys exBuilder exNetwork []).network
            (networkToEngine exTrt exInt8Build exSys exBuilder exNetwork []).config] ∧
      exRaisingScales (networkToEngine exTrt exInt8Build exSys exBuilder exNetwork []).network =
        ScalesCall.raised ∧
      (networkToEngineWith exRaisingScales exTrt exInt8Build exSys exBuilder exNetwork []).engine =
        none ∧
      (networkToEngineWith exRaisingScales exTrt exInt8Build exSys exBuilder exNetwork []).engine ≠
        some none := by
  refine ⟨by decide, ⟨rfl, by decide⟩, rfl, by decide, by decide, rfl, by decide, by decide⟩

/-- C13 (amended): when the explicit-scale path is taken, a failure of the scale-setting routine
is never returned as the null pointer. If the call of line 158 raises, the exception leaves
`networkToEngine` right after that call: nothing is returned and the compiler has not been
called. If the call returns, whether or not the routine found all the scale data, the build
goes on as `networkToEngine` does: the call is the first made, null is returned only if the
requested DLA core is unavailable or the compiler returns null, when the core is not
unavailable the compiler is called next and its result returned, and the only line written
to `err` can be the one of the DLA core. -/
theorem C13_scale_routine_failure_is_not_returned_as_null (trt : TensorRT) (build : BuildOptions)
    (sys : SystemOptions) (builder : IBuilder) (network : INetworkDefinition) (err : List String)
    (scales : INetworkDefinition → ScalesCall)
    (hshape : shapeProfileFailure trt build builder network = none)
    (hexplicit : (build.int8 = true ∧ build.calibration = "") ∨ hasInt8Override build) :
    (scales (networkToEngine trt build sys builder network err).network = ScalesCall.raised →
      networkToEngineWith scales trt build sys builder network err =
          Ending.raised
            [Call.setTensorScales (networkToEngine trt build sys builder network err).network] ∧
        (networkToEngineWith scales trt build sys builder network err).engine = none ∧
        ∀ b n c, Call.buildEngineWithConfig b n c ∉
          (networkToEngineWith scales trt build sys builder network err).calls) ∧
    (∀ complete,
      scales (networkToEngine trt build sys builder network err).network =
        ScalesCall.returned complete →
      networkToEngineWith scales trt build sys builder network err =
          Ending.returned (networkToEngine trt build sys builder network err) ∧
        (∃ later, (networkToEngine trt build sys builder network err).calls =
          Call.setTensorScales (networkToEngine trt build sys builder network err).network :: later) ∧
        ((networkToEngine trt build sys builder network err).engine = none ↔
          deviceUnavailable sys builder ∨
            trt.buildEngineWithConfig (networkToEngine trt build sys builder network err).builder
              (networkToEngine trt build sys builder network err).network
              (networkToEngine trt build sys builder network err).config = none) ∧
        (¬ deviceUnavailable sys builder →
          (networkToEngine trt build sys builder network err).calls =
            [Call.setTensorScales (networkToEngine trt build sys builder network err).network,
              Call.buildEngineWithConfig (networkToEngine trt build sys builder network err).builder
                (networkToEngine trt build sys builder network err).network
                (networkToEngine trt build sys builder network err).config] ∧
          (networkToEngine trt build sys builder network err).engine =
            trt.buildEngineWithConfig (networkToEngine trt build sys builder network err).builder
              (networkToEngine trt build sys builder network err).network
              (networkToEngine trt build sys builder network err).config) ∧
        ((networkToEngine trt build sys builder network err).err = err ∨
          (networkToEngine trt build sys builder network err).err =
            err ++ ["Cannot create DLA engine, " ++ toString sys.DLACore ++ " not available"])) := by
  have hnet := networkToEngine_network trt build sys builder network err hshape
  have hwith := networkToEngineWith_shape_ok scales trt build sys builder network err hshape
  constructor
  · intro hraised
    rw [hnet] at hraised
    have hend : networkToEngineWith scales trt build sys builder network err =
        Ending.raised
          [Call.setTensorScales (networkToEngine trt build sys builder network err).network] := by
      rw [hwith, configureAndBuildWith_raised scales trt build sys _ _ _ _ err hexplicit hraised, hnet]
    rw [hend]
    refine ⟨rfl, rfl, ?_⟩
    intro b n c hmem
    simp [Ending.calls] at hmem
  · intro complete hreturned
    rw [hnet] at hreturned
    have hend : networkToEngineWith scales trt build sys builder network err =
        Ending.returned (networkToEngine trt build sys builder network err) := by
      rw [hwith, configureAndBuildWith_returned scales trt build sys _ _ _ _ err complete hreturned,
        networkToEngine_shape_ok trt build sys builder network err hshape]
    obtain ⟨_, hun, hav⟩ := networkToEngine_explicit trt build sys builder network err hshape hexplicit
    refine ⟨hend, ?_⟩
    by_cases h4 : deviceUnavailable sys builder
    · obtain ⟨he, hc, herr⟩ := hun h4
      exact ⟨⟨[], hc⟩, ⟨fun _ => Or.inl h4, fun _ => he⟩, fun h => absurd h4 h, Or.inr herr⟩
    · obtain ⟨hc, he, herr⟩ := hav h4
      refine ⟨⟨_, hc⟩, ⟨fun h => Or.inr (he ▸ h), ?_⟩, fun _ => ⟨hc, he⟩, Or.inl herr⟩
      rintro (h | h)
      · exact absurd h h4
      · rw [he]; exact h

/-- C13 (amended) at a concrete build, INT8 without calibration reference and no DLA core
requested: with a routine whose call raises nothing is returned, and with a routine whose call
returns without having found scale data the compiler's plan is returned. -/
theorem C13_witness :
    (networkToEngineWith exRaisingScales exTrt exInt8Build exSys exBuilder exNetwork [] =
        Ending.raised
          [Call.setTensorScales (networkToEngine exTrt exInt8Build exSys exBuilder exNetwork []).network] ∧
      (networkToEngineWith exRaisingScales exTrt exInt8Build exSys exBuilder exNetwork []).engine = none ∧
      ∀ b n c, Call.buildEngineWithConfig b n c ∉
        (networkToEngineWith exRaisingScales exTrt exInt8Build exSys exBuilder exNetwork []).calls) ∧
    (networkToEngineWith exIncompleteScales exTrt exInt8Build exSys exBuilder exNetwork [] =
        Ending.returned (networkToEngine exTrt exInt8Build exSys exBuilder exNetwork [])) ∧
    ((networkToEngine exTrt exInt8Build exSys exBuilder exNetwork []).engine = none ↔
      deviceUnavailable exSys exBuilder ∨
        exTrt.buildEngineWithConfig
          (networkToEngine exTrt exInt8Build exSys exBuilder exNetwork []).builder
          (networkToEngine exTrt exInt8Build exSys exBuilder exNetwork []).network
          (networkToEngine exTrt exInt8Build exSys exBuilder exNetwork []).config = none) ∧
    (networkToEngine exTrt exInt8Build exSys exBuilder exNetwork []).engine = some { handle := 7 } :=
  ⟨(C13_scale_routine_failure_is_not_returned_as_null exTrt exInt8Build exSys exBuilder exNetwork []
      exRaisingScales (by decide) (Or.inl ⟨rfl, by decide⟩)).1 rfl,
    ((C13_scale_routine_failure_is_not_returned_as_null exTrt exInt8Build exSys exBuilder exNetwork []
      exIncompleteScales (by decide) (Or.inl ⟨rfl, by decide⟩)).2 false rfl).1,
    ((C13_scale_routine_failure_is_not_returned_as_null exTrt exInt8Build exSys exBuilder exNetwork []
      exIncompleteScales (by decide) (Or.inl ⟨rfl, by decide⟩)).2 false rfl).2.2.1,
    by decide⟩

/-- C14: in a build that reaches the calibration stage with `build.int8` set, an empty
calibration reference and no INT8 entry in the format overrides, `setTensorScales` is called on
the network, no calibrator is attached, and the stage does not fail the build: the pipeline
goes on to the accelerator selection, which alone can fail it with the DLA diagnostic, and
otherwise to the one compiler call, whose result is returned with nothing written to `err`. -/
theorem C14_int8_without_calibration_uses_explicit_scales (trt : TensorRT) (build : BuildOptions)
    (sys : SystemOptions) (builder : IBuilder) (network : INetworkDefinition) (err : List String)
    (hshape : shapeProfileFailure trt build builder network = none)
    (hint8 : build.int8 = true) (hcal : build.calibration = "")
    (_hformats : ¬ hasInt8Override build) :
    Call.setTensorScales (networkToEngine trt build sys builder network err).network ∈
        (networkToEngine trt build sys builder network err).calls ∧
      (networkToEngine trt build sys builder network err).config.int8Calibrator = none ∧
      (deviceUnavailable sys builder →
        (networkToEngine trt build sys builder network err).engine = none ∧
        (networkToEngine trt build sys builder network err).calls =
          [Call.setTensorScales (networkToEngine trt build sys builder network err).network] ∧
        (networkToEngine trt build sys builder network err).err =
          err ++ ["Cannot create DLA engine, " ++ toString sys.DLACore ++ " not available"]) ∧
      (¬ deviceUnavailable sys builder →
        (networkToEngine trt build sys builder network err).calls =
          [Call.setTensorScales (networkToEngine trt build sys builder network err).network,
            Call.buildEngineWithConfig (networkToEngine trt build sys builder network err).builder
              (networkToEngine trt build sys builder network err).network
              (networkToEngine trt build sys builder network err).config] ∧
        (networkToEngine trt build sys builder network err).engine =
          trt.buildEngineWithConfig (networkToEngine trt build sys builder network err).builder
            (networkToEngine trt build sys builder network err).network
            (networkToEngine trt build sys builder network err).config ∧
        (networkToEngine trt build sys builder network err).err = err) := by
  obtain ⟨hcalib, hun, hav⟩ :=
    networkToEngine_explicit trt build sys builder network err hshape (Or.inl ⟨hint8, hcal⟩)
  refine ⟨?_, hcalib, hun, hav⟩
  by_cases h4 : deviceUnavailable sys builder
  · rw [(hun h4).2.1]
    exact List.mem_singleton.mpr rfl
  · rw [(hav h4).1]
    exact List.mem_cons_self _ _

/-- C14 at a concrete build: INT8 without calibration reference or override, no DLA core
requested; the build returns the compiler's plan. -/
theorem C14_witness :
    (Call.setTensorScales (networkToEngine exTrt exInt8Build exSys exBuilder exNetwork []).network ∈
        (networkToEngine exTrt exInt8Build exSys exBuilder exNetwork []).calls ∧
      (networkToEngine exTrt exInt8Build exSys exBuilder exNetwork []).config.int8Calibrator = none ∧
      (deviceUnavailable exSys exBuilder →
        (networkToEngine exTrt exInt8Build exSys exBuilder exNetwork []).engine = none ∧
        (networkToEngine exTrt exInt8Build exSys exBuilder exNetwork []).calls =
          [Call.setTensorScales (networkToEngine exTrt exInt8Build exSys exBuilder exNetwork []).network] ∧
        (networkToEngine exTrt exInt8Build exSys exBuilder exNetwork []).err =
          [] ++ ["Cannot create DLA engine, " ++ toString exSys.DLACore ++ " not available"]) ∧
      (¬ deviceUnavailable exSys exBuilder →
        (networkToEngine exTrt exInt8Build exSys exBuilder exNetwork []).calls =
          [Call.setTensorScales (networkToEngine exTrt exInt8Build exSys exBuilder exNetwork []).network,
            Call.buildEngineWithConfig
              (networkToEngine exTrt exInt8Build exSys exBuilder exNetwork []).builder
              (networkToEngine exTrt exInt8Build exSys exBuilder exNetwork []).network
              (networkToEngine exTrt exInt8Build exSys exBuilder exNetwork []).config] ∧
        (networkToEngine exTrt exInt8Build exSys exBuilder exNetwork []).engine =
          exTrt.buildEngineWithConfig
            (networkToEngine exTrt exInt8Build exSys exBuilder exNetwork []).builder
            (networkToEngine exTrt exInt8Build exSys exBuilder exNetwork []).network
            (networkToEngine exTrt exInt8Build exSys exBuilder exNetwork []).config ∧
        (networkToEngine exTrt exInt8Build exSys exBuilder exNetwork []).err = [])) ∧
    (networkToEngine exTrt exInt8Build exSys exBuilder exNetwork []).engine = some { handle := 7 } :=
  ⟨C14_int8_without_calibration_uses_explicit_scales exTrt exInt8Build exSys exBuilder exNetwork []
      (by decide) rfl (by decide)
      (fun ⟨f, hf, _⟩ => by
        rcases hf with hf | hf
        · exact absurd hf (List.not_mem_nil f)
        · exact absurd hf (List.not_mem_nil f)),
    by decide⟩

/-- C15: in a build that selects an available DLA core (no shape-profile failure,
`sys.DLACore` not `-1` and below the number of DLA cores), the final configuration has default
device type `kDLA`, DLA core `sys.DLACore`, the strict-types flag set, and the GPU-fallback
flag set exactly when `sys.fallback` is true. -/
theorem C15_available_core_is_bound_with_strict_types (trt : TensorRT) (build : BuildOptions)
    (sys : SystemOptions) (builder : IBuilder) (network : INetworkDefinition) (err : List String)
    (hshape : shapeProfileFailure trt build builder network = none)
    (h1 : sys.DLACore ≠ -1) (h2 : sys.DLACore < builder.nbDLACores) :
    (networkToEngine trt build sys builder network err).config.defaultDeviceType =
        some DeviceType.kDLA ∧
      (networkToEngine trt build sys builder network err).config.DLACore = some sys.DLACore ∧
      (networkToEngine trt build sys builder network err).config.getFlag BuilderFlag.kSTRICT_TYPES =
        true ∧
      ((networkToEngine trt build sys builder network err).config.getFlag BuilderFlag.kGPU_FALLBACK =
        true ↔ sys.fallback = true) := by
  rw [networkToEngine_selected trt build sys builder network err hshape h1 h2]
  refine ⟨rfl, rfl, ?_, ?_⟩
  · simp only [IBuilderConfig.getFlag]
    cases build.fp16 <;> cases build.int8 <;> cases sys.fallback <;> decide
  · simp only [IBuilderConfig.getFlag]
    cases build.fp16 <;> cases build.int8 <;> cases sys.fallback <;> decide

/-- C15 at a concrete build: DLA core 1 of 2 with fallback allowed. -/
theorem C15_witness :
    ((networkToEngine exTrt exBuild exFallbackSys exBuilder exNetwork []).config.defaultDeviceType =
        some DeviceType.kDLA ∧
      (networkToEngine exTrt exBuild exFallbackSys exBuilder exNetwork []).config.DLACore =
        some exFallbackSys.DLACore ∧
      (networkToEngine exTrt exBuild exFallbackSys exBuilder exNetwork []).config.getFlag
        BuilderFlag.kSTRICT_TYPES = true ∧
      ((networkToEngine exTrt exBuild exFallbackSys exBuilder exNetwork []).config.getFlag
        BuilderFlag.kGPU_FALLBACK = true ↔ exFallbackSys.fallback = true)) ∧
    (networkToEngine exTrt exBuild exDlaSys exBuilder exNetwork []).config.getFlag
      BuilderFlag.kGPU_FALLBACK = false :=
  ⟨C15_available_core_is_bound_with_strict_types exTrt exBuild exFallbackSys exBuilder exNetwork []
      (by decide) (by decide) (by decide),
    by decide⟩

/-- C16: in a build that reaches the accelerator-target stage, the engine capability of the
configuration is `kSAFE_DLA` when `build.safe` is set and `sys.DLACore` is not `-1`, `kSAFE_GPU`
when `build.safe` is set and `sys.DLACore` is `-1`, and as in the freshly created configuration
when `build.safe` is not set. -/
theorem C16_engine_capability_of_safety_build (trt : TensorRT) (build : BuildOptions)
    (sys : SystemOptions) (builder : IBuilder) (network : INetworkDefinition) (err : List String)
    (hshape : shapeProfileFailure trt build builder network = none) :
    (build.safe = true → sys.DLACore ≠ -1 →
        (networkToEngine trt build sys builder network err).config.engineCapability =
          some EngineCapability.kSAFE_DLA) ∧
      (build.safe = true → sys.DLACore = -1 →
        (networkToEngine trt build sys builder network err).config.engineCapability =
          some EngineCapability.kSAFE_GPU) ∧
      (build.safe = false →
        (networkToEngine trt build sys builder network err).config.engineCapability =
          IBuilderConfig.fresh.engineCapability) := by
  rw [networkToEngine_engineCapability trt build sys builder network err hshape]
  refine ⟨?_, ?_, ?_⟩
  · intro hs hd
    rw [if_pos hs, if_neg hd]
  · intro hs hd
    rw [if_pos hs, if_pos hd]
  · intro hs
    rw [if_neg (by simp [hs])]
    rfl

/-- C16 at concrete safety builds: no DLA core requested gives `kSAFE_GPU`, DLA core 1 gives
`kSAFE_DLA`, and a build without `safe` leaves the capability unset. -/
theorem C16_witness :
    (networkToEngine exTrt exSafeBuild exSys exBuilder exNetwork []).config.engineCapability =
        some EngineCapability.kSAFE_GPU ∧
      (networkToEngine exTrt exSafeBuild exDlaSys exBuilder exNetwork []).config.engineCapability =
        some EngineCapability.kSAFE_DLA ∧
      (networkToEngine exTrt exBuild exDlaSys exBuilder exNetwork []).config.engineCapability =
        IBuilderConfig.fresh.engineCapability :=
  ⟨(C16_engine_capability_of_safety_build exTrt exSafeBuild exSys exBuilder exNetwork []
      (by decide)).2.1 rfl rfl,
    (C16_engine_capability_of_safety_build exTrt exSafeBuild exDlaSys exBuilder exNetwork []
      (by decide)).1 rfl (by decide),
    (C16_engine_capability_of_safety_build exTrt exBuild exDlaSys exBuilder exNetwork []
      (by decide)).2.2 rfl⟩

/-- C17: in a build with no DLA core requested (`sys.DLACore = -1`) that reaches the compile
call, a builder flag is set in the final configuration exactly when it is FP16 and `build.fp16`
is set, or INT8 and `build.int8` is set (the flag mask is the sum of the two bits requested),
and the default device type and the DLA core are as in the freshly created configuration, the
strict-types and GPU-fallback flags are clear, whatever `sys.fallback` is. -/
theorem C17_no_accelerator_leaves_device_and_sets_requested_flags (trt : TensorRT)
    (build : BuildOptions) (sys : SystemOptions) (builder : IBuilder) (network : INetworkDefinition)
    (err : List String)
    (hshape : shapeProfileFailure trt build builder network = none) (h1 : sys.DLACore = -1) :
    (∃ before, (networkToEngine trt build sys builder network err).calls =
        before ++ [Call.buildEngineWithConfig (networkToEngine trt build sys builder network err).builder
          (networkToEngine trt build sys builder network err).network
          (networkToEngine trt build sys builder network err).config]) ∧
      (∀ f : BuilderFlag, (networkToEngine trt build sys builder network err).config.getFlag f = true ↔
        (f = BuilderFlag.kFP16 ∧ build.fp16 = true) ∨ (f = BuilderFlag.kINT8 ∧ build.int8 = true)) ∧
      (networkToEngine trt build sys builder network err).config.flags =
        (if build.fp16 then 1 else 0) + (if build.int8 then 2 else 0) ∧
      (networkToEngine trt build sys builder network err).config.defaultDeviceType =
        IBuilderConfig.fresh.defaultDeviceType ∧
      (networkToEngine trt build sys builder network err).config.DLACore =
        IBuilderConfig.fresh.DLACore ∧
      (networkToEngine trt build sys builder network err).config.getFlag BuilderFlag.kSTRICT_TYPES =
        false ∧
      (networkToEngine trt build sys builder network err).config.getFlag BuilderFlag.kGPU_FALLBACK =
        false := by
  obtain ⟨hc, _, hcalls, _⟩ :=
    networkToEngine_no_accelerator trt build sys builder network err hshape h1
  have hflags : (networkToEngine trt build sys builder network err).config.flags =
      (if build.fp16 then 1 <<< BuilderFlag.kFP16.toNat else 0) |||
        (if build.int8 then 1 <<< BuilderFlag.kINT8.toNat else 0) := by
    rw [hc]
    exact configBeforeAccelerator_flags build sys _ _
  have hdev : (networkToEngine trt build sys builder network err).config.defaultDeviceType = none ∧
      (networkToEngine trt build sys builder network err).config.DLACore = none := by
    rw [hc]
    exact configBeforeAccelerator_device build sys _ IBuilderConfig.fresh _
  refine ⟨hcalls, ?_, ?_, hdev.1, hdev.2, ?_, ?_⟩
  · intro f
    simp only [IBuilderConfig.getFlag, hflags]
    cases f <;> cases build.fp16 <;> cases build.int8 <;> decide
  · rw [hflags]
    cases build.fp16 <;> cases build.int8 <;> decide
  · simp only [IBuilderConfig.getFlag, hflags]
    cases build.fp16 <;> cases build.int8 <;> decide
  · simp only [IBuilderConfig.getFlag, hflags]
    cases build.fp16 <;> cases build.int8 <;> decide

/-- C17 at a concrete build: FP16 and INT8 both requested, no DLA core, fallback allowed; the
flag mask is 3 and no device field is set. -/
theorem C17_witness :
    ((∃ before, (networkToEngine exTrt exMixedBuild exGpuFallbackSys exBuilder exNetwork []).calls =
        before ++ [Call.buildEngineWithConfig
          (networkToEngine exTrt exMixedBuild exGpuFallbackSys exBuilder exNetwork []).builder
          (networkToEngine exTrt exMixedBuild exGpuFallbackSys exBuilder exNetwork []).network
          (networkToEngine exTrt exMixedBuild exGpuFallbackSys exBuilder exNetwork []).config]) ∧
      (∀ f : BuilderFlag,
        (networkToEngine exTrt exMixedBuild exGpuFallbackSys exBuilder exNetwork []).config.getFlag f =
          true ↔
        (f = BuilderFlag.kFP16 ∧ exMixedBuild.fp16 = true) ∨
          (f = BuilderFlag.kINT8 ∧ exMixedBuild.int8 = true)) ∧
      (networkToEngine exTrt exMixedBuild exGpuFallbackSys exBuilder exNetwork []).config.flags =
        (if exMixedBuild.fp16 then 1 else 0) + (if exMixedBuild.int8 then 2 else 0) ∧
      (networkToEngine exTrt exMixedBuild exGpuFallbackSys exBuilder exNetwork []).config.defaultDeviceType =
        IBuilderConfig.fresh.defaultDeviceType ∧
      (networkToEngine exTrt exMixedBuild exGpuFallbackSys exBuilder exNetwork []).config.DLACore =
        IBuilderConfig.fresh.DLACore ∧
      (networkToEngine exTrt exMixedBuild exGpuFallbackSys exBuilder exNetwork []).config.getFlag
        BuilderFlag.kSTRICT_TYPES = false ∧
      (networkToEngine exTrt exMixedBuild exGpuFallbackSys exBuilder exNetwork []).config.getFlag
        BuilderFlag.kGPU_FALLBACK = false) ∧
    (networkToEngine exTrt exMixedBuild exGpuFallbackSys exBuilder exNetwork []).config.flags = 3 :=
  ⟨C17_no_accelerator_leaves_device_and_sets_requested_flags exTrt exMixedBuild exGpuFallbackSys
      exBuilder exNetwork [] (by decide) rfl,
    by decide⟩

/-- C18 at the failing input: DLA core `-2` is requested from a builder with 2 DLA cores. The
index is not `-1` and lies outside `[0, 2)`, yet `-2 < 2` passes the test of line 172: the
configuration gets default device type `kDLA` and DLA core `-2`, nothing is written to `err`,
and the compiler is called and its plan returned. -/
theorem C18_negative_core_index_is_accepted :
    exNegativeSys.DLACore ≠ -1 ∧
      ¬ (0 ≤ exNegativeSys.DLACore ∧ exNegativeSys.DLACore < exBuilder.nbDLACores) ∧
      shapeProfileFailure exTrt exBuild exBuilder exNetwork = none ∧
      (networkToEngine exTrt exBuild exNegativeSys exBuilder exNetwork []).config.defaultDeviceType =
        some DeviceType.kDLA ∧
      (networkToEngine exTrt exBuild exNegativeSys exBuilder exNetwork []).config.DLACore =
        some (-2) ∧
      (networkToEngine exTrt exBuild exNegativeSys exBuilder exNetwork []).err = [] ∧
      (networkToEngine exTrt exBuild exNegativeSys exBuilder exNetwork []).engine =
        some { handle := 7 } ∧
      (networkToEngine exTrt exBuild exNegativeSys exBuilder exNetwork []).calls =
        [Call.buildEngineWithConfig
          (networkToEngine exTrt exBuild exNegativeSys exBuilder exNetwork []).builder
          (networkToEngine exTrt exBuild exNegativeSys exBuilder exNetwork []).network
          (networkToEngine exTrt exBuild exNegativeSys exBuilder exNetwork []).config] := by
  refine ⟨by decide, by decide, by decide, by decide, by decide, by decide, by decide, by decide⟩

/-- C19: in a dynamic-batch build in which every input tensor passes the per-tensor checks,
each input tensor's declared shape after the call is its shape before the call with dimension 0
set to `-1`: same rank, same dimensions other than 0. When instead an input is the first to
fail a per-tensor check (non-batch dynamic dimension or missing bounds), it is left with its
declared shape unchanged and its type and formats resolved. -/
theorem C19_batch_dimension_forced_after_registration (trt : TensorRT) (build : BuildOptions)
    (sys : SystemOptions) (builder : IBuilder) (network : INetworkDefinition) (err : List String)
    (hdyn : dynamicBatch build) :
    ((∀ t ∈ network.inputs, passesChecks build t) →
      (networkToEngine trt build sys builder network err).network.inputs.length =
          network.inputs.length ∧
        ∀ (i : Nat) (t : ITensor), network.inputs[i]? = some t →
          ∃ t1 : ITensor,
            (networkToEngine trt build sys builder network err).network.inputs[i]? = some t1 ∧
            t1.name = t.name ∧
            t1.dimensions = t.dimensions.setD0 (-1) ∧
            t1.dimensions.d0 = -1 ∧
            t1.dimensions.nbDims = t.dimensions.nbDims ∧
            ∀ k, 1 ≤ k → t1.dimensions.d[k]? = t.dimensions.d[k]?) ∧
    (∀ (pre post : List ITensor) (t : ITensor), network.inputs = pre ++ t :: post →
      (∀ u ∈ pre, passesChecks build u) → ¬ passesChecks build t →
      ∃ t1 : ITensor,
        (networkToEngine trt build sys builder network err).network.inputs[pre.length]? = some t1 ∧
        t1.name = t.name ∧
        t1.dimensions = t.dimensions ∧
        t1.type = (resolveFormat build.inputFormats pre.length t).type ∧
        t1.allowedFormats = (resolveFormat build.inputFormats pre.length t).allowedFormats ∧
        (build.inputFormats = [] →
          t1.type = DataType.kFLOAT ∧ t1.allowedFormats = 1 <<< TensorFormat.kLINEAR.toNat)) := by
  have hin := networkToEngine_inputs trt build sys builder network err
  constructor
  · intro hpass
    obtain ⟨la, hla, hlen, hget⟩ := inputLoop_pass build network.inputs 0 IOptimizationProfile.empty
      (fun t ht => (failsCheck_eq_false_iff build t).mpr (hpass t ht))
    rw [hin, batchStage_dynamic build builder hdyn, hla]
    refine ⟨hlen, ?_⟩
    intro i t ht
    obtain ⟨hi, hti⟩ := List.getElem?_eq_some_iff.mp ht
    have hvis := hget i hi
    rw [hti, Nat.zero_add] at hvis
    refine ⟨visited build i t, hvis, resolveFormat_name _ _ _, rfl, rfl, rfl, ?_⟩
    intro k hk
    obtain ⟨m, rfl⟩ : ∃ m, k = m + 1 := ⟨k - 1, by omega⟩
    cases hd : t.dimensions.d <;> simp [visited, Dims.setD0, hd]
  · intro pre post t hsplit hpre ht
    obtain ⟨_, _, la, hla, hlen, _⟩ :=
      shapeProfileFailure_first_failing trt build builder network pre post t hdyn hsplit
        (fun u hu => (failsCheck_eq_false_iff build u).mpr (hpre u hu))
        ((failsCheck_eq_true_iff build t).mpr ht)
    rw [hin, hla]
    refine ⟨resolveFormat build.inputFormats pre.length t, ?_, resolveFormat_name _ _ _,
      resolveFormat_dimensions _ _ _, rfl, rfl, ?_⟩
    · rw [List.getElem?_append_right (by omega), hlen, Nat.sub_self]
      exact List.getElem?_cons_zero
    · intro he
      rw [he]
      exact resolveFormat_default pre.length t

/-- C19 at concrete builds: the one input "a" ends with shape -1x3x224x224; and with inputs
"a", "c" where "c" has no bounds, "c" keeps its shape and is given type `kFLOAT`. -/
theorem C19_witness :
    (∃ t1 : ITensor,
        (networkToEngine exTrt exBuild exSys exBuilder exNetwork []).network.inputs[0]? = some t1 ∧
        t1.name = exStatic.name ∧
        t1.dimensions = exStatic.dimensions.setD0 (-1) ∧
        t1.dimensions.d0 = -1 ∧
        t1.dimensions.nbDims = exStatic.dimensions.nbDims ∧
        ∀ k, 1 ≤ k → t1.dimensions.d[k]? = exStatic.dimensions.d[k]?) ∧
    (∃ t1 : ITensor,
        (networkToEngine exTrt exBuild exSys exBuilder
          { inputs := [exStatic, exUnlisted], outputs := [] } []).network.inputs[[exStatic].length]? =
          some t1 ∧
        t1.name = exUnlisted.name ∧
        t1.dimensions = exUnlisted.dimensions ∧
        t1.type = (resolveFormat exBuild.inputFormats [exStatic].length exUnlisted).type ∧
        t1.allowedFormats =
          (resolveFormat exBuild.inputFormats [exStatic].length exUnlisted).allowedFormats ∧
        (exBuild.inputFormats = [] →
          t1.type = DataType.kFLOAT ∧ t1.allowedFormats = 1 <<< TensorFormat.kLINEAR.toNat)) ∧
    (networkToEngine exTrt exBuild exSys exBuilder exNetwork []).network.inputs.map
        (fun t => t.dimensions) = [{ nbDims := 4, d := [-1, 3, 224, 224, 0, 0, 0, 0] }] ∧
    (networkToEngine exTrt exBuild exSys exBuilder
        { inputs := [exStatic, exUnlisted], outputs := [] } []).network.inputs.map
        (fun t => (t.type, t.dimensions)) =
      [(DataType.kFLOAT, { nbDims := 4, d := [-1, 3, 224, 224, 0, 0, 0, 0] }),
        (DataType.kFLOAT, { nbDims := 2, d := [1, 10, 0, 0, 0, 0, 0, 0] })] :=
  have hpassA : passesChecks exBuild exStatic :=
    (failsCheck_eq_false_iff exBuild exStatic).mp (by decide)
  ⟨((C19_batch_dimension_forced_after_registration exTrt exBuild exSys exBuilder exNetwork []
        ⟨rfl, by decide⟩).1
      (fun t ht => by
        have ht1 : t = exStatic := by simpa [exNetwork] using ht
        subst ht1
        exact hpassA)).2 0 exStatic rfl,
    (C19_batch_dimension_forced_after_registration exTrt exBuild exSys exBuilder
        { inputs := [exStatic, exUnlisted], outputs := [] } [] ⟨rfl, by decide⟩).2
      [exStatic] [] exUnlisted rfl
      (fun u hu => by
        have hu1 : u = exStatic := by simpa using hu
        subst hu1
        exact hpassA)
      (fun hp => by
        obtain ⟨r, hr⟩ := hp.2
        have hnone : find exUnlisted.name exBuild.shapes = none := by decide
        rw [hnone] at hr
        cases hr),
    by decide, by decide⟩

end Onnx2TensorRT
